import Mathlib

/-! Local residual of the 1p2c box model and PVS volume variables.

Shallow embedding of `dumux/boxmodels/1p2c/1p2clocalresidual.hh` and
`dumux/boxmodels/pvs/pvsvolumevariables.hh`.

The C++ code is a template over the number type `Scalar`; the embedding is
generic over a linearly ordered field `K` in its place (exact arithmetic, so
rounding is outside the model).  Classes whose declarations are not part of
the sources at hand (volume, flux and boundary variables, boundary types,
indices, the grid) appear as structures holding what their accessors return.
-/

set_option linter.unusedVariables false

namespace Dumux

/-- The type `PrimaryVariables`: a `Dune::FieldVector<Scalar, numEq>`. -/
abbrev PrimaryVariables (K : Type) (numEq : Nat) := Fin numEq → K

/-- The type `Vector`: a `Dune::FieldVector<Scalar, dimWorld>`. -/
abbrev Vector (K : Type) (dimWorld : Nat) := Fin dimWorld → K

/-- The statement `v[i] += x` on a field vector. -/
def addAt {K : Type} [Add K] {n : Nat} (v : Fin n → K) (i : Fin n) (x : K) : Fin n → K :=
  Function.update v i (v i + x)

/-- The loop `tmp = 0; for (int i = 0; i < Vector::size; ++i) tmp += grad[i]*normal[i];`. -/
def gradNormalLoop {K : Type} [Zero K] [Add K] [Mul K] {dimWorld : Nat}
    (grad normal : Vector K dimWorld) : K :=
  (List.finRange dimWorld).foldl (fun tmp i => tmp + grad i * normal i) 0

/-- The enum values taken from `Indices` (`OnePTwoCIndices`), whose declaration is not
among the sources: they are parameters of the model. -/
structure OnePTwoCIndices (numEq : Nat) where
  /-- Index of the fluid phase. -/
  phaseIdx : Nat
  /-- Index of the transported component. -/
  comp1Idx : Nat
  /-- Index of the continuity (total mass) equation. -/
  contiEqIdx : Fin numEq
  /-- Index of the transport equation. -/
  transEqIdx : Fin numEq

/-- What `volVars.fluidState()` offers to the local residual. -/
structure OnePTwoCFluidState (K : Type) where
  /-- Value of `massFrac(phaseIdx, compIdx)`. -/
  massFrac : Nat → Nat → K
  /-- Value of `moleFrac(phaseIdx, compIdx)`. -/
  moleFrac : Nat → Nat → K

/-- The accessors of `VolumeVariables` read by the local residual. -/
structure VolumeVariables (K : Type) where
  /-- Value of `density()`. -/
  density : K
  /-- Value of `molarDensity()`. -/
  molarDensity : K
  /-- Value of `viscosity()`. -/
  viscosity : K
  /-- Value of `porosity()`. -/
  porosity : K
  /-- Value of `massFrac(compIdx)`. -/
  massFrac : Nat → K
  /-- Value of `moleFrac(compIdx)`. -/
  moleFrac : Nat → K
  /-- Value of `fluidState()`. -/
  fluidState : OnePTwoCFluidState K

/-- A sub-control-volume face: only its `normal` is read. -/
structure SCVFace (K : Type) (dimWorld : Nat) where
  /-- The member `normal`. -/
  normal : Vector K dimWorld

/-- The accessors of `FluxVariables` read by the local residual. -/
structure FluxVariables (K : Type) (dimWorld : Nat) where
  /-- Value of `upstreamIdx()`. -/
  upstreamIdx : Nat
  /-- Value of `downstreamIdx()`. -/
  downstreamIdx : Nat
  /-- Value of `KmvpNormal()`. -/
  KmvpNormal : K
  /-- Value of `massFracGrad(compIdx)`. -/
  massFracGrad : Nat → Vector K dimWorld
  /-- Value of `moleFracGrad(compIdx)`. -/
  moleFracGrad : Nat → Vector K dimWorld
  /-- Value of `face()`. -/
  face : SCVFace K dimWorld
  /-- Value of `porousDiffCoeff()`. -/
  porousDiffCoeff : K
  /-- Value of `densityAtIP()`. -/
  densityAtIP : K
  /-- Value of `molarDensityAtIP()`. -/
  molarDensityAtIP : K

/-- The accessors of `BoundaryVariables` read by the local residual. -/
structure BoundaryVariables (K : Type) (dimWorld : Nat) where
  /-- Value of `KmvpNormal()`. -/
  KmvpNormal : K
  /-- Value of `massFracGrad(compIdx)`. -/
  massFracGrad : Nat → Vector K dimWorld
  /-- Value of `moleFracGrad(compIdx)`. -/
  moleFracGrad : Nat → Vector K dimWorld
  /-- Value of `boundaryFace()`. -/
  boundaryFace : SCVFace K dimWorld
  /-- Value of `porousDiffCoeff()`. -/
  porousDiffCoeff : K
  /-- Value of `densityAtIP()`. -/
  densityAtIP : K
  /-- Value of `molarDensityAtIP()`. -/
  molarDensityAtIP : K

/-- The accessors of `BoundaryTypes` (boundary types of one sub-control volume). -/
structure BoundaryTypes (numEq : Nat) where
  /-- Value of `hasOutflow()`. -/
  hasOutflow : Bool
  /-- Value of `isOutflow(equationIdx)`. -/
  isOutflow : Fin numEq → Bool

/-- What `bcTypes_()` returns: the boundary types of all sub-control volumes of the
element, with the three element-wide flags. -/
structure ElementBoundaryTypes (numEq : Nat) where
  /-- Value of `hasNeumann()`. -/
  hasNeumann : Bool
  /-- Value of `hasOutflow()`. -/
  hasOutflow : Bool
  /-- Value of `hasDirichlet()`. -/
  hasDirichlet : Bool
  /-- Value of `bcTypes_(scvIdx)`. -/
  scv : Nat → BoundaryTypes numEq

/-- An intersection of the element with a neighbour or the boundary. -/
structure Intersection where
  /-- Value of `boundary()`. -/
  boundary : Bool
  /-- Value of `indexInInside()`. -/
  indexInInside : Nat

/-- The state of an `OnePTwoCLocalResidual` object, with what it reaches through
`problem_()`, `elem_()`, `fvElemGeom_()` and `gridView_()`. -/
structure OnePTwoCLocalResidual (K : Type) (numEq dimWorld : Nat) where
  /-- The property `UseMoles`. -/
  useMoles : Bool
  /-- The enum values of the class. -/
  indices : OnePTwoCIndices numEq
  /-- The member `upwindWeight_`. -/
  upwindWeight_ : K
  /-- Value of `curVolVars_()`, indexed by sub-control volume. -/
  curVolVars_ : Nat → VolumeVariables K
  /-- Value of `prevVolVars_()`, indexed by sub-control volume. -/
  prevVolVars_ : Nat → VolumeVariables K
  /-- The flux variables constructed for face `faceId`. -/
  fluxVars : Nat → FluxVariables K dimWorld
  /-- The boundary variables constructed for `boundaryFaceIdx` and `scvIdx`. -/
  boundaryVars : Nat → Nat → BoundaryVariables K dimWorld
  /-- Value of `bcTypes_()`. -/
  bcTypes_ : ElementBoundaryTypes numEq
  /-- The intersections from `ibegin(elem_())` to `iend(elem_())`. -/
  intersections : List Intersection
  /-- Value of `refElem.size(faceIdx, 1, dim)`. -/
  refElemSize : Nat → Nat
  /-- Value of `refElem.subEntity(faceIdx, 1, faceVertIdx, dim)`. -/
  refElemSubEntity : Nat → Nat → Nat
  /-- Value of `fvElemGeom_().boundaryFaceIndex(faceIdx, faceVertIdx)`. -/
  boundaryFaceIndex : Nat → Nat → Nat
  /-- The member `residual_`, indexed by sub-control volume and equation. -/
  residual_ : Nat → PrimaryVariables K numEq

namespace OnePTwoCLocalResidual

variable {K : Type} [LinearOrderedField K] {numEq dimWorld : Nat}

/-- The method `computeStorage(result, scvIdx, usePrevSol)`; returns the new `result`. -/
def computeStorage (self : OnePTwoCLocalResidual K numEq dimWorld)
    (result : PrimaryVariables K numEq) (scvIdx : Nat) (usePrevSol : Bool) :
    PrimaryVariables K numEq :=
  let elemVolVars := if usePrevSol then self.prevVolVars_ else self.curVolVars_
  let volVars := elemVolVars scvIdx
  let result : PrimaryVariables K numEq := fun _ => 0
  if !self.useMoles then
    let result := addAt result self.indices.contiEqIdx
      (volVars.density * volVars.porosity)
    addAt result self.indices.transEqIdx
      (volVars.density * volVars.massFrac self.indices.comp1Idx * volVars.porosity)
  else
    let result := addAt result self.indices.contiEqIdx
      (volVars.molarDensity * volVars.porosity)
    addAt result self.indices.transEqIdx
      (volVars.molarDensity * volVars.moleFrac self.indices.comp1Idx * volVars.porosity)

/-- The method `computeAdvectiveFlux(flux, fluxVars)`; returns the new `flux`.  The
divisions by `viscosity` are divisions of the field `K`: they are those of the code where
the viscosity of the upstream and of the downstream volume variables is not zero. -/
def computeAdvectiveFlux (self : OnePTwoCLocalResidual K numEq dimWorld)
    (flux : PrimaryVariables K numEq) (fluxVars : FluxVariables K dimWorld) :
    PrimaryVariables K numEq :=
  let up := self.curVolVars_ fluxVars.upstreamIdx
  let dn := self.curVolVars_ fluxVars.downstreamIdx
  if !self.useMoles then
    let flux := addAt flux self.indices.contiEqIdx
      (fluxVars.KmvpNormal *
        (self.upwindWeight_ * up.density / up.viscosity
          + ((1 - self.upwindWeight_) * dn.density / dn.viscosity)))
    addAt flux self.indices.transEqIdx
      (fluxVars.KmvpNormal *
        (self.upwindWeight_ * up.density * up.massFrac self.indices.comp1Idx / up.viscosity
          + (1 - self.upwindWeight_) * dn.density * dn.massFrac self.indices.comp1Idx
              / dn.viscosity))
  else
    let flux := addAt flux self.indices.contiEqIdx
      (fluxVars.KmvpNormal *
        (self.upwindWeight_ * up.molarDensity / up.viscosity
          + ((1 - self.upwindWeight_) * dn.molarDensity / dn.viscosity)))
    addAt flux self.indices.transEqIdx
      (fluxVars.KmvpNormal *
        (self.upwindWeight_ * up.molarDensity * up.moleFrac self.indices.comp1Idx
              / up.viscosity
          + (1 - self.upwindWeight_) * dn.molarDensity * dn.moleFrac self.indices.comp1Idx
              / dn.viscosity))

/-- The method `computeDiffusiveFlux(flux, fluxVars)`; returns the new `flux`. -/
def computeDiffusiveFlux (self : OnePTwoCLocalResidual K numEq dimWorld)
    (flux : PrimaryVariables K numEq) (fluxVars : FluxVariables K dimWorld) :
    PrimaryVariables K numEq :=
  let tmp : K := 0
  if !self.useMoles then
    let tmp := gradNormalLoop (fluxVars.massFracGrad self.indices.comp1Idx) fluxVars.face.normal
    let tmp := tmp * (-1)
    let tmp := tmp * (fluxVars.porousDiffCoeff * fluxVars.densityAtIP)
    addAt flux self.indices.transEqIdx tmp
  else
    let tmp := gradNormalLoop (fluxVars.moleFracGrad self.indices.comp1Idx) fluxVars.face.normal
    let tmp := tmp * (-1)
    let tmp := tmp * (fluxVars.porousDiffCoeff * fluxVars.molarDensityAtIP)
    addAt flux self.indices.transEqIdx tmp

/-- The method `computeFlux(flux, faceId)`; returns the new `flux`. -/
def computeFlux (self : OnePTwoCLocalResidual K numEq dimWorld)
    (flux : PrimaryVariables K numEq) (faceId : Nat) : PrimaryVariables K numEq :=
  let flux : PrimaryVariables K numEq := fun _ => 0
  let fluxVars := self.fluxVars faceId
  let flux := self.computeAdvectiveFlux flux fluxVars
  self.computeDiffusiveFlux flux fluxVars

/-- The method `computeOutflowValues_(values, boundaryVars, scvIdx, boundaryFaceIdx)`;
returns the new `values`.  The divisions by `viscosity` are divisions of the field `K`:
they are those of the code where the viscosity of the volume variables of `scvIdx` is not
zero. -/
def computeOutflowValues_ (self : OnePTwoCLocalResidual K numEq dimWorld)
    (values : PrimaryVariables K numEq) (boundaryVars : BoundaryVariables K dimWorld)
    (scvIdx : Nat) (boundaryFaceIdx : Nat) : PrimaryVariables K numEq :=
  let vertVars := self.curVolVars_ scvIdx
  let values :=
    if !self.useMoles then
      addAt values self.indices.contiEqIdx
        (boundaryVars.KmvpNormal * vertVars.density / vertVars.viscosity)
    else
      addAt values self.indices.contiEqIdx
        (boundaryVars.KmvpNormal * vertVars.molarDensity / vertVars.viscosity)
  if !self.useMoles then
    let values := addAt values self.indices.transEqIdx
      (boundaryVars.KmvpNormal * vertVars.density / vertVars.viscosity
        * vertVars.fluidState.massFrac self.indices.phaseIdx self.indices.comp1Idx)
    let tmp := gradNormalLoop (boundaryVars.massFracGrad self.indices.comp1Idx)
      boundaryVars.boundaryFace.normal
    let tmp := tmp * (-1)
    let tmp := tmp * (boundaryVars.porousDiffCoeff * boundaryVars.densityAtIP)
    addAt values self.indices.transEqIdx tmp
  else
    let values := addAt values self.indices.transEqIdx
      (boundaryVars.KmvpNormal * vertVars.molarDensity / vertVars.viscosity
        * vertVars.fluidState.moleFrac self.indices.phaseIdx self.indices.comp1Idx)
    let tmp := gradNormalLoop (boundaryVars.moleFracGrad self.indices.comp1Idx)
      boundaryVars.boundaryFace.normal
    let tmp := tmp * (-1)
    let tmp := tmp * (boundaryVars.porousDiffCoeff * boundaryVars.molarDensityAtIP)
    addAt values self.indices.transEqIdx tmp

/-- The loop over `equationIdx` at the end of `evalOutflowSegment_`: it adds
`values[equationIdx]` to `residual_[scvIdx][equationIdx]` for the outflow equations. -/
def addOutflowValues (bcTypes : BoundaryTypes numEq) (values : PrimaryVariables K numEq)
    (scvIdx : Nat) (residual : Nat → PrimaryVariables K numEq) :
    Nat → PrimaryVariables K numEq :=
  (List.finRange numEq).foldl
    (fun residual equationIdx =>
      if !bcTypes.isOutflow equationIdx then residual
      else Function.update residual scvIdx
        (addAt (residual scvIdx) equationIdx (values equationIdx)))
    residual

/-- The method `evalOutflowSegment_(isIt, scvIdx, boundaryFaceIdx)`; returns the object
with its new `residual_`. -/
def evalOutflowSegment_ (self : OnePTwoCLocalResidual K numEq dimWorld)
    (isIt : Intersection) (scvIdx : Nat) (boundaryFaceIdx : Nat) :
    OnePTwoCLocalResidual K numEq dimWorld :=
  let bcTypes := self.bcTypes_.scv scvIdx
  if bcTypes.hasOutflow then
    let boundaryVars := self.boundaryVars boundaryFaceIdx scvIdx
    let values : PrimaryVariables K numEq := fun _ => 0
    let values := self.computeOutflowValues_ values boundaryVars scvIdx boundaryFaceIdx
    { self with residual_ := addOutflowValues bcTypes values scvIdx self.residual_ }
  else
    self

/-- The method `evalOutflow_()`; returns the object with its new `residual_`. -/
def evalOutflow_ (self : OnePTwoCLocalResidual K numEq dimWorld) :
    OnePTwoCLocalResidual K numEq dimWorld :=
  self.intersections.foldl
    (fun self isIt =>
      if !isIt.boundary then self
      else
        let faceIdx := isIt.indexInInside
        let numFaceVerts := self.refElemSize faceIdx
        (List.range numFaceVerts).foldl
          (fun self faceVertIdx =>
            let elemVertIdx := self.refElemSubEntity faceIdx faceVertIdx
            let boundaryFaceIdx := self.boundaryFaceIndex faceIdx faceVertIdx
            self.evalOutflowSegment_ isIt elemVertIdx boundaryFaceIdx)
          self)
    self

/-- The method `evalBoundary_()`.  The methods `evalNeumann_` and `evalDirichlet_` belong
to the parent class `BoxLocalResidual`, which is not among the sources: they are
parameters. -/
def evalBoundary_
    (evalNeumann_ evalDirichlet_ :
      OnePTwoCLocalResidual K numEq dimWorld → OnePTwoCLocalResidual K numEq dimWorld)
    (self : OnePTwoCLocalResidual K numEq dimWorld) :
    OnePTwoCLocalResidual K numEq dimWorld :=
  let self := if self.bcTypes_.hasNeumann then evalNeumann_ self else self
  let self := if self.bcTypes_.hasOutflow then self.evalOutflow_ else self
  if self.bcTypes_.hasDirichlet then evalDirichlet_ self else self

/-- The constructor `OnePTwoCLocalResidual()`: it sets `upwindWeight_` to
`GET_PARAM(TypeTag, Scalar, UpwindWeight)`, the configured value `upwindWeight`; the other
members are those of `self`. -/
def new (upwindWeight : K) (self : OnePTwoCLocalResidual K numEq dimWorld) :
    OnePTwoCLocalResidual K numEq dimWorld :=
  { self with upwindWeight_ := upwindWeight }

/-- The object with its member `residual_` replaced by `residual`, the other members
kept: the state in which an evaluation starts from the residual `residual`. -/
def setResidual (self : OnePTwoCLocalResidual K numEq dimWorld)
    (residual : Nat → PrimaryVariables K numEq) : OnePTwoCLocalResidual K numEq dimWorld :=
  { self with residual_ := residual }

end OnePTwoCLocalResidual

/-! ### The quantities selected by the formulation, and a concrete element -/

section Formulation

variable {K : Type} {dimWorld : Nat}

/-- The density of the formulation: `molarDensity()` when `useMoles`, else `density()`. -/
def VolumeVariables.rho (useMoles : Bool) (v : VolumeVariables K) : K :=
  if useMoles then v.molarDensity else v.density

/-- The fraction of the formulation: `moleFrac(compIdx)` when `useMoles`, else
`massFrac(compIdx)`. -/
def VolumeVariables.frac (useMoles : Bool) (v : VolumeVariables K) (compIdx : Nat) : K :=
  if useMoles then v.moleFrac compIdx else v.massFrac compIdx

/-- The fraction of the formulation read through `fluidState()`. -/
def VolumeVariables.fluidStateFrac (useMoles : Bool) (v : VolumeVariables K)
    (phaseIdx compIdx : Nat) : K :=
  if useMoles then v.fluidState.moleFrac phaseIdx compIdx
  else v.fluidState.massFrac phaseIdx compIdx

/-- The fraction gradient of the formulation at a face. -/
def FluxVariables.fracGrad (useMoles : Bool) (fv : FluxVariables K dimWorld) (compIdx : Nat) :
    Vector K dimWorld :=
  if useMoles then fv.moleFracGrad compIdx else fv.massFracGrad compIdx

/-- The density of the formulation at the integration point of a face. -/
def FluxVariables.rhoAtIP (useMoles : Bool) (fv : FluxVariables K dimWorld) : K :=
  if useMoles then fv.molarDensityAtIP else fv.densityAtIP

/-- The fraction gradient of the formulation at a boundary face. -/
def BoundaryVariables.fracGrad (useMoles : Bool) (bv : BoundaryVariables K dimWorld)
    (compIdx : Nat) : Vector K dimWorld :=
  if useMoles then bv.moleFracGrad compIdx else bv.massFracGrad compIdx

/-- The density of the formulation at the integration point of a boundary face. -/
def BoundaryVariables.rhoAtIP (useMoles : Bool) (bv : BoundaryVariables K dimWorld) : K :=
  if useMoles then bv.molarDensityAtIP else bv.densityAtIP

end Formulation

/-- Volume variables of a sub-control volume, used in the examples: mean molar mass 20 and
molar mass 10 of component 1 relate the molar to the mass quantities. -/
def exampleVolVarsA : VolumeVariables ℚ where
  density := 1000
  molarDensity := 50
  viscosity := 2
  porosity := 1 / 4
  massFrac := fun c => if c = 1 then 1 / 10 else 9 / 10
  moleFrac := fun c => if c = 1 then 1 / 5 else 4 / 5
  fluidState :=
    { massFrac := fun _ c => if c = 1 then 1 / 10 else 9 / 10
      moleFrac := fun _ c => if c = 1 then 1 / 5 else 4 / 5 }

/-- Volume variables of a second sub-control volume, used in the examples. -/
def exampleVolVarsB : VolumeVariables ℚ where
  density := 800
  molarDensity := 40
  viscosity := 4
  porosity := 1 / 2
  massFrac := fun c => if c = 1 then 3 / 10 else 7 / 10
  moleFrac := fun c => if c = 1 then 1 / 2 else 1 / 2
  fluidState :=
    { massFrac := fun _ c => if c = 1 then 3 / 10 else 7 / 10
      moleFrac := fun _ c => if c = 1 then 1 / 2 else 1 / 2 }

/-- Flux variables of the examples: face 0 goes from sub-control volume 0 to 1, every other
face has sub-control volume 0 on both sides. -/
def exampleFluxVars (faceId : Nat) : FluxVariables ℚ 2 where
  upstreamIdx := 0
  downstreamIdx := if faceId = 0 then 1 else 0
  KmvpNormal := 3
  massFracGrad := fun _ => ![1, 2]
  moleFracGrad := fun _ => ![2, 1]
  face := ⟨![1 / 2, 1]⟩
  porousDiffCoeff := 1 / 100
  densityAtIP := 900
  molarDensityAtIP := 45

/-- Boundary variables of the examples; they carry the values of `exampleFluxVars`. -/
def exampleBoundaryVars : BoundaryVariables ℚ 2 where
  KmvpNormal := 3
  massFracGrad := fun _ => ![1, 2]
  moleFracGrad := fun _ => ![2, 1]
  boundaryFace := ⟨![1 / 2, 1]⟩
  porousDiffCoeff := 1 / 100
  densityAtIP := 900
  molarDensityAtIP := 45

/-- A two-equation local residual on an element with one boundary intersection, whose one
vertex is sub-control volume 0; the continuity equation (index 0) is an outflow equation
there, the transport equation (index 1) is not. -/
def exampleResidual (useMoles : Bool) (upwindWeight : ℚ) : OnePTwoCLocalResidual ℚ 2 2 where
  useMoles := useMoles
  indices := { phaseIdx := 0, comp1Idx := 1, contiEqIdx := 0, transEqIdx := 1 }
  upwindWeight_ := upwindWeight
  curVolVars_ := fun scvIdx => if scvIdx = 0 then exampleVolVarsA else exampleVolVarsB
  prevVolVars_ := fun scvIdx => if scvIdx = 0 then exampleVolVarsB else exampleVolVarsA
  fluxVars := exampleFluxVars
  boundaryVars := fun _ _ => exampleBoundaryVars
  bcTypes_ :=
    { hasNeumann := false
      hasOutflow := true
      hasDirichlet := false
      scv := fun _ => { hasOutflow := true, isOutflow := fun eq => decide (eq = 0) } }
  intersections := [⟨true, 0⟩]
  refElemSize := fun _ => 1
  refElemSubEntity := fun _ _ => 0
  boundaryFaceIndex := fun _ _ => 0
  residual_ := fun _ _ => 0

/-! ## PVS volume variables -/

/-- The enum values taken from `Indices` of the PVS model, whose declaration is not among
the sources: they are parameters of the model. -/
structure PvsIndices where
  /-- Index of the first switching primary variable. -/
  switch0Idx : Nat
  /-- Index of the pressure primary variable. -/
  pressure0Idx : Nat

/-- What the primary variables of the PVS model (`elemCtx.primaryVars(scvIdx, timeIdx)`)
offer to `update`; the class itself is not among the sources. -/
structure PvsPrimaryVariables (K : Type) where
  /-- Value of `priVars[i]`. -/
  get : Nat → K
  /-- Value of `explicitSaturationValue(phaseIdx)`. -/
  explicitSaturationValue : Nat → K
  /-- Value of `implicitSaturationIdx()`. -/
  implicitSaturationIdx : Nat
  /-- Value of `lowestPresentPhaseIdx()`. -/
  lowestPresentPhaseIdx : Nat
  /-- Value of `phaseIsPresent(phaseIdx)`. -/
  phaseIsPresent : Nat → Bool
  /-- Value of `phasePresence()`. -/
  phasePresence : Nat

/-- The quantities stored by a `CompositionalFluidState`. -/
structure CompositionalFluidState (K : Type) where
  /-- Value of `saturation(phaseIdx)`. -/
  saturation : Nat → K
  /-- Value of `pressure(phaseIdx)`. -/
  pressure : Nat → K
  /-- Value of `temperature(phaseIdx)`. -/
  temperature : Nat → K
  /-- Value of `moleFraction(phaseIdx, compIdx)`. -/
  moleFraction : Nat → Nat → K
  /-- Value of `density(phaseIdx)`. -/
  density : Nat → K
  /-- Value of `viscosity(phaseIdx)`. -/
  viscosity : Nat → K
  /-- Value of `enthalpy(phaseIdx)`. -/
  enthalpy : Nat → K

namespace CompositionalFluidState

variable {K : Type}

/-- The method `setSaturation(phaseIdx, value)`. -/
def setSaturation (fs : CompositionalFluidState K) (phaseIdx : Nat) (value : K) :
    CompositionalFluidState K :=
  { fs with saturation := Function.update fs.saturation phaseIdx value }

/-- The method `setPressure(phaseIdx, value)`. -/
def setPressure (fs : CompositionalFluidState K) (phaseIdx : Nat) (value : K) :
    CompositionalFluidState K :=
  { fs with pressure := Function.update fs.pressure phaseIdx value }

/-- The method `setMoleFraction(phaseIdx, compIdx, value)`. -/
def setMoleFraction (fs : CompositionalFluidState K) (phaseIdx compIdx : Nat) (value : K) :
    CompositionalFluidState K :=
  let row := Function.update (fs.moleFraction phaseIdx) compIdx value
  { fs with moleFraction := Function.update fs.moleFraction phaseIdx row }

end CompositionalFluidState

/-- An auxiliary constraint `MMPCAuxConstraint<Scalar>` after `set(phaseIdx, compIdx, value)`. -/
structure MMPCAuxConstraint (K : Type) where
  /-- Phase of the pinned mole fraction. -/
  phaseIdx : Nat
  /-- Component of the pinned mole fraction. -/
  compIdx : Nat
  /-- The value it is pinned to. -/
  value : K

/-- One execution of `auxConstraints[auxIdx].set(phaseIdx, compIdx, priVars[switch0Idx + switchIdx])`. -/
structure AuxWrite (K : Type) where
  /-- The array index written. -/
  auxIdx : Nat
  /-- The value of `switchIdx` at the write. -/
  switchIdx : Nat
  /-- The constraint stored. -/
  constraint : MMPCAuxConstraint K

/-- Modelled from the spec: the constraint solvers `ComputeFromReferencePhase` and
`MiscibleMultiPhaseComposition` are not among the sources; by §4.1 a solve "mutates the
fluid state in place by setting mole fractions, phase densities, and (when requested)
viscosities and enthalpies".  `update` requests viscosities and no enthalpies, so a
successful solve yields these three tables. -/
structure ConstraintSolverResult (K : Type) where
  /-- The mole fractions set by the solve. -/
  moleFraction : Nat → Nat → K
  /-- The densities set by the solve. -/
  density : Nat → K
  /-- The viscosities set by the solve. -/
  viscosity : Nat → K

/-- Modelled from the spec: the energy module is not among the sources; by §4.2 it
computes the "energy-related quantities (temperature per phase, enthalpy)". -/
structure EnergyResult (K : Type) where
  /-- The temperatures after the energy update. -/
  temperature : Nat → K
  /-- The enthalpies after the energy update. -/
  enthalpy : Nat → K

/-- What `PvsVolumeVariables::update` reaches through its template parameters and its
element context: the property values, the problem, the material law, the energy module and
the constraint solvers.  `E` is the type of the exceptions, `ParameterCache` the type
`FluidSystem::ParameterCache`, `MaterialLawParams` the parameters of the material law. -/
structure PvsContext (K E ParameterCache MaterialLawParams : Type) where
  /-- The property `NumPhases`. -/
  numPhases : Nat
  /-- The property `NumComponents`. -/
  numComponents : Nat
  /-- The enum values from `Indices`. -/
  indices : PvsIndices
  /-- Value of `elemCtx.primaryVars(scvIdx, timeIdx)`. -/
  primaryVars : Nat → Nat → PvsPrimaryVariables K
  /-- Result of `problem.materialLawParams(elemCtx, scvIdx, timeIdx)`. -/
  materialLawParams : Nat → Nat → Except E MaterialLawParams
  /-- Result of `problem.porosity(elemCtx, scvIdx, timeIdx)`. -/
  porosity : Nat → Nat → Except E K
  /-- The vector `pC` filled by `MaterialLaw::capillaryPressures(pC, params, fluidState)`. -/
  capillaryPressures : MaterialLawParams → CompositionalFluidState K → Nat → K
  /-- The array filled by `MaterialLaw::relativePermeabilities(kr, params, fluidState)`. -/
  relativePermeabilities : MaterialLawParams → CompositionalFluidState K → Nat → K
  /-- The fluid state after `EnergyVolumeVariables::updateTemperatures_`. -/
  updateTemperatures_ :
    CompositionalFluidState K → Nat → Nat → Except E (CompositionalFluidState K)
  /-- Result of `EnergyVolumeVariables::update_(fluidState, paramCache, elemCtx, scvIdx, timeIdx)`. -/
  energyUpdate_ :
    CompositionalFluidState K → ParameterCache → Nat → Nat → Except E (EnergyResult K)
  /-- A default-constructed `FluidSystem::ParameterCache`. -/
  paramCache : ParameterCache
  /-- Result of `ComputeFromReferencePhase::solve(fluidState, paramCache, refPhaseIdx,
  setViscosity, setEnthalpy)`. -/
  computeFromReferencePhase :
    CompositionalFluidState K → ParameterCache → Nat → Bool → Bool →
      Except E (ConstraintSolverResult K × ParameterCache)
  /-- Result of `MiscibleMultiPhaseComposition::solve(fluidState, paramCache, phasePresence,
  auxConstraints, numAuxConstraints, setViscosity, setEnthalpy)`. -/
  miscibleMultiPhaseComposition :
    CompositionalFluidState K → ParameterCache → Nat → (Nat → Option (MMPCAuxConstraint K)) →
      Int → Bool → Bool → Except E (ConstraintSolverResult K × ParameterCache)

/-- The members of a `PvsVolumeVariables` object. -/
structure PvsVolumeVariables (K : Type) where
  /-- The member `porosity_`. -/
  porosity_ : K
  /-- The member `relativePermeability_`. -/
  relativePermeability_ : Nat → K
  /-- The member `fluidState_`. -/
  fluidState_ : CompositionalFluidState K

namespace PvsVolumeVariables

variable {K : Type} [LinearOrderedField K] {E ParameterCache MaterialLawParams : Type}

/-- The first block of `update` ("set the saturations"): the loop over all phases and the
assignment of the implicit saturation. -/
def setSaturations (numPhases : Nat) (priVars : PvsPrimaryVariables K)
    (fluidState_ : CompositionalFluidState K) : CompositionalFluidState K :=
  let st := (List.range numPhases).foldl
    (fun (st : CompositionalFluidState K × K) phaseIdx =>
      let fluidState_ := st.1.setSaturation phaseIdx (priVars.explicitSaturationValue phaseIdx)
      (fluidState_, st.2 + fluidState_.saturation phaseIdx))
    (fluidState_, 0)
  st.1.setSaturation priVars.implicitSaturationIdx (1 - st.2)

/-- The loop of `update` that sets "the absolute phase pressures in the fluid state". -/
def setPressures (numPhases pressure0Idx : Nat) (priVars : PvsPrimaryVariables K)
    (pC : Nat → K) (fluidState_ : CompositionalFluidState K) : CompositionalFluidState K :=
  (List.range numPhases).foldl
    (fun fluidState_ phaseIdx =>
      fluidState_.setPressure phaseIdx (priVars.get pressure0Idx + (pC phaseIdx - pC 0)))
    fluidState_

/-- The loop of `update` that counts the phases which are not present. -/
def countNonPresentPhases (numPhases : Nat) (priVars : PvsPrimaryVariables K) : Nat :=
  (List.range numPhases).foldl
    (fun numNonPresentPhases phaseIdx =>
      if !priVars.phaseIsPresent phaseIdx then numNonPresentPhases + 1
      else numNonPresentPhases)
    0

/-- The single-phase branch of `update` up to the call of the solver: the composition of
the lowest present phase is taken from the primary variables. -/
def setReferenceComposition (numComponents switch0Idx : Nat) (priVars : PvsPrimaryVariables K)
    (lowestPresentPhaseIdx : Nat) (fluidState_ : CompositionalFluidState K) :
    CompositionalFluidState K :=
  let st := (List.range' 1 (numComponents - 1)).foldl
    (fun (st : CompositionalFluidState K × K) compIdx =>
      let x := priVars.get (switch0Idx + compIdx - 1)
      (st.1.setMoleFraction lowestPresentPhaseIdx compIdx x, st.2 + x))
    (fluidState_, 0)
  st.1.setMoleFraction lowestPresentPhaseIdx 0 (1 - st.2)

/-- The value of `switchPhaseIdx` in the first loop over `switchIdx`:
`switchPhaseIdx = switchIdx; if (switchIdx >= lowestPresentPhaseIdx) switchPhaseIdx += 1;`. -/
def switchPhaseIdx (lowestPresentPhaseIdx switchIdx : Nat) : Nat :=
  if switchIdx ≥ lowestPresentPhaseIdx then switchIdx + 1 else switchIdx

/-- The first loop over `switchIdx` of the multi-phase branch: the writes to
`auxConstraints` in the order they happen, and the value of `auxIdx` after the loop. -/
def auxConstraintsFirstLoop (numPhases switch0Idx : Nat) (priVars : PvsPrimaryVariables K)
    (lowestPresentPhaseIdx : Nat) : List (AuxWrite K) × Nat :=
  (List.range (numPhases - 1)).foldl
    (fun (st : List (AuxWrite K) × Nat) switchIdx =>
      let compIdx := switchIdx + 1
      let switchPhaseIdx := switchPhaseIdx lowestPresentPhaseIdx switchIdx
      if !priVars.phaseIsPresent switchPhaseIdx then
        (st.1 ++ [⟨st.2, switchIdx,
            ⟨lowestPresentPhaseIdx, compIdx, priVars.get (switch0Idx + switchIdx)⟩⟩],
          st.2 + 1)
      else st)
    ([], 0)

/-- The second loop of the multi-phase branch, entered with `auxIdx` and `switchIdx` as the
first loop left them: the writes to `auxConstraints` in the order they happen.  (The line
printed to `std::cout` at each write is not modelled.) -/
def auxConstraintsSecondLoop (numPhases numNonPresentPhases : Nat) (numAuxConstraints : Int)
    (switch0Idx : Nat) (priVars : PvsPrimaryVariables K) (auxIdx switchIdx : Nat) :
    List (AuxWrite K) :=
  (List.range (numAuxConstraints - auxIdx).toNat).map
    (fun k =>
      let auxIdx := auxIdx + k
      let switchIdx := switchIdx + k
      let phaseIdx := priVars.lowestPresentPhaseIdx
      let compIdx := numPhases - numNonPresentPhases + auxIdx
      ⟨auxIdx, switchIdx, ⟨phaseIdx, compIdx, priVars.get (switch0Idx + switchIdx)⟩⟩)

/-- The writes to `auxConstraints` made by the multi-phase branch of `update`. -/
def auxConstraintWrites (numPhases numComponents switch0Idx : Nat)
    (priVars : PvsPrimaryVariables K) (numNonPresentPhases : Nat) : List (AuxWrite K) :=
  let numAuxConstraints : Int := (numComponents : Int) + numNonPresentPhases - numPhases
  let first := auxConstraintsFirstLoop numPhases switch0Idx priVars priVars.lowestPresentPhaseIdx
  first.1 ++ auxConstraintsSecondLoop numPhases numNonPresentPhases numAuxConstraints
    switch0Idx priVars first.2 (numPhases - 1)

/-- The array `auxConstraints` after a list of writes (`none`: never written). -/
def auxConstraintsArray (writes : List (AuxWrite K)) : Nat → Option (MMPCAuxConstraint K) :=
  writes.foldl (fun arr w => Function.update arr w.auxIdx (some w.constraint)) (fun _ => none)

/-- The offsets `k` of the reads `priVars[switch0Idx + k]` made by the single-phase branch
of `update`, in the order they happen: the loop over `compIdx` reads
`priVars[switch0Idx + compIdx - 1]`. -/
def referenceCompositionReads (numComponents : Nat) : List Nat :=
  (List.range' 1 (numComponents - 1)).map (fun compIdx => compIdx - 1)

/-- The offsets `k` of the reads `priVars[switch0Idx + k]` made by the block "calculate the
phase compositions" of `update`, in the order they happen: those of the single-phase branch,
or else those of the two loops that build `auxConstraints`, which read
`priVars[switch0Idx + switchIdx]` at each write. -/
def switchingSlotReads (numPhases numComponents switch0Idx : Nat)
    (priVars : PvsPrimaryVariables K) : List Nat :=
  let numNonPresentPhases := countNonPresentPhases numPhases priVars
  if (numNonPresentPhases : Int) = (numPhases : Int) - 1 then
    referenceCompositionReads numComponents
  else
    (auxConstraintWrites numPhases numComponents switch0Idx priVars numNonPresentPhases).map
      (fun w => w.switchIdx)

/-- The fluid state after a successful constraint solve. -/
def applySolve (fluidState_ : CompositionalFluidState K) (r : ConstraintSolverResult K) :
    CompositionalFluidState K :=
  { fluidState_ with moleFraction := r.moleFraction, density := r.density,
                     viscosity := r.viscosity }

/-- The block "calculate the phase compositions" of `update`: the count of the phases
that are not present, the choice between the two constraint solvers and the solve.  It
yields the fluid state and the parameter cache after the solve. -/
def calculatePhaseCompositions (ctx : PvsContext K E ParameterCache MaterialLawParams)
    (priVars : PvsPrimaryVariables K) (fluidState_ : CompositionalFluidState K) :
    Except E (CompositionalFluidState K × ParameterCache) :=
  let paramCache := ctx.paramCache
  let lowestPresentPhaseIdx := priVars.lowestPresentPhaseIdx
  let numNonPresentPhases := countNonPresentPhases ctx.numPhases priVars
  if (numNonPresentPhases : Int) = (ctx.numPhases : Int) - 1 then
    let fluidState_ := setReferenceComposition ctx.numComponents ctx.indices.switch0Idx
      priVars lowestPresentPhaseIdx fluidState_
    (ctx.computeFromReferencePhase fluidState_ paramCache lowestPresentPhaseIdx true false).map
      (fun r => (applySolve fluidState_ r.1, r.2))
  else
    let numAuxConstraints : Int :=
      (ctx.numComponents : Int) + numNonPresentPhases - ctx.numPhases
    let auxConstraints := auxConstraintsArray
      (auxConstraintWrites ctx.numPhases ctx.numComponents ctx.indices.switch0Idx priVars
        numNonPresentPhases)
    (ctx.miscibleMultiPhaseComposition fluidState_ paramCache priVars.phasePresence
        auxConstraints numAuxConstraints true false).map
      (fun r => (applySolve fluidState_ r.1, r.2))

/-- The method `update(elemCtx, scvIdx, timeIdx)`; an exception raised by a callee ends it.
(`ParentType::update`, of the parent class `BoxVolumeVariables`, has no access to the
members of this class and is left out.) -/
def update (ctx : PvsContext K E ParameterCache MaterialLawParams)
    (self : PvsVolumeVariables K) (scvIdx timeIdx : Nat) : Except E (PvsVolumeVariables K) := do
  let fluidState_ ← ctx.updateTemperatures_ self.fluidState_ scvIdx timeIdx
  let priVars := ctx.primaryVars scvIdx timeIdx
  -- set the saturations
  let fluidState_ := setSaturations ctx.numPhases priVars fluidState_
  -- set the pressures of the fluid phases
  let materialParams ← ctx.materialLawParams scvIdx timeIdx
  let pC := ctx.capillaryPressures materialParams fluidState_
  let fluidState_ := setPressures ctx.numPhases ctx.indices.pressure0Idx priVars pC fluidState_
  -- calculate the phase compositions
  let solved ← calculatePhaseCompositions ctx priVars fluidState_
  let fluidState_ := solved.1
  let paramCache := solved.2
  -- calculate the remaining quantities
  let relativePermeability_ := ctx.relativePermeabilities materialParams fluidState_
  let energy ← ctx.energyUpdate_ fluidState_ paramCache scvIdx timeIdx
  let fluidState_ := { fluidState_ with temperature := energy.temperature,
                                         enthalpy := energy.enthalpy }
  let porosity_ ← ctx.porosity scvIdx timeIdx
  pure { porosity_ := porosity_, relativePermeability_ := relativePermeability_,
         fluidState_ := fluidState_ }

end PvsVolumeVariables

/-- Primary variables of a two-phase control volume with both phases present, used in the
examples: pressure 100000 in slot 0, switching variable 1/4 in slot 1, the saturation of
phase 0 implicit; `s0` is what `explicitSaturationValue` reports for phase 0. -/
def examplePriVars (s0 : ℚ) : PvsPrimaryVariables ℚ where
  get := fun i => if i = 0 then 100000 else 1 / 4
  explicitSaturationValue := fun phaseIdx => if phaseIdx = 0 then s0 else 1 / 4
  implicitSaturationIdx := 0
  lowestPresentPhaseIdx := 0
  phaseIsPresent := fun phaseIdx => decide (phaseIdx < 2)
  phasePresence := 3

/-- A fluid state with all quantities zero. -/
def exampleFluidState : CompositionalFluidState ℚ where
  saturation := fun _ => 0
  pressure := fun _ => 0
  temperature := fun _ => 0
  moleFraction := fun _ _ => 0
  density := fun _ => 0
  viscosity := fun _ => 0
  enthalpy := fun _ => 0

/-- A two-phase, two-component context used in the examples: no callee fails, the
capillary pressure of phase 1 is 1000 times its saturation, and the solvers return fixed
tables. -/
def examplePvsContext (s0 : ℚ) : PvsContext ℚ Unit Unit Unit where
  numPhases := 2
  numComponents := 2
  indices := { switch0Idx := 1, pressure0Idx := 0 }
  primaryVars := fun _ _ => examplePriVars s0
  materialLawParams := fun _ _ => Except.ok ()
  porosity := fun _ _ => Except.ok (3 / 10)
  capillaryPressures := fun _ fs phaseIdx => if phaseIdx = 0 then 0 else 1000 * fs.saturation 1
  relativePermeabilities := fun _ fs phaseIdx => fs.saturation phaseIdx
  updateTemperatures_ := fun fs _ _ => Except.ok fs
  energyUpdate_ := fun fs _ _ _ => Except.ok ⟨fs.temperature, fs.enthalpy⟩
  paramCache := ()
  computeFromReferencePhase := fun fs pc _ _ _ =>
    Except.ok (⟨fs.moleFraction, fun _ => 1000, fun _ => 1 / 1000⟩, pc)
  miscibleMultiPhaseComposition := fun fs pc _ _ _ _ _ =>
    Except.ok (⟨fun _ _ => 1 / 2, fun _ => 1000, fun _ => 1 / 1000⟩, pc)

/-- Volume variables before their first update. -/
def examplePvsVolumeVariables : PvsVolumeVariables ℚ where
  porosity_ := 0
  relativePermeability_ := fun _ => 0
  fluidState_ := exampleFluidState

/-- Primary variables of a two-phase control volume in which phase 0 alone is present, used
in the examples: slot 1 holds the mole fraction 1/4 of component 1 in phase 0. -/
def examplePriVarsSinglePhase : PvsPrimaryVariables ℚ where
  get := fun i => if i = 0 then 100000 else 1 / 4
  explicitSaturationValue := fun _ => 0
  implicitSaturationIdx := 0
  lowestPresentPhaseIdx := 0
  phaseIsPresent := fun phaseIdx => decide (phaseIdx = 0)
  phasePresence := 1

/-- Primary variables of a three-phase control volume in which phases 0 and 2 are present
and phase 1 is not, used in the examples. -/
def examplePriVarsThreePhase : PvsPrimaryVariables ℚ where
  get := fun i => if i = 0 then 100000 else 1 / 8
  explicitSaturationValue := fun phaseIdx => if phaseIdx = 2 then 1 / 4 else 0
  implicitSaturationIdx := 0
  lowestPresentPhaseIdx := 0
  phaseIsPresent := fun phaseIdx => decide (phaseIdx = 0 ∨ phaseIdx = 2)
  phasePresence := 5

/-- A two-phase, two-component context whose constraint solvers do not converge: each raises
its own exception, and so would `problem.porosity` after them. -/
def exampleFailingContext (priVars : PvsPrimaryVariables ℚ) : PvsContext ℚ String Unit Unit where
  numPhases := 2
  numComponents := 2
  indices := { switch0Idx := 1, pressure0Idx := 0 }
  primaryVars := fun _ _ => priVars
  materialLawParams := fun _ _ => Except.ok ()
  porosity := fun _ _ => Except.error "porosity"
  capillaryPressures := fun _ fs phaseIdx => if phaseIdx = 0 then 0 else 1000 * fs.saturation 1
  relativePermeabilities := fun _ fs phaseIdx => fs.saturation phaseIdx
  updateTemperatures_ := fun fs _ _ => Except.ok fs
  energyUpdate_ := fun fs _ _ _ => Except.ok ⟨fs.temperature, fs.enthalpy⟩
  paramCache := ()
  computeFromReferencePhase := fun _ _ _ _ _ => Except.error "ComputeFromReferencePhase"
  miscibleMultiPhaseComposition := fun _ _ _ _ _ _ _ =>
    Except.error "MiscibleMultiPhaseComposition"

end Dumux

/-! ## Problem base classes -/

namespace Dune

/-- The assignment `v[idx] = x` on a `Dune::FieldVector`, the index being an `int`. -/
def setEntry {K : Type} {n : Nat} (v : Fin n → K) (idx : Int) (x : K) : Fin n → K :=
  fun i => if (i.val : Int) = idx then x else v i

end Dune

namespace Dumux

/-- The member `gravity_` of a `StokesProblem`, a `Dune::FieldVector<Scalar, dimWorld>`. -/
structure StokesProblem (K : Type) (dimWorld : Nat) where
  /-- The member `gravity_`. -/
  gravity_ : Fin dimWorld → K

namespace StokesProblem

variable {K : Type} [LinearOrderedField K] {dimWorld : Nat}

/-- The constructor `StokesProblem(timeManager, gridView)`, for a grid of dimension `dim`;
`enableGravity` is the value of the parameter `EnableGravity`. -/
def new (dim : Nat) (enableGravity : Bool) : StokesProblem K dimWorld :=
  let gravity_ : Fin dimWorld → K := fun _ => 0
  let gravity_ := if enableGravity then Dune.setEntry gravity_ ((dim : Int) - 1) (-9.81)
    else gravity_
  { gravity_ := gravity_ }

/-- The method `gravity()`. -/
def gravity (self : StokesProblem K dimWorld) : Fin dimWorld → K :=
  self.gravity_

/-- The method `gravity(context, spaceIdx, timeIdx)`: it returns `asImp_().gravity()`, here
for a problem that does not redefine `gravity()`. -/
def gravityAt {Context : Type} (self : StokesProblem K dimWorld) (context : Context)
    (spaceIdx timeIdx : Int) : Fin dimWorld → K :=
  self.gravity

end StokesProblem

end Dumux

namespace Ewoms

/-- The exceptions raised by the problem base class. -/
inductive StdException where
  /-- The exception `std::logic_error` with its message. -/
  | logic_error (what : String)
  deriving DecidableEq

/-- The macro `OPM_THROW(Exception, message)`, which is not among the sources: it raises an
`Exception` built from `message` (what it adds to the message is not modelled). -/
def OPM_THROW {α : Type} (Exception : String → StdException) (message : String) :
    Except StdException α :=
  Except.error (Exception message)

/-- The type `DimVector`. -/
abbrev DimVector (K : Type) (dimWorld : Nat) := Fin dimWorld → K

/-- The type `DimMatrix`. -/
abbrev DimMatrix (K : Type) (dimWorld : Nat) := Fin dimWorld → Fin dimWorld → K

/-- The member `gravity_` of a `MultiPhaseBaseProblem`. -/
structure MultiPhaseBaseProblem (K : Type) (dimWorld : Nat) where
  /-- The member `gravity_`. -/
  gravity_ : DimVector K dimWorld

namespace MultiPhaseBaseProblem

variable {K : Type} [LinearOrderedField K] {dimWorld : Nat}

/-- The method `init_()`; `enableGravity` is the value of the parameter `EnableGravity`. -/
def init_ (enableGravity : Bool) (self : MultiPhaseBaseProblem K dimWorld) :
    MultiPhaseBaseProblem K dimWorld :=
  let gravity_ : DimVector K dimWorld := fun _ => 0
  let gravity_ := if enableGravity then Dune.setEntry gravity_ ((dimWorld : Int) - 1) (-9.81)
    else gravity_
  { gravity_ := gravity_ }

/-- The constructor `MultiPhaseBaseProblem(timeManager, gridView)`: it calls `init_()` on
the object, whose member `gravity_` holds `uninitialized` until then. -/
def new (enableGravity : Bool) (uninitialized : DimVector K dimWorld) :
    MultiPhaseBaseProblem K dimWorld :=
  init_ enableGravity { gravity_ := uninitialized }

/-- The method `meanK(result, K1, K2)`; returns the new `result`.  The function
`Opm::utils::harmonicAverage` is not among the sources and is a parameter. -/
def meanK (harmonicAverage : K → K → K) (result K1 K2 : DimMatrix K dimWorld) :
    DimMatrix K dimWorld :=
  (List.finRange dimWorld).foldl
    (fun result i =>
      (List.finRange dimWorld).foldl
        (fun result j =>
          Function.update result i
            (Function.update (result i) j (harmonicAverage (K1 i j) (K2 i j))))
        result)
    result

/-- The method `toDimMatrix_(val)`; `DimMatrix::rows` is `dimWorld`. -/
def toDimMatrix_ (val : K) : DimMatrix K dimWorld :=
  let ret : DimMatrix K dimWorld := fun _ _ => 0
  (List.finRange dimWorld).foldl
    (fun ret i => Function.update ret i (Function.update (ret i) i val))
    ret

/-- The default `intrinsicPermeability(context, spaceIdx, timeIdx)`. -/
def intrinsicPermeability {Context : Type} (context : Context) (spaceIdx timeIdx : Int) :
    Except StdException (DimMatrix K dimWorld) :=
  OPM_THROW StdException.logic_error "Not implemented: Problem::intrinsicPermeability()"

/-- The default `porosity(context, spaceIdx, timeIdx)`. -/
def porosity {Context : Type} (context : Context) (spaceIdx timeIdx : Int) :
    Except StdException K :=
  OPM_THROW StdException.logic_error "Not implemented: Problem::porosity()"

/-- The default `heatCapacitySolid(context, spaceIdx, timeIdx)`. -/
def heatCapacitySolid {Context : Type} (context : Context) (spaceIdx timeIdx : Int) :
    Except StdException K :=
  OPM_THROW StdException.logic_error "Not implemented: Problem::heatCapacitySolid()"

/-- The default `heatConductionParams(context, spaceIdx, timeIdx)`. -/
def heatConductionParams {Context HeatConductionLawParams : Type} (context : Context)
    (spaceIdx timeIdx : Int) : Except StdException HeatConductionLawParams :=
  OPM_THROW StdException.logic_error "Not implemented: Problem::heatConductionParams()"

/-- The default `tortuosity(context, spaceIdx, timeIdx)`. -/
def tortuosity {Context : Type} (context : Context) (spaceIdx timeIdx : Int) :
    Except StdException K :=
  OPM_THROW StdException.logic_error "Not implemented: Problem::tortuosity()"

/-- The default `dispersivity(context, spaceIdx, timeIdx)`. -/
def dispersivity {Context : Type} (context : Context) (spaceIdx timeIdx : Int) :
    Except StdException K :=
  OPM_THROW StdException.logic_error "Not implemented: Problem::dispersivity()"

/-- The default `materialLawParams(context, spaceIdx, timeIdx)`: it returns its static
object `dummy`, a default-constructed `MaterialLawParams`. -/
def materialLawParams {Context MaterialLawParams : Type} (dummy : MaterialLawParams)
    (context : Context) (spaceIdx timeIdx : Int) : Except StdException MaterialLawParams :=
  pure dummy

/-- The default `temperature()`. -/
def temperature : Except StdException K :=
  OPM_THROW StdException.logic_error
    "Not implemented:temperature() method not implemented by the actual problem"

/-- The method `gravity()`. -/
def gravity (self : MultiPhaseBaseProblem K dimWorld) : DimVector K dimWorld :=
  self.gravity_

/-- The method `gravity(context, spaceIdx, timeIdx)`: it returns `asImp_().gravity()`, here
for a problem that does not redefine `gravity()`. -/
def gravityAt {Context : Type} (self : MultiPhaseBaseProblem K dimWorld) (context : Context)
    (spaceIdx timeIdx : Int) : DimVector K dimWorld :=
  self.gravity

end MultiPhaseBaseProblem

/-- A function with the shape of a harmonic mean, used in the examples. -/
def exampleHarmonicAverage (x y : ℚ) : ℚ :=
  if x * y ≤ 0 then 0 else 2 * x * y / (x + y)

end Ewoms

/-! ## Program start-up -/

namespace Opm

/-- What `setupParameters_` reaches outside itself: the parameter registry of
`Opm::Parameters` (its state has type `Registry`), the static methods of `Problem`, the file
system and MPI.  What is printed is not modelled. -/
structure ParameterSystem (Registry : Type) where
  /-- Whether the code is compiled with `HAVE_MPI`. -/
  haveMPI : Bool
  /-- The registry after `registerAllParameters_<TypeTag>()`. -/
  registerAllParameters_ : Registry → Registry
  /-- Value of `Problem::helpPreamble(argc, argv)`. -/
  helpPreamble : List String → String
  /-- The string returned by `Parameters::parseCommandLineOptions(argc, argv, helpPreamble,
  positionalParamCallback)` and the registry it leaves. -/
  parseCommandLineOptions : Registry → List String → String → String × Registry
  /-- Value of `Parameters::Get<Parameters::ParameterFile>(false)`. -/
  parameterFile : Registry → String
  /-- Value of `tmp.is_open()` after `tmp.open(paramFileName.c_str())`. -/
  isOpen : String → Bool
  /-- The registry after `Parameters::parseParameterFile(paramFileName, false)`. -/
  parseParameterFile : Registry → String → Registry
  /-- The list `unusedParams` filled by `Parameters::getLists(usedParams, unusedParams)`. -/
  unusedParams : Registry → List (String × String)
  /-- The value `globalStatus` that `MPI_Allreduce` with `MPI_MIN` computes from `status`. -/
  allreduceMin : Int → Int

/-- The last block of `setupParameters_` ("make sure that no unknown parameters are
encountered"): the status it returns. -/
def checkUnusedParams {Registry : Type} (sys : ParameterSystem Registry) (allowUnused : Bool)
    (registry : Registry) : Int :=
  let unusedParams := sys.unusedParams registry
  if !allowUnused && !unusedParams.isEmpty then 1
  else 0

/-- The function `setupParameters_(argc, argv, registerParams, allowUnused, handleHelp)`,
started with the registry in state `registry`: the status it returns and the registry it
leaves. -/
def setupParameters_ {Registry : Type} (sys : ParameterSystem Registry) (registry : Registry)
    (argv : List String) (registerParams allowUnused handleHelp : Bool) : Int × Registry :=
  let myRank : Int := 0
  let registry := if registerParams then sys.registerAllParameters_ registry else registry
  let helpPreamble := ""
  let helpPreamble := if myRank == 0 && handleHelp then sys.helpPreamble argv else helpPreamble
  let parsed := sys.parseCommandLineOptions registry argv helpPreamble
  let s := parsed.1
  let registry := parsed.2
  if s ≠ "" then
    let status : Int := 1
    let status : Int := if s = "Help called" then -1 else status
    if sys.haveMPI then (sys.allreduceMin status, registry)
    else (status, registry)
  else
    let paramFileName := sys.parameterFile registry
    if paramFileName ≠ "" then
      if !sys.isOpen paramFileName then (1, registry)
      else
        let registry := sys.parseParameterFile registry paramFileName
        (checkUnusedParams sys allowUnused registry, registry)
    else
      (checkUnusedParams sys allowUnused registry, registry)

/-- A parameter system used in the examples: the registry is the list of the command line
arguments; `--help` makes the parser report "Help called", `--bad` makes it report an error,
`--parameter-file=missing.ini` names a file that cannot be opened, and `--foo=1` is an
unknown parameter. -/
def exampleParameterSystem : ParameterSystem (List String) where
  haveMPI := false
  registerAllParameters_ := fun registry => registry
  helpPreamble := fun _ => "Usage"
  parseCommandLineOptions := fun _ argv _ =>
    (if "--help" ∈ argv then "Help called" else if "--bad" ∈ argv then "Unknown option" else "",
      argv)
  parameterFile := fun registry =>
    if "--parameter-file=missing.ini" ∈ registry then "missing.ini" else ""
  isOpen := fun _ => false
  parseParameterFile := fun registry _ => registry
  unusedParams := fun registry => if "--foo=1" ∈ registry then [("foo", "1")] else []
  allreduceMin := fun status => status

/-- What propagates out of a call inside the `try` block of `start`. -/
inductive Thrown where
  /-- An exception derived from `std::exception`, with its `what()`. -/
  | stdException (what : String)
  /-- Anything else that is thrown. -/
  | other
  deriving DecidableEq

/-- The steps of `start` that follow the parameter set-up, recorded when they are entered. -/
inductive StartEvent where
  /-- The call `ThreadManager::init()`. -/
  | threadManagerInit
  /-- The initialisation of MPI, which yields `myRank`. -/
  | mpiInit
  /-- The construction `Simulator simulator;`. -/
  | simulatorConstructed
  /-- The call `simulator.run()`. -/
  | simulatorRun
  deriving DecidableEq

/-- What `start` reaches outside itself, `Scalar` being `K`.  Signal handlers, the locale
and what is printed are not modelled. -/
structure StartSystem (K Registry : Type) where
  /-- The parameter system used by `setupParameters_`. -/
  parameters : ParameterSystem Registry
  /-- Outcome of `ThreadManager::init()`. -/
  threadManagerInit : Except Thrown Unit
  /-- The rank returned by the MPI initialisation. -/
  mpiRank : Int
  /-- Value of `Parameters::Get<Parameters::EndTime<Scalar>>()`. -/
  endTime : Registry → K
  /-- Value of `Parameters::Get<Parameters::InitialTimeStepSize<Scalar>>()`. -/
  initialTimeStepSize : Registry → K
  /-- Outcome of the construction `Simulator simulator;`. -/
  simulatorConstruct : Registry → Except Thrown Unit
  /-- Outcome of `simulator.run()`. -/
  simulatorRun : Registry → Except Thrown Unit

/-- The two `catch` clauses of `start`: the value returned for what was thrown. -/
def startCatch (thrown : Thrown) : Int :=
  match thrown with
  | Thrown.stdException _ => 1
  | Thrown.other => 3

/-- The function `start(argc, argv, registerParams)`, started with the registry in state
`registry`: the value it returns and the steps it entered, in order. -/
def start {K Registry : Type} [LinearOrderedField K] (sys : StartSystem K Registry)
    (registry : Registry) (argv : List String) (registerParams : Bool) :
    Int × List StartEvent :=
  let setup := setupParameters_ sys.parameters registry argv registerParams false true
  let paramStatus := setup.1
  let registry := setup.2
  if paramStatus = 1 then (1, [])
  else if paramStatus = 2 then (0, [])
  else
    match sys.threadManagerInit with
    | Except.error thrown => (startCatch thrown, [StartEvent.threadManagerInit])
    | Except.ok _ =>
      let myRank := sys.mpiRank
      let endTime := sys.endTime registry
      if endTime < -1e50 then (1, [StartEvent.threadManagerInit, StartEvent.mpiInit])
      else
        let initialTimeStepSize := sys.initialTimeStepSize registry
        if initialTimeStepSize < -1e50 then
          (1, [StartEvent.threadManagerInit, StartEvent.mpiInit])
        else
          match sys.simulatorConstruct registry with
          | Except.error thrown =>
            (startCatch thrown, [StartEvent.threadManagerInit, StartEvent.mpiInit,
              StartEvent.simulatorConstructed])
          | Except.ok _ =>
            match sys.simulatorRun registry with
            | Except.error thrown =>
              (startCatch thrown, [StartEvent.threadManagerInit, StartEvent.mpiInit,
                StartEvent.simulatorConstructed, StartEvent.simulatorRun])
            | Except.ok _ =>
              (0, [StartEvent.threadManagerInit, StartEvent.mpiInit,
                StartEvent.simulatorConstructed, StartEvent.simulatorRun])

/-- A system used in the examples: the example parameter system, end time `endTime`,
initial time step size 1, and a simulator that runs to completion. -/
def exampleStartSystem (endTime : ℚ) : StartSystem ℚ (List String) where
  parameters := exampleParameterSystem
  threadManagerInit := Except.ok ()
  mpiRank := 0
  endTime := fun _ => endTime
  initialTimeStepSize := fun _ => 1
  simulatorConstruct := fun _ => Except.ok ()
  simulatorRun := fun _ => Except.ok ()

end Opm

/-! ## Theorems -/

namespace Dumux

section Basics

variable {K : Type} [LinearOrderedField K]

theorem addAt_same {n : Nat} (v : Fin n → K) (i : Fin n) (x : K) :
    addAt v i x i = v i + x := by
  simp [addAt]

theorem addAt_of_ne {n : Nat} (v : Fin n → K) {i j : Fin n} (x : K) (h : j ≠ i) :
    addAt v i x j = v j := by
  simp [addAt, Function.update_noteq h]

theorem foldl_add_eq_sum {ι : Type} (f : ι → K) (l : List ι) (a : K) :
    l.foldl (fun tmp i => tmp + f i) a = a + (l.map f).sum := by
  induction l generalizing a with
  | nil => simp
  | cons x xs ih => simp [ih, add_assoc]

theorem gradNormalLoop_eq_sum {dimWorld : Nat} (grad normal : Vector K dimWorld) :
    gradNormalLoop grad normal = ∑ i, grad i * normal i := by
  unfold gradNormalLoop
  rw [foldl_add_eq_sum (fun i => grad i * normal i), zero_add]
  rw [← List.ofFn_eq_map, List.sum_ofFn]

end Basics

namespace OnePTwoCLocalResidual

variable {K : Type} [LinearOrderedField K] {numEq dimWorld : Nat}

/-- C1: for every prior content of `result`, `computeStorage` returns
`result[contiEqIdx] = rho * porosity` and `result[transEqIdx] = rho * X1 * porosity`, with
`rho` and `X1` the (molar) density and the mass (mole) fraction of component 1 of the volume
variables of `scvIdx`, at the previous time level iff `usePrevSol`. -/
theorem computeStorage_spec (self : OnePTwoCLocalResidual K numEq dimWorld)
    (result : PrimaryVariables K numEq) (scvIdx : Nat) (usePrevSol : Bool)
    (hne : self.indices.contiEqIdx ≠ self.indices.transEqIdx) :
    self.computeStorage result scvIdx usePrevSol self.indices.contiEqIdx
        = ((if usePrevSol then self.prevVolVars_ else self.curVolVars_) scvIdx).rho self.useMoles
          * ((if usePrevSol then self.prevVolVars_ else self.curVolVars_) scvIdx).porosity
    ∧ self.computeStorage result scvIdx usePrevSol self.indices.transEqIdx
        = ((if usePrevSol then self.prevVolVars_ else self.curVolVars_) scvIdx).rho self.useMoles
          * ((if usePrevSol then self.prevVolVars_ else self.curVolVars_) scvIdx).frac
              self.useMoles self.indices.comp1Idx
          * ((if usePrevSol then self.prevVolVars_ else self.curVolVars_) scvIdx).porosity := by
  unfold computeStorage
  cases hm : self.useMoles <;>
    simp [VolumeVariables.rho, VolumeVariables.frac, addAt_same, addAt_of_ne _ _ hne,
      addAt_of_ne _ _ hne.symm]

/-- Witness of C1: the example element, previous time level, mass formulation. -/
theorem computeStorage_spec_witness :
    (exampleResidual false 1).indices.contiEqIdx ≠ (exampleResidual false 1).indices.transEqIdx
    ∧ (exampleResidual false 1).computeStorage (fun _ => 7) 0 true 0 = 400
    ∧ (exampleResidual false 1).computeStorage (fun _ => 7) 0 true 1 = 120 := by
  have h := computeStorage_spec (exampleResidual false 1) (fun _ => 7) 0 true (by decide)
  refine ⟨by decide, ?_, ?_⟩
  · rw [show (0 : Fin 2) = (exampleResidual false 1).indices.contiEqIdx from rfl, h.1]
    norm_num [exampleResidual, exampleVolVarsB, VolumeVariables.rho]
  · rw [show (1 : Fin 2) = (exampleResidual false 1).indices.transEqIdx from rfl, h.2]
    norm_num [exampleResidual, exampleVolVarsB, VolumeVariables.rho, VolumeVariables.frac]

theorem computeAdvectiveFlux_eq (self : OnePTwoCLocalResidual K numEq dimWorld)
    (flux : PrimaryVariables K numEq) (fluxVars : FluxVariables K dimWorld)
    (hne : self.indices.contiEqIdx ≠ self.indices.transEqIdx) :
    self.computeAdvectiveFlux flux fluxVars self.indices.contiEqIdx
        = flux self.indices.contiEqIdx + fluxVars.KmvpNormal *
          (self.upwindWeight_ *
              ((self.curVolVars_ fluxVars.upstreamIdx).rho self.useMoles
                / (self.curVolVars_ fluxVars.upstreamIdx).viscosity)
            + (1 - self.upwindWeight_) *
              ((self.curVolVars_ fluxVars.downstreamIdx).rho self.useMoles
                / (self.curVolVars_ fluxVars.downstreamIdx).viscosity))
    ∧ self.computeAdvectiveFlux flux fluxVars self.indices.transEqIdx
        = flux self.indices.transEqIdx + fluxVars.KmvpNormal *
          (self.upwindWeight_ *
              ((self.curVolVars_ fluxVars.upstreamIdx).rho self.useMoles
                * (self.curVolVars_ fluxVars.upstreamIdx).frac self.useMoles
                    self.indices.comp1Idx
                / (self.curVolVars_ fluxVars.upstreamIdx).viscosity)
            + (1 - self.upwindWeight_) *
              ((self.curVolVars_ fluxVars.downstreamIdx).rho self.useMoles
                * (self.curVolVars_ fluxVars.downstreamIdx).frac self.useMoles
                    self.indices.comp1Idx
                / (self.curVolVars_ fluxVars.downstreamIdx).viscosity)) := by
  unfold computeAdvectiveFlux
  cases hm : self.useMoles <;>
    simp only [VolumeVariables.rho, VolumeVariables.frac, addAt_same, addAt_of_ne _ _ hne,
      addAt_of_ne _ _ hne.symm, Bool.not_false, Bool.not_true, if_true, if_false,
      Bool.false_eq_true] <;>
    constructor <;> ring

/-- C2: for every upwind weight, `KmvpNormal` and upstream and downstream volume variables
of non-zero viscosity, `computeAdvectiveFlux` adds `KmvpNormal * (w * term_up + (1 - w) *
term_dn)` to `flux[contiEqIdx]` with `term = rho / viscosity`, and to `flux[transEqIdx]` with
`term = rho * X1 / viscosity`, where `up` and `dn` are the current volume variables at
`upstreamIdx()` and `downstreamIdx()`. -/
theorem computeAdvectiveFlux_spec (self : OnePTwoCLocalResidual K numEq dimWorld)
    (flux : PrimaryVariables K numEq) (fluxVars : FluxVariables K dimWorld)
    (hne : self.indices.contiEqIdx ≠ self.indices.transEqIdx)
    (hup : (self.curVolVars_ fluxVars.upstreamIdx).viscosity ≠ 0)
    (hdn : (self.curVolVars_ fluxVars.downstreamIdx).viscosity ≠ 0) :
    self.computeAdvectiveFlux flux fluxVars self.indices.contiEqIdx
        = flux self.indices.contiEqIdx + fluxVars.KmvpNormal *
          (self.upwindWeight_ *
              ((self.curVolVars_ fluxVars.upstreamIdx).rho self.useMoles
                / (self.curVolVars_ fluxVars.upstreamIdx).viscosity)
            + (1 - self.upwindWeight_) *
              ((self.curVolVars_ fluxVars.downstreamIdx).rho self.useMoles
                / (self.curVolVars_ fluxVars.downstreamIdx).viscosity))
    ∧ self.computeAdvectiveFlux flux fluxVars self.indices.transEqIdx
        = flux self.indices.transEqIdx + fluxVars.KmvpNormal *
          (self.upwindWeight_ *
              ((self.curVolVars_ fluxVars.upstreamIdx).rho self.useMoles
                * (self.curVolVars_ fluxVars.upstreamIdx).frac self.useMoles
                    self.indices.comp1Idx
                / (self.curVolVars_ fluxVars.upstreamIdx).viscosity)
            + (1 - self.upwindWeight_) *
              ((self.curVolVars_ fluxVars.downstreamIdx).rho self.useMoles
                * (self.curVolVars_ fluxVars.downstreamIdx).frac self.useMoles
                    self.indices.comp1Idx
                / (self.curVolVars_ fluxVars.downstreamIdx).viscosity)) :=
  computeAdvectiveFlux_eq self flux fluxVars hne

/-- Witness of C2: face 0 of the example element, mass formulation, upwind weight 3/4. -/
theorem computeAdvectiveFlux_spec_witness :
    (exampleResidual false (3 / 4)).indices.contiEqIdx
        ≠ (exampleResidual false (3 / 4)).indices.transEqIdx
    ∧ ((exampleResidual false (3 / 4)).curVolVars_ (exampleFluxVars 0).upstreamIdx).viscosity ≠ 0
    ∧ ((exampleResidual false (3 / 4)).curVolVars_ (exampleFluxVars 0).downstreamIdx).viscosity
        ≠ 0
    ∧ (exampleResidual false (3 / 4)).computeAdvectiveFlux (fun _ => 5) (exampleFluxVars 0) 0
        = 5 + 3 * (3 / 4 * (1000 / 2) + (1 - 3 / 4) * (800 / 4))
    ∧ (exampleResidual false (3 / 4)).computeAdvectiveFlux (fun _ => 5) (exampleFluxVars 0) 1
        = 5 + 3 * (3 / 4 * (1000 * (1 / 10) / 2) + (1 - 3 / 4) * (800 * (3 / 10) / 4)) := by
  have hup : ((exampleResidual false (3 / 4)).curVolVars_
      (exampleFluxVars 0).upstreamIdx).viscosity ≠ 0 := by
    norm_num [exampleResidual, exampleFluxVars, exampleVolVarsA]
  have hdn : ((exampleResidual false (3 / 4)).curVolVars_
      (exampleFluxVars 0).downstreamIdx).viscosity ≠ 0 := by
    norm_num [exampleResidual, exampleFluxVars, exampleVolVarsB]
  have h := computeAdvectiveFlux_spec (exampleResidual false (3 / 4)) (fun _ => 5)
    (exampleFluxVars 0) (by decide) hup hdn
  refine ⟨by decide, hup, hdn, ?_, ?_⟩
  · rw [show (0 : Fin 2) = (exampleResidual false (3 / 4)).indices.contiEqIdx from rfl, h.1]
    norm_num [exampleResidual, exampleFluxVars, exampleVolVarsA, exampleVolVarsB,
      VolumeVariables.rho]
  · rw [show (1 : Fin 2) = (exampleResidual false (3 / 4)).indices.transEqIdx from rfl, h.2]
    norm_num [exampleResidual, exampleFluxVars, exampleVolVarsA, exampleVolVarsB,
      VolumeVariables.rho, VolumeVariables.frac]

/-- C3: `computeDiffusiveFlux` changes the transport equation only: `flux[transEqIdx]` is
decreased by `porousDiffCoeff * rhoAtIP * (fracGrad(comp1) . face normal)` and
`flux[contiEqIdx]`, as every other entry, is left as it was. -/
theorem computeDiffusiveFlux_spec (self : OnePTwoCLocalResidual K numEq dimWorld)
    (flux : PrimaryVariables K numEq) (fluxVars : FluxVariables K dimWorld)
    (hne : self.indices.contiEqIdx ≠ self.indices.transEqIdx) :
    self.computeDiffusiveFlux flux fluxVars self.indices.transEqIdx
        = flux self.indices.transEqIdx
          - fluxVars.porousDiffCoeff * fluxVars.rhoAtIP self.useMoles
            * ∑ i, fluxVars.fracGrad self.useMoles self.indices.comp1Idx i
                * fluxVars.face.normal i
    ∧ self.computeDiffusiveFlux flux fluxVars self.indices.contiEqIdx
        = flux self.indices.contiEqIdx
    ∧ ∀ eqIdx, eqIdx ≠ self.indices.transEqIdx →
        self.computeDiffusiveFlux flux fluxVars eqIdx = flux eqIdx := by
  unfold computeDiffusiveFlux
  cases hm : self.useMoles <;>
    simp only [FluxVariables.rhoAtIP, FluxVariables.fracGrad, addAt_same,
      gradNormalLoop_eq_sum, Bool.not_false, Bool.not_true, if_true, if_false,
      Bool.false_eq_true] <;>
    refine ⟨by ring, addAt_of_ne _ _ hne, fun eqIdx h => addAt_of_ne _ _ h⟩

/-- Witness of C3: face 0 of the example element, mole formulation. -/
theorem computeDiffusiveFlux_spec_witness :
    (exampleResidual true 1).indices.contiEqIdx ≠ (exampleResidual true 1).indices.transEqIdx
    ∧ (exampleResidual true 1).computeDiffusiveFlux (fun _ => 5) (exampleFluxVars 0) 1
        = 5 - 1 / 100 * 45 * (2 * (1 / 2) + 1 * 1)
    ∧ (exampleResidual true 1).computeDiffusiveFlux (fun _ => 5) (exampleFluxVars 0) 0 = 5 := by
  have h := computeDiffusiveFlux_spec (exampleResidual true 1) (fun _ => 5)
    (exampleFluxVars 0) (by decide)
  refine ⟨by decide, ?_, ?_⟩
  · rw [show (1 : Fin 2) = (exampleResidual true 1).indices.transEqIdx from rfl, h.1]
    norm_num [exampleResidual, exampleFluxVars, FluxVariables.rhoAtIP, FluxVariables.fracGrad,
      Fin.sum_univ_two]
  · rw [show (0 : Fin 2) = (exampleResidual true 1).indices.contiEqIdx from rfl, h.2.1]

/-- C4: the outflow flux is the interior flux with the interior state on both sides.  If the
upstream and the downstream volume variables of the face are those of `scvIdx`, the fraction
of component 1 read through `fluidState()` is the one read from the volume variables, and the
boundary variables carry the `KmvpNormal`, fraction gradient, face normal, `porousDiffCoeff`
and density at the integration point of the flux variables, then `computeOutflowValues_` on a
zero vector yields what `computeFlux` yields, for every upwind weight.  The viscosity of the
volume variables of `scvIdx` is not zero (both methods divide by it). -/
theorem computeOutflowValues_eq_computeFlux (self : OnePTwoCLocalResidual K numEq dimWorld)
    (flux : PrimaryVariables K numEq) (faceId scvIdx boundaryFaceIdx : Nat)
    (boundaryVars : BoundaryVariables K dimWorld)
    (hup : self.curVolVars_ (self.fluxVars faceId).upstreamIdx = self.curVolVars_ scvIdx)
    (hdn : self.curVolVars_ (self.fluxVars faceId).downstreamIdx = self.curVolVars_ scvIdx)
    (hvisc : (self.curVolVars_ scvIdx).viscosity ≠ 0)
    (hfrac : (self.curVolVars_ scvIdx).fluidStateFrac self.useMoles self.indices.phaseIdx
        self.indices.comp1Idx = (self.curVolVars_ scvIdx).frac self.useMoles self.indices.comp1Idx)
    (hK : boundaryVars.KmvpNormal = (self.fluxVars faceId).KmvpNormal)
    (hgrad : boundaryVars.fracGrad self.useMoles self.indices.comp1Idx
        = (self.fluxVars faceId).fracGrad self.useMoles self.indices.comp1Idx)
    (hnormal : boundaryVars.boundaryFace.normal = (self.fluxVars faceId).face.normal)
    (hD : boundaryVars.porousDiffCoeff = (self.fluxVars faceId).porousDiffCoeff)
    (hrho : boundaryVars.rhoAtIP self.useMoles = (self.fluxVars faceId).rhoAtIP self.useMoles) :
    self.computeOutflowValues_ (fun _ => 0) boundaryVars scvIdx boundaryFaceIdx
      = self.computeFlux flux faceId := by
  funext eqIdx
  unfold computeOutflowValues_ computeFlux computeAdvectiveFlux computeDiffusiveFlux
  cases hm : self.useMoles <;>
    simp only [hm, VolumeVariables.fluidStateFrac, VolumeVariables.frac,
      BoundaryVariables.fracGrad, FluxVariables.fracGrad, BoundaryVariables.rhoAtIP,
      FluxVariables.rhoAtIP, if_true, if_false, Bool.false_eq_true] at hfrac hgrad hrho <;>
    simp only [hup, hdn, hfrac, hK, hgrad, hnormal, hD, hrho, Bool.not_false, Bool.not_true,
      if_true, if_false, Bool.false_eq_true, addAt, Function.update_apply] <;>
    split_ifs <;> ring

/-- Witness of C4: face 1 of the example element has sub-control volume 0 on both sides. -/
theorem computeOutflowValues_eq_computeFlux_witness :
    (exampleResidual false (3 / 4)).computeOutflowValues_ (fun _ => 0) exampleBoundaryVars 0 0
      = (exampleResidual false (3 / 4)).computeFlux (fun _ => 7) 1 :=
  computeOutflowValues_eq_computeFlux (exampleResidual false (3 / 4)) (fun _ => 7) 1 0 0
    exampleBoundaryVars rfl rfl (by norm_num [exampleResidual, exampleVolVarsA])
    rfl rfl rfl rfl rfl rfl

theorem foldl_outflow_apply (bcTypes : BoundaryTypes numEq) (values : PrimaryVariables K numEq)
    (scvIdx : Nat) (l : List (Fin numEq)) (hl : l.Nodup)
    (residual : Nat → PrimaryVariables K numEq) (s : Nat) (eqIdx : Fin numEq) :
    l.foldl
        (fun residual equationIdx =>
          if !bcTypes.isOutflow equationIdx then residual
          else Function.update residual scvIdx
            (addAt (residual scvIdx) equationIdx (values equationIdx)))
        residual s eqIdx
      = if s = scvIdx ∧ eqIdx ∈ l ∧ bcTypes.isOutflow eqIdx = true
          then residual s eqIdx + values eqIdx else residual s eqIdx := by
  induction l generalizing residual with
  | nil => simp
  | cons x xs ih =>
    have hx : x ∉ xs := (List.nodup_cons.mp hl).1
    rw [List.foldl_cons, ih (List.nodup_cons.mp hl).2]
    by_cases hs : s = scvIdx
    · subst hs
      by_cases hxe : eqIdx = x
      · subst hxe
        cases ho : bcTypes.isOutflow eqIdx <;> simp [ho, hx, addAt]
      · have hxe' : x ≠ eqIdx := fun h => hxe h.symm
        cases hox : bcTypes.isOutflow x <;>
          simp [hox, hxe, addAt, Function.update_noteq hxe]
    · cases hox : bcTypes.isOutflow x <;> simp [hox, hs, Function.update_noteq hs]

theorem addOutflowValues_apply (bcTypes : BoundaryTypes numEq)
    (values : PrimaryVariables K numEq) (scvIdx : Nat)
    (residual : Nat → PrimaryVariables K numEq) (s : Nat) (eqIdx : Fin numEq) :
    addOutflowValues bcTypes values scvIdx residual s eqIdx
      = if s = scvIdx ∧ bcTypes.isOutflow eqIdx = true
          then residual s eqIdx + values eqIdx else residual s eqIdx := by
  unfold addOutflowValues
  rw [foldl_outflow_apply bcTypes values scvIdx _ (List.nodup_finRange numEq)]
  simp

theorem evalOutflowSegment_residual (self : OnePTwoCLocalResidual K numEq dimWorld)
    (isIt : Intersection) (scvIdx boundaryFaceIdx : Nat) (s : Nat) (eqIdx : Fin numEq) :
    (self.evalOutflowSegment_ isIt scvIdx boundaryFaceIdx).residual_ s eqIdx
      = if (self.bcTypes_.scv scvIdx).hasOutflow = true ∧ s = scvIdx
            ∧ (self.bcTypes_.scv scvIdx).isOutflow eqIdx = true
          then self.residual_ s eqIdx
            + self.computeOutflowValues_ (fun _ => 0)
                (self.boundaryVars boundaryFaceIdx scvIdx) scvIdx boundaryFaceIdx eqIdx
          else self.residual_ s eqIdx := by
  unfold evalOutflowSegment_
  cases hh : (self.bcTypes_.scv scvIdx).hasOutflow
  · simp [hh]
  · simp [hh, addOutflowValues_apply]

/-- C5: `evalOutflowSegment_(isIt, scvIdx, boundaryFaceIdx)`, for boundary types whose
`hasOutflow()` is set whenever some equation is flagged outflow: `residual_[scvIdx][eq]` is
increased by the outflow value `values[eq]` for the equations flagged outflow; the other
entries of `scvIdx`, and all entries of every other sub-control volume, are unchanged; and
when no outflow is flagged the whole residual is unchanged. -/
theorem evalOutflowSegment_frame (self : OnePTwoCLocalResidual K numEq dimWorld)
    (isIt : Intersection) (scvIdx boundaryFaceIdx : Nat)
    (hflag : ∀ eqIdx, (self.bcTypes_.scv scvIdx).isOutflow eqIdx = true →
      (self.bcTypes_.scv scvIdx).hasOutflow = true) :
    (∀ eqIdx, (self.bcTypes_.scv scvIdx).isOutflow eqIdx = true →
        (self.evalOutflowSegment_ isIt scvIdx boundaryFaceIdx).residual_ scvIdx eqIdx
          = self.residual_ scvIdx eqIdx
            + self.computeOutflowValues_ (fun _ => 0)
                (self.boundaryVars boundaryFaceIdx scvIdx) scvIdx boundaryFaceIdx eqIdx)
    ∧ (∀ eqIdx, (self.bcTypes_.scv scvIdx).isOutflow eqIdx = false →
        (self.evalOutflowSegment_ isIt scvIdx boundaryFaceIdx).residual_ scvIdx eqIdx
          = self.residual_ scvIdx eqIdx)
    ∧ (∀ s, s ≠ scvIdx →
        (self.evalOutflowSegment_ isIt scvIdx boundaryFaceIdx).residual_ s = self.residual_ s)
    ∧ ((self.bcTypes_.scv scvIdx).hasOutflow = false →
        (self.evalOutflowSegment_ isIt scvIdx boundaryFaceIdx).residual_ = self.residual_)
    ∧ ((∀ eqIdx, (self.bcTypes_.scv scvIdx).isOutflow eqIdx = false) →
        (self.evalOutflowSegment_ isIt scvIdx boundaryFaceIdx).residual_ = self.residual_) := by
  refine ⟨?_, ?_, ?_, ?_, ?_⟩
  · intro eqIdx ho
    rw [evalOutflowSegment_residual, if_pos ⟨hflag eqIdx ho, rfl, ho⟩]
  · intro eqIdx ho
    rw [evalOutflowSegment_residual, if_neg]
    simp [ho]
  · intro s hs
    funext eqIdx
    rw [evalOutflowSegment_residual, if_neg]
    simp [hs]
  · intro hh
    funext s eqIdx
    rw [evalOutflowSegment_residual, if_neg]
    simp [hh]
  · intro hall
    funext s eqIdx
    rw [evalOutflowSegment_residual, if_neg]
    simp [hall eqIdx]

/-- Witness of C5: sub-control volume 0 of the example element, where the continuity
equation is the only outflow equation; the outflow value of that equation is 1500. -/
theorem evalOutflowSegment_frame_witness :
    ((exampleResidual false 1).evalOutflowSegment_ ⟨true, 0⟩ 0 0).residual_ 0 0
        = (exampleResidual false 1).residual_ 0 0 + 1500
    ∧ ((exampleResidual false 1).evalOutflowSegment_ ⟨true, 0⟩ 0 0).residual_ 0 1
        = (exampleResidual false 1).residual_ 0 1
    ∧ ((exampleResidual false 1).evalOutflowSegment_ ⟨true, 0⟩ 0 0).residual_ 1
        = (exampleResidual false 1).residual_ 1 := by
  have h := evalOutflowSegment_frame (exampleResidual false 1) ⟨true, 0⟩ 0 0 (fun _ _ => rfl)
  refine ⟨?_, h.2.1 1 (by decide), h.2.2.1 1 (by decide)⟩
  rw [h.1 0 (by decide)]
  norm_num [computeOutflowValues_, exampleResidual, exampleBoundaryVars, exampleVolVarsA,
    addAt]

omit [LinearOrderedField K] in
theorem setResidual_residual (self : OnePTwoCLocalResidual K numEq dimWorld) :
    self.setResidual self.residual_ = self := rfl

theorem foldl_setResidual {α : Type} (l : List α)
    (f : α → OnePTwoCLocalResidual K numEq dimWorld → OnePTwoCLocalResidual K numEq dimWorld)
    (hf : ∀ a (self : OnePTwoCLocalResidual K numEq dimWorld) r,
      f a (self.setResidual r) = self.setResidual (r + (f a (self.setResidual 0)).residual_))
    (self : OnePTwoCLocalResidual K numEq dimWorld) (r : Nat → PrimaryVariables K numEq) :
    l.foldl (fun s a => f a s) (self.setResidual r)
      = self.setResidual (r + (l.foldl (fun s a => f a s) (self.setResidual 0)).residual_) := by
  induction l generalizing r with
  | nil => simp [setResidual]
  | cons a as ih =>
    rw [List.foldl_cons, List.foldl_cons, hf a self r, ih, hf a self 0, ih (0 + _)]
    simp [setResidual, add_assoc]

theorem evalOutflowSegment_setResidual (self : OnePTwoCLocalResidual K numEq dimWorld)
    (r : Nat → PrimaryVariables K numEq) (isIt : Intersection) (scvIdx boundaryFaceIdx : Nat) :
    (self.setResidual r).evalOutflowSegment_ isIt scvIdx boundaryFaceIdx
      = self.setResidual
          (r + ((self.setResidual 0).evalOutflowSegment_ isIt scvIdx boundaryFaceIdx).residual_) := by
  unfold evalOutflowSegment_
  cases hh : (self.bcTypes_.scv scvIdx).hasOutflow
  · simp [setResidual, hh]
  · simp only [setResidual, hh, if_true]
    congr 1
    funext s eqIdx
    simp only [addOutflowValues_apply, Pi.add_apply, Pi.zero_apply, zero_add]
    split_ifs <;> simp [computeOutflowValues_]

theorem evalOutflow_setResidual (self : OnePTwoCLocalResidual K numEq dimWorld)
    (r : Nat → PrimaryVariables K numEq) :
    (self.setResidual r).evalOutflow_
      = self.setResidual (r + ((self.setResidual 0).evalOutflow_).residual_) := by
  unfold evalOutflow_
  have hint : ∀ r, (self.setResidual r).intersections = self.intersections := fun _ => rfl
  rw [hint, hint]
  refine foldl_setResidual self.intersections
    (fun isIt s =>
      if !isIt.boundary then s
      else
        (List.range (s.refElemSize isIt.indexInInside)).foldl
          (fun s faceVertIdx =>
            s.evalOutflowSegment_ isIt (s.refElemSubEntity isIt.indexInInside faceVertIdx)
              (s.boundaryFaceIndex isIt.indexInInside faceVertIdx))
          s) ?_ self r
  intro isIt s r
  cases hb : isIt.boundary
  · simp [hb, setResidual]
  · simp only [hb, Bool.not_true, Bool.false_eq_true, if_false]
    have hsize : ∀ r, (s.setResidual r).refElemSize = s.refElemSize := fun _ => rfl
    rw [hsize, hsize]
    exact foldl_setResidual _
      (fun faceVertIdx s =>
        s.evalOutflowSegment_ isIt (s.refElemSubEntity isIt.indexInInside faceVertIdx)
          (s.boundaryFaceIndex isIt.indexInInside faceVertIdx))
      (fun faceVertIdx s r => evalOutflowSegment_setResidual s r isIt _ _) s r

/-- C7: upwind monotonicity of `computeAdvectiveFlux`, for upstream and downstream volume
variables of non-zero viscosity.  With upwind weight 1 the flux added to each equation is
`KmvpNormal` times the upstream term alone, whatever the downstream volume variables (of
non-zero viscosity) are, and for positive upstream density, viscosity and fraction it has
the sign of `KmvpNormal`; with upwind weight 1/2 the flux added is `KmvpNormal` times the
arithmetic mean of the upstream and the downstream term. -/
theorem computeAdvectiveFlux_upwind (self : OnePTwoCLocalResidual K numEq dimWorld)
    (flux : PrimaryVariables K numEq) (fluxVars : FluxVariables K dimWorld)
    (hne : self.indices.contiEqIdx ≠ self.indices.transEqIdx)
    (hup : (self.curVolVars_ fluxVars.upstreamIdx).viscosity ≠ 0)
    (hdn : (self.curVolVars_ fluxVars.downstreamIdx).viscosity ≠ 0) :
    computeAdvectiveFlux { self with upwindWeight_ := 1 } flux fluxVars self.indices.contiEqIdx
        = flux self.indices.contiEqIdx + fluxVars.KmvpNormal *
          ((self.curVolVars_ fluxVars.upstreamIdx).rho self.useMoles
            / (self.curVolVars_ fluxVars.upstreamIdx).viscosity)
    ∧ computeAdvectiveFlux { self with upwindWeight_ := 1 } flux fluxVars
          self.indices.transEqIdx
        = flux self.indices.transEqIdx + fluxVars.KmvpNormal *
          ((self.curVolVars_ fluxVars.upstreamIdx).rho self.useMoles
            * (self.curVolVars_ fluxVars.upstreamIdx).frac self.useMoles self.indices.comp1Idx
            / (self.curVolVars_ fluxVars.upstreamIdx).viscosity)
    ∧ (∀ volVars : Nat → VolumeVariables K,
        volVars fluxVars.upstreamIdx = self.curVolVars_ fluxVars.upstreamIdx →
        (volVars fluxVars.downstreamIdx).viscosity ≠ 0 →
        computeAdvectiveFlux { self with upwindWeight_ := 1, curVolVars_ := volVars } flux
            fluxVars
          = computeAdvectiveFlux { self with upwindWeight_ := 1 } flux fluxVars)
    ∧ (0 < (self.curVolVars_ fluxVars.upstreamIdx).rho self.useMoles →
        0 < (self.curVolVars_ fluxVars.upstreamIdx).viscosity →
        SignType.sign (computeAdvectiveFlux { self with upwindWeight_ := 1 } flux fluxVars
            self.indices.contiEqIdx - flux self.indices.contiEqIdx)
          = SignType.sign fluxVars.KmvpNormal)
    ∧ (0 < (self.curVolVars_ fluxVars.upstreamIdx).rho self.useMoles →
        0 < (self.curVolVars_ fluxVars.upstreamIdx).viscosity →
        0 < (self.curVolVars_ fluxVars.upstreamIdx).frac self.useMoles self.indices.comp1Idx →
        SignType.sign (computeAdvectiveFlux { self with upwindWeight_ := 1 } flux fluxVars
            self.indices.transEqIdx - flux self.indices.transEqIdx)
          = SignType.sign fluxVars.KmvpNormal)
    ∧ computeAdvectiveFlux { self with upwindWeight_ := 1 / 2 } flux fluxVars
          self.indices.contiEqIdx
        = flux self.indices.contiEqIdx + fluxVars.KmvpNormal *
          (((self.curVolVars_ fluxVars.upstreamIdx).rho self.useMoles
              / (self.curVolVars_ fluxVars.upstreamIdx).viscosity
            + (self.curVolVars_ fluxVars.downstreamIdx).rho self.useMoles
              / (self.curVolVars_ fluxVars.downstreamIdx).viscosity) / 2)
    ∧ computeAdvectiveFlux { self with upwindWeight_ := 1 / 2 } flux fluxVars
          self.indices.transEqIdx
        = flux self.indices.transEqIdx + fluxVars.KmvpNormal *
          (((self.curVolVars_ fluxVars.upstreamIdx).rho self.useMoles
              * (self.curVolVars_ fluxVars.upstreamIdx).frac self.useMoles self.indices.comp1Idx
              / (self.curVolVars_ fluxVars.upstreamIdx).viscosity
            + (self.curVolVars_ fluxVars.downstreamIdx).rho self.useMoles
              * (self.curVolVars_ fluxVars.downstreamIdx).frac self.useMoles
                  self.indices.comp1Idx
              / (self.curVolVars_ fluxVars.downstreamIdx).viscosity) / 2) := by
  have hone := computeAdvectiveFlux_eq { self with upwindWeight_ := 1 } flux fluxVars hne
  have hhalf := computeAdvectiveFlux_eq { self with upwindWeight_ := 1 / 2 } flux fluxVars hne
  simp only [one_mul, sub_self, zero_mul, add_zero] at hone
  refine ⟨hone.1, hone.2, ?_, ?_, ?_, ?_, ?_⟩
  · intro volVars hvol hvisc
    funext eqIdx
    unfold computeAdvectiveFlux
    cases hm : self.useMoles <;>
      simp only [hvol, sub_self, zero_mul, zero_div, add_zero,
        Bool.not_false, Bool.not_true, if_true, if_false, Bool.false_eq_true]
  · intro hrho hmu
    rw [hone.1, add_sub_cancel_left, sign_mul, sign_pos (div_pos hrho hmu), mul_one]
  · intro hrho hmu hX
    rw [hone.2, add_sub_cancel_left, sign_mul, sign_pos (div_pos (mul_pos hrho hX) hmu),
      mul_one]
  · rw [hhalf.1]
    ring
  · rw [hhalf.2]
    ring

/-- Witness of C7: face 0 of the example element in the mass formulation, where
`KmvpNormal = 3`: the added flux is positive with weight 1, and the mean with weight 1/2. -/
theorem computeAdvectiveFlux_upwind_witness :
    (exampleResidual false 1).computeAdvectiveFlux (fun _ => 5) (exampleFluxVars 0) 0
        = 5 + 3 * (1000 / 2)
    ∧ SignType.sign ((exampleResidual false 1).computeAdvectiveFlux (fun _ => 5)
          (exampleFluxVars 0) 0 - 5) = 1
    ∧ SignType.sign ((exampleResidual false 1).computeAdvectiveFlux (fun _ => 5)
          (exampleFluxVars 0) 1 - 5) = 1
    ∧ (exampleResidual false (1 / 2)).computeAdvectiveFlux (fun _ => 5) (exampleFluxVars 0) 0
        = 5 + 3 * ((1000 / 2 + 800 / 4) / 2) := by
  have h := computeAdvectiveFlux_upwind (exampleResidual false 1) (fun _ => 5)
    (exampleFluxVars 0) (by decide)
    (by norm_num [exampleResidual, exampleFluxVars, exampleVolVarsA])
    (by norm_num [exampleResidual, exampleFluxVars, exampleVolVarsB])
  have hrho : (0 : ℚ) < ((exampleResidual false 1).curVolVars_
      (exampleFluxVars 0).upstreamIdx).rho (exampleResidual false 1).useMoles := by
    norm_num [exampleResidual, exampleFluxVars, exampleVolVarsA, VolumeVariables.rho]
  have hmu : (0 : ℚ) < ((exampleResidual false 1).curVolVars_
      (exampleFluxVars 0).upstreamIdx).viscosity := by
    norm_num [exampleResidual, exampleFluxVars, exampleVolVarsA]
  have hX : (0 : ℚ) < ((exampleResidual false 1).curVolVars_
      (exampleFluxVars 0).upstreamIdx).frac (exampleResidual false 1).useMoles
        (exampleResidual false 1).indices.comp1Idx := by
    norm_num [exampleResidual, exampleFluxVars, exampleVolVarsA, VolumeVariables.frac]
  have h3 : SignType.sign (exampleFluxVars 0).KmvpNormal = 1 := by
    rw [sign_eq_one_iff]
    norm_num [exampleFluxVars]
  refine ⟨?_, ?_, ?_, ?_⟩
  · refine h.1.trans ?_
    norm_num [exampleResidual, exampleFluxVars, exampleVolVarsA, VolumeVariables.rho]
  · exact (h.2.2.2.1 hrho hmu).trans h3
  · exact (h.2.2.2.2.1 hrho hmu hX).trans h3
  · refine h.2.2.2.2.2.1.trans ?_
    norm_num [exampleResidual, exampleFluxVars, exampleVolVarsA, exampleVolVarsB,
      VolumeVariables.rho]

/-- C8: mole/mass equivalence of `computeStorage`.  When `density = molarDensity * Mavg` and
`massFrac(comp1) = moleFrac(comp1) * M1 / Mavg` with `Mavg > 0`, the result of the mass
formulation is the result of the mole formulation converted through the molar masses:
`Mavg` times it in the continuity equation, `M1` times it in the transport equation. -/
theorem computeStorage_mass_eq_mole (self : OnePTwoCLocalResidual K numEq dimWorld)
    (result result' : PrimaryVariables K numEq) (scvIdx : Nat) (usePrevSol : Bool) (M1 Mavg : K)
    (hne : self.indices.contiEqIdx ≠ self.indices.transEqIdx)
    (hMavg : 0 < Mavg)
    (hrho : ((if usePrevSol then self.prevVolVars_ else self.curVolVars_) scvIdx).density
      = ((if usePrevSol then self.prevVolVars_ else self.curVolVars_) scvIdx).molarDensity * Mavg)
    (hX : ((if usePrevSol then self.prevVolVars_ else self.curVolVars_) scvIdx).massFrac
        self.indices.comp1Idx
      = ((if usePrevSol then self.prevVolVars_ else self.curVolVars_) scvIdx).moleFrac
        self.indices.comp1Idx * M1 / Mavg) :
    computeStorage { self with useMoles := false } result scvIdx usePrevSol
        self.indices.contiEqIdx
      = Mavg * computeStorage { self with useMoles := true } result' scvIdx usePrevSol
          self.indices.contiEqIdx
    ∧ computeStorage { self with useMoles := false } result scvIdx usePrevSol
        self.indices.transEqIdx
      = M1 * computeStorage { self with useMoles := true } result' scvIdx usePrevSol
          self.indices.transEqIdx := by
  have hM : Mavg ≠ 0 := ne_of_gt hMavg
  unfold computeStorage
  simp only [Bool.not_false, Bool.not_true, if_true, if_false, Bool.false_eq_true,
    addAt_same, addAt_of_ne _ _ hne, addAt_of_ne _ _ hne.symm, hrho, hX]
  constructor
  · ring
  · field_simp
    ring

/-- Witness of C8: sub-control volume 0 of the example element, with mean molar mass 20 and
molar mass 10 of component 1. -/
theorem computeStorage_mass_eq_mole_witness :
    computeStorage (exampleResidual false 1) (fun _ => 0) 0 false 0
      = 20 * computeStorage (exampleResidual true 1) (fun _ => 0) 0 false 0
    ∧ computeStorage (exampleResidual false 1) (fun _ => 0) 0 false 1
      = 10 * computeStorage (exampleResidual true 1) (fun _ => 0) 0 false 1 :=
  computeStorage_mass_eq_mole (exampleResidual false 1) (fun _ => 0) (fun _ => 0) 0 false 10 20
    (by decide) (by norm_num)
    (by norm_num [exampleResidual, exampleVolVarsA])
    (by norm_num [exampleResidual, exampleVolVarsA])

end OnePTwoCLocalResidual

namespace PvsVolumeVariables

variable {K : Type} [LinearOrderedField K] {E ParameterCache MaterialLawParams : Type}

theorem saturationLoop_eq (priVars : PvsPrimaryVariables K) (n : Nat)
    (fs : CompositionalFluidState K) :
    (List.range n).foldl
        (fun (st : CompositionalFluidState K × K) phaseIdx =>
          let fluidState_ := st.1.setSaturation phaseIdx (priVars.explicitSaturationValue phaseIdx)
          (fluidState_, st.2 + fluidState_.saturation phaseIdx))
        (fs, 0)
      = ({ fs with saturation := fun p =>
            if p < n then priVars.explicitSaturationValue p else fs.saturation p },
          ∑ p in Finset.range n, priVars.explicitSaturationValue p) := by
  induction n with
  | zero => simp
  | succ n ih =>
    rw [List.range_succ, List.foldl_append, ih, Finset.sum_range_succ]
    simp only [List.foldl_cons, List.foldl_nil, CompositionalFluidState.setSaturation,
      Function.update_same]
    congr 2
    funext p
    by_cases hp : p = n
    · subst hp
      simp
    · rw [Function.update_noteq hp]
      by_cases hlt : p < n
      · simp [hlt, Nat.lt_succ_of_lt hlt]
      · have : ¬ p < n + 1 := by omega
        simp [hlt, this]

theorem setSaturations_saturation (numPhases : Nat) (priVars : PvsPrimaryVariables K)
    (fs : CompositionalFluidState K) :
    (setSaturations numPhases priVars fs).saturation
      = Function.update
          (fun p => if p < numPhases then priVars.explicitSaturationValue p else fs.saturation p)
          priVars.implicitSaturationIdx
          (1 - ∑ p in Finset.range numPhases, priVars.explicitSaturationValue p) := by
  unfold setSaturations
  rw [saturationLoop_eq]
  rfl

theorem setSaturations_sum (numPhases : Nat) (priVars : PvsPrimaryVariables K)
    (fs : CompositionalFluidState K) (himpl : priVars.implicitSaturationIdx < numPhases) :
    ∑ p in Finset.range numPhases, (setSaturations numPhases priVars fs).saturation p
      = 1 - priVars.explicitSaturationValue priVars.implicitSaturationIdx := by
  rw [setSaturations_saturation, Finset.sum_update_of_mem (Finset.mem_range.mpr himpl)]
  have hsum : ∑ p in Finset.range numPhases \ {priVars.implicitSaturationIdx},
        (if p < numPhases then priVars.explicitSaturationValue p else fs.saturation p)
      = ∑ p in Finset.range numPhases \ {priVars.implicitSaturationIdx},
          priVars.explicitSaturationValue p := by
    refine Finset.sum_congr rfl (fun p hp => ?_)
    have : p < numPhases := Finset.mem_range.mp (Finset.mem_sdiff.mp hp).1
    simp [this]
  rw [hsum, Finset.sum_sdiff_eq_sub (by simpa using himpl)]
  simp

theorem setPressures_saturation (numPhases pressure0Idx : Nat) (priVars : PvsPrimaryVariables K)
    (pC : Nat → K) (fs : CompositionalFluidState K) :
    (setPressures numPhases pressure0Idx priVars pC fs).saturation = fs.saturation := by
  unfold setPressures
  induction (List.range numPhases) generalizing fs with
  | nil => rfl
  | cons x xs ih => rw [List.foldl_cons, ih]; rfl

theorem setReferenceComposition_saturation (numComponents switch0Idx : Nat)
    (priVars : PvsPrimaryVariables K) (lowestPresentPhaseIdx : Nat)
    (fs : CompositionalFluidState K) :
    (setReferenceComposition numComponents switch0Idx priVars lowestPresentPhaseIdx
      fs).saturation = fs.saturation := by
  unfold setReferenceComposition
  have key : ∀ (l : List Nat) (st : CompositionalFluidState K × K),
      (l.foldl
        (fun (st : CompositionalFluidState K × K) compIdx =>
          let x := priVars.get (switch0Idx + compIdx - 1)
          (st.1.setMoleFraction lowestPresentPhaseIdx compIdx x, st.2 + x)) st).1.saturation
        = st.1.saturation := by
    intro l
    induction l with
    | nil => intro st; rfl
    | cons x xs ih => intro st; rw [List.foldl_cons, ih]; rfl
  exact key _ _

theorem setReferenceComposition_pressure (numComponents switch0Idx : Nat)
    (priVars : PvsPrimaryVariables K) (lowestPresentPhaseIdx : Nat)
    (fs : CompositionalFluidState K) :
    (setReferenceComposition numComponents switch0Idx priVars lowestPresentPhaseIdx
      fs).pressure = fs.pressure := by
  unfold setReferenceComposition
  have key : ∀ (l : List Nat) (st : CompositionalFluidState K × K),
      (l.foldl
        (fun (st : CompositionalFluidState K × K) compIdx =>
          let x := priVars.get (switch0Idx + compIdx - 1)
          (st.1.setMoleFraction lowestPresentPhaseIdx compIdx x, st.2 + x)) st).1.pressure
        = st.1.pressure := by
    intro l
    induction l with
    | nil => intro st; rfl
    | cons x xs ih => intro st; rw [List.foldl_cons, ih]; rfl
  exact key _ _

theorem except_bind_eq_ok {ε α β : Type} {x : Except ε α} {f : α → Except ε β} {b : β}
    (h : (x >>= f) = Except.ok b) : ∃ a, x = Except.ok a ∧ f a = Except.ok b := by
  cases x with
  | error e => simp [bind, Except.bind] at h
  | ok a => exact ⟨a, rfl, h⟩

theorem except_map_eq_ok {ε α β : Type} {x : Except ε α} {f : α → β} {b : β}
    (h : Except.map f x = Except.ok b) : ∃ a, x = Except.ok a ∧ f a = b := by
  cases x with
  | error e => simp [Except.map] at h
  | ok a => exact ⟨a, rfl, by simpa [Except.map] using h⟩

theorem calculatePhaseCompositions_saturation
    (ctx : PvsContext K E ParameterCache MaterialLawParams) (priVars : PvsPrimaryVariables K)
    (fs : CompositionalFluidState K) (solved : CompositionalFluidState K × ParameterCache)
    (h : calculatePhaseCompositions ctx priVars fs = Except.ok solved) :
    solved.1.saturation = fs.saturation ∧ solved.1.pressure = fs.pressure := by
  unfold calculatePhaseCompositions at h
  by_cases hc : (countNonPresentPhases ctx.numPhases priVars : Int) = (ctx.numPhases : Int) - 1
  · simp only [hc, if_true] at h
    obtain ⟨r, _, hr⟩ := except_map_eq_ok h
    rw [← hr]
    exact ⟨setReferenceComposition_saturation _ _ _ _ _,
      setReferenceComposition_pressure _ _ _ _ _⟩
  · simp only [hc, if_false] at h
    obtain ⟨r, _, hr⟩ := except_map_eq_ok h
    rw [← hr]
    exact ⟨rfl, rfl⟩

/-- The saturations and pressures after a successful `update` are those set by its first two
blocks. -/
theorem update_saturation_pressure (ctx : PvsContext K E ParameterCache MaterialLawParams)
    (self vv : PvsVolumeVariables K) (scvIdx timeIdx : Nat)
    (h : update ctx self scvIdx timeIdx = Except.ok vv) :
    ∃ fs materialParams,
      ctx.updateTemperatures_ self.fluidState_ scvIdx timeIdx = Except.ok fs
      ∧ ctx.materialLawParams scvIdx timeIdx = Except.ok materialParams
      ∧ vv.fluidState_.saturation
        = (setSaturations ctx.numPhases (ctx.primaryVars scvIdx timeIdx) fs).saturation
      ∧ vv.fluidState_.pressure
        = (setPressures ctx.numPhases ctx.indices.pressure0Idx (ctx.primaryVars scvIdx timeIdx)
            (ctx.capillaryPressures materialParams
              (setSaturations ctx.numPhases (ctx.primaryVars scvIdx timeIdx) fs))
            (setSaturations ctx.numPhases (ctx.primaryVars scvIdx timeIdx) fs)).pressure := by
  unfold update at h
  obtain ⟨fs, h1, h⟩ := except_bind_eq_ok h
  obtain ⟨mp, h2, h⟩ := except_bind_eq_ok h
  refine ⟨fs, mp, h1, h2, ?_⟩
  obtain ⟨solved, h3, h⟩ := except_bind_eq_ok h
  obtain ⟨energy, h4, h⟩ := except_bind_eq_ok h
  obtain ⟨por, h5, h⟩ := except_bind_eq_ok h
  simp only [pure, Except.pure, Except.ok.injEq] at h
  subst h
  have hs := calculatePhaseCompositions_saturation ctx _ _ solved h3
  exact ⟨hs.1.trans (setPressures_saturation _ _ _ _ _), hs.2⟩

theorem setPressures_pressure (numPhases pressure0Idx : Nat) (priVars : PvsPrimaryVariables K)
    (pC : Nat → K) (fs : CompositionalFluidState K) :
    (setPressures numPhases pressure0Idx priVars pC fs).pressure
      = fun i => if i < numPhases then priVars.get pressure0Idx + (pC i - pC 0)
          else fs.pressure i := by
  unfold setPressures
  induction numPhases with
  | zero => simp
  | succ n ih =>
    rw [List.range_succ, List.foldl_append]
    have hstep : ∀ (fs : CompositionalFluidState K) (p : Nat) (v : K),
        (fs.setPressure p v).pressure = Function.update fs.pressure p v := fun _ _ _ => rfl
    simp only [List.foldl_cons, List.foldl_nil]
    rw [hstep, ih]
    funext i
    by_cases hi : i = n
    · subst hi
      simp
    · rw [Function.update_noteq hi]
      by_cases hlt : i < n
      · simp [hlt, Nat.lt_succ_of_lt hlt]
      · have : ¬ i < n + 1 := by omega
        simp [hlt, this]

/-- C9: after `update`, the saturations stored in the fluid state sum to 1 over all phases,
the saturation of the implicit phase being 1 minus the sum of the saturations of the other
phases, each of which is its explicit saturation value.  The primary variables (their class
is not among the sources) name a phase as the implicit one and hold no explicit saturation
for it: `explicitSaturationValue` answers 0 there. -/
theorem update_saturation_sum (ctx : PvsContext K E ParameterCache MaterialLawParams)
    (self vv : PvsVolumeVariables K) (scvIdx timeIdx : Nat)
    (h : update ctx self scvIdx timeIdx = Except.ok vv)
    (himpl : (ctx.primaryVars scvIdx timeIdx).implicitSaturationIdx < ctx.numPhases)
    (hzero : (ctx.primaryVars scvIdx timeIdx).explicitSaturationValue
        (ctx.primaryVars scvIdx timeIdx).implicitSaturationIdx = 0) :
    ∑ p in Finset.range ctx.numPhases, vv.fluidState_.saturation p = 1
    ∧ vv.fluidState_.saturation (ctx.primaryVars scvIdx timeIdx).implicitSaturationIdx
        = 1 - ∑ p in (Finset.range ctx.numPhases).erase
              (ctx.primaryVars scvIdx timeIdx).implicitSaturationIdx,
            vv.fluidState_.saturation p
    ∧ ∀ p, p < ctx.numPhases → p ≠ (ctx.primaryVars scvIdx timeIdx).implicitSaturationIdx →
        vv.fluidState_.saturation p
          = (ctx.primaryVars scvIdx timeIdx).explicitSaturationValue p := by
  obtain ⟨fs, mp, _, _, hsat, _⟩ := update_saturation_pressure ctx self vv scvIdx timeIdx h
  have hone : ∑ p in Finset.range ctx.numPhases, vv.fluidState_.saturation p = 1 := by
    rw [hsat, setSaturations_sum _ _ _ himpl, hzero, sub_zero]
  refine ⟨hone, ?_, fun p hp hne => ?_⟩
  · rw [← Finset.add_sum_erase _ _ (Finset.mem_range.mpr himpl)] at hone
    linarith
  · rw [hsat, setSaturations_saturation, Function.update_noteq hne, if_pos hp]

/-- Witness of C9: the example control volume, whose primary variables hold the explicit
saturation 1/4 for phase 1 and none for the implicit phase 0; `update` succeeds and the
saturations sum to 1. -/
theorem update_saturation_sum_witness :
    ∃ vv, update (examplePvsContext 0) examplePvsVolumeVariables 0 0 = Except.ok vv
      ∧ ((examplePvsContext 0).primaryVars 0 0).explicitSaturationValue
          ((examplePvsContext 0).primaryVars 0 0).implicitSaturationIdx = 0
      ∧ ∑ p in Finset.range (examplePvsContext 0).numPhases, vv.fluidState_.saturation p = 1 :=
  ⟨_, rfl, rfl,
    (update_saturation_sum (examplePvsContext 0) examplePvsVolumeVariables _ 0 0 rfl
      (by decide) rfl).1⟩

/-- C10: after the pressure step of `update`, the pressure of every phase `i` is
`priVars[pressure0Idx] + (pC[i] - pC[0])`; hence the pressure of phase 0 is the primary
pressure unknown, and `pressure(i) - pressure(j) = pC[i] - pC[j]` for all phases. -/
theorem setPressures_spec (numPhases pressure0Idx : Nat) (priVars : PvsPrimaryVariables K)
    (pC : Nat → K) (fluidState_ : CompositionalFluidState K) :
    (∀ i, i < numPhases →
        (setPressures numPhases pressure0Idx priVars pC fluidState_).pressure i
          = priVars.get pressure0Idx + (pC i - pC 0))
    ∧ (0 < numPhases →
        (setPressures numPhases pressure0Idx priVars pC fluidState_).pressure 0
          = priVars.get pressure0Idx)
    ∧ (∀ i j, i < numPhases → j < numPhases →
        (setPressures numPhases pressure0Idx priVars pC fluidState_).pressure i
          - (setPressures numPhases pressure0Idx priVars pC fluidState_).pressure j
          = pC i - pC j) := by
  rw [setPressures_pressure]
  refine ⟨fun i hi => ?_, fun h0 => ?_, fun i j hi hj => ?_⟩
  · simp [hi]
  · simp [h0]
  · simp only [hi, hj, if_true]
    ring

/-- Witness of C10: two phases with capillary pressures 0 and 250 and primary pressure
100000. -/
theorem setPressures_spec_witness :
    (setPressures 2 0 (examplePriVars 0) (fun i => if i = 0 then 0 else 250)
        exampleFluidState).pressure 1 = 100000 + (250 - 0)
    ∧ (setPressures 2 0 (examplePriVars 0) (fun i => if i = 0 then 0 else 250)
        exampleFluidState).pressure 0 = 100000
    ∧ (setPressures 2 0 (examplePriVars 0) (fun i => if i = 0 then 0 else 250)
          exampleFluidState).pressure 1
        - (setPressures 2 0 (examplePriVars 0) (fun i => if i = 0 then 0 else 250)
          exampleFluidState).pressure 0 = 250 - 0 :=
  ⟨(setPressures_spec 2 0 (examplePriVars 0) (fun i => if i = 0 then 0 else 250)
      exampleFluidState).1 1 (by decide),
    (setPressures_spec 2 0 (examplePriVars 0) (fun i => if i = 0 then 0 else 250)
      exampleFluidState).2.1 (by decide),
    (setPressures_spec 2 0 (examplePriVars 0) (fun i => if i = 0 then 0 else 250)
      exampleFluidState).2.2 1 0 (by decide) (by decide)⟩

end PvsVolumeVariables

namespace PvsVolumeVariables

variable {K : Type} [LinearOrderedField K] {E ParameterCache MaterialLawParams : Type}

theorem compositionLoop_eq (switch0Idx : Nat) (priVars : PvsPrimaryVariables K)
    (lowestPresentPhaseIdx : Nat) (l : List Nat) (st : CompositionalFluidState K × K) :
    (l.foldl
        (fun (st : CompositionalFluidState K × K) compIdx =>
          let x := priVars.get (switch0Idx + compIdx - 1)
          (st.1.setMoleFraction lowestPresentPhaseIdx compIdx x, st.2 + x)) st).2
      = st.2 + (l.map (fun compIdx => priVars.get (switch0Idx + compIdx - 1))).sum
    ∧ ∀ c, (l.foldl
        (fun (st : CompositionalFluidState K × K) compIdx =>
          let x := priVars.get (switch0Idx + compIdx - 1)
          (st.1.setMoleFraction lowestPresentPhaseIdx compIdx x, st.2 + x)) st).1.moleFraction
          lowestPresentPhaseIdx c
        = if c ∈ l then priVars.get (switch0Idx + c - 1)
          else st.1.moleFraction lowestPresentPhaseIdx c := by
  induction l generalizing st with
  | nil => simp
  | cons a as ih =>
    rw [List.foldl_cons]
    refine ⟨?_, fun c => ?_⟩
    · rw [(ih _).1]
      simp [add_assoc]
    · rw [(ih _).2 c]
      by_cases hc : c ∈ as
      · simp [hc]
      · by_cases hca : c = a
        · subst hca
          simp [hc, CompositionalFluidState.setMoleFraction]
        · simp [hc, hca, CompositionalFluidState.setMoleFraction, Function.update_noteq hca]

theorem sum_map_range' (f : Nat → K) (m : Nat) :
    ((List.range' 1 m).map f).sum = ∑ k in Finset.range m, f (k + 1) := by
  induction m with
  | zero => simp
  | succ m ih =>
    rw [List.range'_concat, List.map_append, List.sum_append, ih, Finset.sum_range_succ]
    simp [add_comm]

theorem setReferenceComposition_moleFraction (numComponents switch0Idx : Nat)
    (priVars : PvsPrimaryVariables K) (lowestPresentPhaseIdx : Nat)
    (fs : CompositionalFluidState K) (c : Nat) :
    (setReferenceComposition numComponents switch0Idx priVars lowestPresentPhaseIdx
        fs).moleFraction lowestPresentPhaseIdx c
      = if c = 0 then
          1 - ∑ k in Finset.range (numComponents - 1), priVars.get (switch0Idx + (k + 1) - 1)
        else if c < numComponents then priVars.get (switch0Idx + c - 1)
        else fs.moleFraction lowestPresentPhaseIdx c := by
  unfold setReferenceComposition
  have h := compositionLoop_eq switch0Idx priVars lowestPresentPhaseIdx
    (List.range' 1 (numComponents - 1)) (fs, 0)
  have hset : ∀ (g : CompositionalFluidState K) (p k : Nat) (v : K),
      (g.setMoleFraction p k v).moleFraction p = Function.update (g.moleFraction p) k v := by
    intro g p k v
    simp [CompositionalFluidState.setMoleFraction]
  simp only []
  rw [hset]
  by_cases hc : c = 0
  · subst hc
    rw [Function.update_same, if_pos rfl, h.1, zero_add,
      sum_map_range' (fun compIdx => priVars.get (switch0Idx + compIdx - 1))]
  · rw [Function.update_noteq hc, if_neg hc, h.2 c]
    have hmem : c ∈ List.range' 1 (numComponents - 1) ↔ c < numComponents := by
      rw [List.mem_range'_1]
      omega
    by_cases hlt : c < numComponents
    · rw [if_pos (hmem.mpr hlt), if_pos hlt]
    · rw [if_neg (fun h' => hlt (hmem.mp h')), if_neg hlt]

theorem setReferenceComposition_sum (numComponents switch0Idx : Nat)
    (priVars : PvsPrimaryVariables K) (lowestPresentPhaseIdx : Nat)
    (fs : CompositionalFluidState K) (hn : 0 < numComponents) :
    ∑ c in Finset.range numComponents,
        (setReferenceComposition numComponents switch0Idx priVars lowestPresentPhaseIdx
          fs).moleFraction lowestPresentPhaseIdx c = 1 := by
  obtain ⟨m, rfl⟩ : ∃ m, numComponents = m + 1 := ⟨numComponents - 1, by omega⟩
  rw [Finset.sum_range_succ', setReferenceComposition_moleFraction, if_pos rfl]
  have hrest : ∑ k in Finset.range m,
        (setReferenceComposition (m + 1) switch0Idx priVars lowestPresentPhaseIdx
          fs).moleFraction lowestPresentPhaseIdx (k + 1)
      = ∑ k in Finset.range m, priVars.get (switch0Idx + (k + 1) - 1) := by
    refine Finset.sum_congr rfl (fun k hk => ?_)
    have hk' : k + 1 < m + 1 := by
      have := Finset.mem_range.mp hk
      omega
    rw [setReferenceComposition_moleFraction, if_neg (Nat.succ_ne_zero k), if_pos hk']
  rw [hrest]
  simp

theorem calculatePhaseCompositions_single
    (ctx : PvsContext K E ParameterCache MaterialLawParams) (priVars : PvsPrimaryVariables K)
    (fs : CompositionalFluidState K)
    (h : (countNonPresentPhases ctx.numPhases priVars : Int) = (ctx.numPhases : Int) - 1) :
    calculatePhaseCompositions ctx priVars fs
      = (ctx.computeFromReferencePhase
            (setReferenceComposition ctx.numComponents ctx.indices.switch0Idx priVars
              priVars.lowestPresentPhaseIdx fs)
            ctx.paramCache priVars.lowestPresentPhaseIdx true false).map
          (fun r => (applySolve
            (setReferenceComposition ctx.numComponents ctx.indices.switch0Idx priVars
              priVars.lowestPresentPhaseIdx fs) r.1, r.2)) := by
  unfold calculatePhaseCompositions
  simp only [h, if_true]

theorem calculatePhaseCompositions_multi
    (ctx : PvsContext K E ParameterCache MaterialLawParams) (priVars : PvsPrimaryVariables K)
    (fs : CompositionalFluidState K)
    (h : (countNonPresentPhases ctx.numPhases priVars : Int) ≠ (ctx.numPhases : Int) - 1) :
    calculatePhaseCompositions ctx priVars fs
      = (ctx.miscibleMultiPhaseComposition fs ctx.paramCache priVars.phasePresence
            (auxConstraintsArray
              (auxConstraintWrites ctx.numPhases ctx.numComponents ctx.indices.switch0Idx priVars
                (countNonPresentPhases ctx.numPhases priVars)))
            ((ctx.numComponents : Int) + countNonPresentPhases ctx.numPhases priVars
              - ctx.numPhases)
            true false).map
          (fun r => (applySolve fs r.1, r.2)) := by
  unfold calculatePhaseCompositions
  simp only [h, if_false]

omit [LinearOrderedField K] in
theorem countNonPresentPhases_eq_card (numPhases : Nat) (priVars : PvsPrimaryVariables K) :
    countNonPresentPhases numPhases priVars
      = ((Finset.range numPhases).filter (fun p => priVars.phaseIsPresent p = false)).card := by
  unfold countNonPresentPhases
  induction numPhases with
  | zero => simp
  | succ n ih =>
    rw [List.range_succ, List.foldl_append, ih, Finset.range_succ, Finset.filter_insert]
    cases hp : priVars.phaseIsPresent n <;> simp [hp]

/-- C11: in the single-present-phase path of `update`, the fluid state handed to
`ComputeFromReferencePhase` has, in the lowest present phase, the mole fraction
`priVars[switch0Idx + c - 1]` for every component `c >= 1` and 1 minus their sum for
component 0, so that these mole fractions sum to 1 over all `numComponents` components, for
every primary-variable vector. -/
theorem singlePhase_moleFractions_sum (ctx : PvsContext K E ParameterCache MaterialLawParams)
    (priVars : PvsPrimaryVariables K) (fs : CompositionalFluidState K)
    (hn : 0 < ctx.numComponents)
    (hsingle : (countNonPresentPhases ctx.numPhases priVars : Int) = (ctx.numPhases : Int) - 1) :
    calculatePhaseCompositions ctx priVars fs
      = (ctx.computeFromReferencePhase
            (setReferenceComposition ctx.numComponents ctx.indices.switch0Idx priVars
              priVars.lowestPresentPhaseIdx fs)
            ctx.paramCache priVars.lowestPresentPhaseIdx true false).map
          (fun r => (applySolve
            (setReferenceComposition ctx.numComponents ctx.indices.switch0Idx priVars
              priVars.lowestPresentPhaseIdx fs) r.1, r.2))
    ∧ (∀ c, 1 ≤ c → c < ctx.numComponents →
        (setReferenceComposition ctx.numComponents ctx.indices.switch0Idx priVars
          priVars.lowestPresentPhaseIdx fs).moleFraction priVars.lowestPresentPhaseIdx c
          = priVars.get (ctx.indices.switch0Idx + c - 1))
    ∧ (setReferenceComposition ctx.numComponents ctx.indices.switch0Idx priVars
          priVars.lowestPresentPhaseIdx fs).moleFraction priVars.lowestPresentPhaseIdx 0
        = 1 - ∑ c in Finset.Ico 1 ctx.numComponents, priVars.get (ctx.indices.switch0Idx + c - 1)
    ∧ ∑ c in Finset.range ctx.numComponents,
        (setReferenceComposition ctx.numComponents ctx.indices.switch0Idx priVars
          priVars.lowestPresentPhaseIdx fs).moleFraction priVars.lowestPresentPhaseIdx c = 1 := by
  refine ⟨calculatePhaseCompositions_single ctx priVars fs hsingle, fun c h1 hc => ?_, ?_,
    setReferenceComposition_sum _ _ _ _ _ hn⟩
  · have h0 : c ≠ 0 := by omega
    rw [setReferenceComposition_moleFraction, if_neg h0, if_pos hc]
  · rw [setReferenceComposition_moleFraction, if_pos rfl, Finset.sum_Ico_eq_sum_range]
    congr 1
    refine Finset.sum_congr rfl (fun k _ => ?_)
    rw [add_comm 1 k]

/-- Witness of C11: the two-component example context with phase 0 alone present; the mole
fractions handed to the solver are 3/4 and 1/4. -/
theorem singlePhase_moleFractions_sum_witness :
    (setReferenceComposition 2 1 examplePriVarsSinglePhase 0 exampleFluidState).moleFraction 0 1
        = 1 / 4
    ∧ (setReferenceComposition 2 1 examplePriVarsSinglePhase 0 exampleFluidState).moleFraction 0 0
        = 3 / 4
    ∧ ∑ c in Finset.range 2,
        (setReferenceComposition 2 1 examplePriVarsSinglePhase 0
          exampleFluidState).moleFraction 0 c = 1 := by
  have h := singlePhase_moleFractions_sum (examplePvsContext 0) examplePriVarsSinglePhase
    exampleFluidState (by decide) (by decide)
  refine ⟨?_, ?_, h.2.2.2⟩
  · refine (h.2.1 1 (by decide) (by decide)).trans ?_
    norm_num [examplePvsContext, examplePriVarsSinglePhase]
  · refine h.2.2.1.trans ?_
    norm_num [examplePvsContext, examplePriVarsSinglePhase, Finset.sum_Ico_eq_sum_range]

/-- C12: `update` chooses its constraint-solve path from the phase-presence flags alone.
The count it compares is the number of phases below `numPhases` flagged non-present; it
calls `ComputeFromReferencePhase` with the lowest present phase as reference exactly when
that number is `numPhases - 1`, and otherwise `MiscibleMultiPhaseComposition` with
`numComponents + numNonPresentPhases - numPhases` auxiliary constraints. -/
theorem calculatePhaseCompositions_path (ctx : PvsContext K E ParameterCache MaterialLawParams)
    (priVars : PvsPrimaryVariables K) (fs : CompositionalFluidState K) :
    countNonPresentPhases ctx.numPhases priVars
      = ((Finset.range ctx.numPhases).filter (fun p => priVars.phaseIsPresent p = false)).card
    ∧ ((countNonPresentPhases ctx.numPhases priVars : Int) = (ctx.numPhases : Int) - 1 →
      calculatePhaseCompositions ctx priVars fs
        = (ctx.computeFromReferencePhase
              (setReferenceComposition ctx.numComponents ctx.indices.switch0Idx priVars
                priVars.lowestPresentPhaseIdx fs)
              ctx.paramCache priVars.lowestPresentPhaseIdx true false).map
            (fun r => (applySolve
              (setReferenceComposition ctx.numComponents ctx.indices.switch0Idx priVars
                priVars.lowestPresentPhaseIdx fs) r.1, r.2)))
    ∧ ((countNonPresentPhases ctx.numPhases priVars : Int) ≠ (ctx.numPhases : Int) - 1 →
      calculatePhaseCompositions ctx priVars fs
        = (ctx.miscibleMultiPhaseComposition fs ctx.paramCache priVars.phasePresence
              (auxConstraintsArray
                (auxConstraintWrites ctx.numPhases ctx.numComponents ctx.indices.switch0Idx
                  priVars (countNonPresentPhases ctx.numPhases priVars)))
              ((ctx.numComponents : Int) + countNonPresentPhases ctx.numPhases priVars
                - ctx.numPhases)
              true false).map
            (fun r => (applySolve fs r.1, r.2)))
    ∧ (∀ priVars' : PvsPrimaryVariables K,
        (∀ p, p < ctx.numPhases → priVars'.phaseIsPresent p = priVars.phaseIsPresent p) →
        countNonPresentPhases ctx.numPhases priVars'
          = countNonPresentPhases ctx.numPhases priVars) := by
  refine ⟨countNonPresentPhases_eq_card _ _, calculatePhaseCompositions_single ctx priVars fs,
    calculatePhaseCompositions_multi ctx priVars fs, fun priVars' hflags => ?_⟩
  rw [countNonPresentPhases_eq_card, countNonPresentPhases_eq_card]
  congr 1
  refine Finset.filter_congr (fun p hp => ?_)
  rw [hflags p (Finset.mem_range.mp hp)]

/-- Witness of C12: in the two-phase example context, phase 0 alone present leads to
`ComputeFromReferencePhase`, both phases present to `MiscibleMultiPhaseComposition` with
`2 + 0 - 2` auxiliary constraints. -/
theorem calculatePhaseCompositions_path_witness :
    calculatePhaseCompositions (examplePvsContext 0) examplePriVarsSinglePhase exampleFluidState
      = ((examplePvsContext 0).computeFromReferencePhase
            (setReferenceComposition 2 1 examplePriVarsSinglePhase 0 exampleFluidState)
            () 0 true false).map
          (fun r => (applySolve
            (setReferenceComposition 2 1 examplePriVarsSinglePhase 0 exampleFluidState) r.1, r.2))
    ∧ calculatePhaseCompositions (examplePvsContext 0) (examplePriVars 0) exampleFluidState
      = ((examplePvsContext 0).miscibleMultiPhaseComposition exampleFluidState () 3
            (auxConstraintsArray (auxConstraintWrites 2 2 1 (examplePriVars 0) 0))
            ((2 : Int) + (0 : Nat) - (2 : Nat)) true false).map
          (fun r => (applySolve exampleFluidState r.1, r.2)) :=
  ⟨(calculatePhaseCompositions_path (examplePvsContext 0) examplePriVarsSinglePhase
      exampleFluidState).2.1 (by decide),
    (calculatePhaseCompositions_path (examplePvsContext 0) (examplePriVars 0)
      exampleFluidState).2.2.1 (by decide)⟩

theorem update_eq_error_of_compositions (ctx : PvsContext K E ParameterCache MaterialLawParams)
    (self : PvsVolumeVariables K) (scvIdx timeIdx : Nat) (fs : CompositionalFluidState K)
    (materialParams : MaterialLawParams) (e : E)
    (h1 : ctx.updateTemperatures_ self.fluidState_ scvIdx timeIdx = Except.ok fs)
    (h2 : ctx.materialLawParams scvIdx timeIdx = Except.ok materialParams)
    (h3 : calculatePhaseCompositions ctx (ctx.primaryVars scvIdx timeIdx)
        (setPressures ctx.numPhases ctx.indices.pressure0Idx (ctx.primaryVars scvIdx timeIdx)
          (ctx.capillaryPressures materialParams
            (setSaturations ctx.numPhases (ctx.primaryVars scvIdx timeIdx) fs))
          (setSaturations ctx.numPhases (ctx.primaryVars scvIdx timeIdx) fs))
      = Except.error e) :
    update ctx self scvIdx timeIdx = Except.error e := by
  unfold update
  simp only [h1, h2, h3, bind, Except.bind]

/-- C13: if the constraint solve called by `update` raises `e`, be it
`ComputeFromReferencePhase::solve` in the single-phase path or
`MiscibleMultiPhaseComposition::solve` in the multi-phase path, then `update` ends with `e`
instead of returning, whatever the relative permeabilities, the energy module and
`problem.porosity` would have yielded afterwards. -/
theorem update_fails_of_solve_fails (ctx : PvsContext K E ParameterCache MaterialLawParams)
    (self : PvsVolumeVariables K) (scvIdx timeIdx : Nat) (fs : CompositionalFluidState K)
    (materialParams : MaterialLawParams) (e : E)
    (priVars : PvsPrimaryVariables K) (fluidState_ : CompositionalFluidState K)
    (h1 : ctx.updateTemperatures_ self.fluidState_ scvIdx timeIdx = Except.ok fs)
    (h2 : ctx.materialLawParams scvIdx timeIdx = Except.ok materialParams)
    (hpriVars : priVars = ctx.primaryVars scvIdx timeIdx)
    (hfluidState : fluidState_
      = setPressures ctx.numPhases ctx.indices.pressure0Idx priVars
          (ctx.capillaryPressures materialParams (setSaturations ctx.numPhases priVars fs))
          (setSaturations ctx.numPhases priVars fs))
    (hsolve :
      ((countNonPresentPhases ctx.numPhases priVars : Int) = (ctx.numPhases : Int) - 1
        ∧ ctx.computeFromReferencePhase
            (setReferenceComposition ctx.numComponents ctx.indices.switch0Idx priVars
              priVars.lowestPresentPhaseIdx fluidState_)
            ctx.paramCache priVars.lowestPresentPhaseIdx true false = Except.error e)
      ∨ ((countNonPresentPhases ctx.numPhases priVars : Int) ≠ (ctx.numPhases : Int) - 1
        ∧ ctx.miscibleMultiPhaseComposition fluidState_ ctx.paramCache priVars.phasePresence
            (auxConstraintsArray
              (auxConstraintWrites ctx.numPhases ctx.numComponents ctx.indices.switch0Idx
                priVars (countNonPresentPhases ctx.numPhases priVars)))
            ((ctx.numComponents : Int) + countNonPresentPhases ctx.numPhases priVars
              - ctx.numPhases)
            true false = Except.error e)) :
    update ctx self scvIdx timeIdx = Except.error e
    ∧ ∀ (relativePermeabilities : MaterialLawParams → CompositionalFluidState K → Nat → K)
        (energyUpdate_ : CompositionalFluidState K → ParameterCache → Nat → Nat →
          Except E (EnergyResult K))
        (porosity : Nat → Nat → Except E K),
        update { ctx with relativePermeabilities := relativePermeabilities,
                          energyUpdate_ := energyUpdate_, porosity := porosity }
          self scvIdx timeIdx = Except.error e := by
  subst hpriVars hfluidState
  have h3 : calculatePhaseCompositions ctx (ctx.primaryVars scvIdx timeIdx)
      (setPressures ctx.numPhases ctx.indices.pressure0Idx (ctx.primaryVars scvIdx timeIdx)
        (ctx.capillaryPressures materialParams
          (setSaturations ctx.numPhases (ctx.primaryVars scvIdx timeIdx) fs))
        (setSaturations ctx.numPhases (ctx.primaryVars scvIdx timeIdx) fs))
      = Except.error e := by
    rcases hsolve with ⟨hc, herr⟩ | ⟨hc, herr⟩
    · rw [calculatePhaseCompositions_single ctx _ _ hc, herr]
      rfl
    · rw [calculatePhaseCompositions_multi ctx _ _ hc, herr]
      rfl
  refine ⟨update_eq_error_of_compositions ctx self scvIdx timeIdx fs materialParams e h1 h2 h3,
    fun kr en por => ?_⟩
  exact update_eq_error_of_compositions _ self scvIdx timeIdx fs materialParams e h1 h2 h3

/-- Witness of C13: the example context whose solvers do not converge; with both phases
present `update` ends with the exception of `MiscibleMultiPhaseComposition`, with phase 0
alone present with that of `ComputeFromReferencePhase`, and never with the exception that
`problem.porosity` would raise. -/
theorem update_fails_of_solve_fails_witness :
    update (exampleFailingContext (examplePriVars 0)) examplePvsVolumeVariables 0 0
        = Except.error "MiscibleMultiPhaseComposition"
    ∧ update (exampleFailingContext examplePriVarsSinglePhase) examplePvsVolumeVariables 0 0
        = Except.error "ComputeFromReferencePhase" :=
  ⟨(update_fails_of_solve_fails (exampleFailingContext (examplePriVars 0))
      examplePvsVolumeVariables 0 0 exampleFluidState () "MiscibleMultiPhaseComposition"
      _ _ rfl rfl rfl rfl (Or.inr ⟨by decide, rfl⟩)).1,
    (update_fails_of_solve_fails (exampleFailingContext examplePriVarsSinglePhase)
      examplePvsVolumeVariables 0 0 exampleFluidState () "ComputeFromReferencePhase"
      _ _ rfl rfl rfl rfl (Or.inl ⟨by decide, rfl⟩)).1⟩

end PvsVolumeVariables

namespace OnePTwoCLocalResidual

variable {K : Type} [LinearOrderedField K] {numEq dimWorld : Nat}

theorem evalOutflow_bcTypes (self : OnePTwoCLocalResidual K numEq dimWorld) :
    (self.evalOutflow_).bcTypes_ = self.bcTypes_ := by
  have h := evalOutflow_setResidual self self.residual_
  rw [setResidual_residual] at h
  rw [h]
  rfl

/-- C14: `evalBoundary_` checks the three boundary kinds one after the other, in the order
Neumann, outflow, Dirichlet, each evaluation running exactly when its flag is set at its
check; when the Neumann evaluation leaves the boundary types alone, the flags of the
element at the call decide, so that any subset of the three evaluations may run; and when
no flag is set the object, and with it the residual, is unchanged. -/
theorem evalBoundary_order
    (evalNeumann_ evalDirichlet_ :
      OnePTwoCLocalResidual K numEq dimWorld → OnePTwoCLocalResidual K numEq dimWorld)
    (self : OnePTwoCLocalResidual K numEq dimWorld) :
    evalBoundary_ evalNeumann_ evalDirichlet_ self
      = (fun s : OnePTwoCLocalResidual K numEq dimWorld =>
          if s.bcTypes_.hasDirichlet then evalDirichlet_ s else s)
        ((fun s : OnePTwoCLocalResidual K numEq dimWorld =>
            if s.bcTypes_.hasOutflow then s.evalOutflow_ else s)
          ((fun s : OnePTwoCLocalResidual K numEq dimWorld =>
              if s.bcTypes_.hasNeumann then evalNeumann_ s else s) self))
    ∧ ((∀ s, (evalNeumann_ s).bcTypes_ = s.bcTypes_) →
      evalBoundary_ evalNeumann_ evalDirichlet_ self
        = (if self.bcTypes_.hasDirichlet then evalDirichlet_ else id)
          ((if self.bcTypes_.hasOutflow then evalOutflow_ else id)
            ((if self.bcTypes_.hasNeumann then evalNeumann_ else id) self)))
    ∧ (self.bcTypes_.hasNeumann = false → self.bcTypes_.hasOutflow = false →
        self.bcTypes_.hasDirichlet = false →
        evalBoundary_ evalNeumann_ evalDirichlet_ self = self
        ∧ (evalBoundary_ evalNeumann_ evalDirichlet_ self).residual_ = self.residual_) := by
  refine ⟨rfl, fun hN => ?_, fun h1 h2 h3 => ?_⟩
  · unfold evalBoundary_
    cases h1 : self.bcTypes_.hasNeumann <;> cases h2 : self.bcTypes_.hasOutflow <;>
      cases h3 : self.bcTypes_.hasDirichlet <;>
      simp [h1, h2, h3, hN, evalOutflow_bcTypes]
  · have h : evalBoundary_ evalNeumann_ evalDirichlet_ self = self := by
      unfold evalBoundary_
      simp [h1, h2, h3]
    exact ⟨h, by rw [h]⟩

/-- Witness of C14: on the example element only the outflow flag is set, and `evalBoundary_`
is the outflow evaluation alone. -/
theorem evalBoundary_order_witness :
    evalBoundary_ id id (exampleResidual false 1) = (exampleResidual false 1).evalOutflow_
    ∧ (evalBoundary_ id id
          { exampleResidual false 1 with
            bcTypes_ := { hasNeumann := false, hasOutflow := false, hasDirichlet := false,
                          scv := (exampleResidual false 1).bcTypes_.scv } }).residual_
        = (exampleResidual false 1).residual_ :=
  ⟨(evalBoundary_order id id (exampleResidual false 1)).2.1 (fun _ => rfl),
    ((evalBoundary_order id id
      { exampleResidual false 1 with
        bcTypes_ := { hasNeumann := false, hasOutflow := false, hasDirichlet := false,
                      scv := (exampleResidual false 1).bcTypes_.scv } }).2.2 rfl rfl rfl).2⟩

end OnePTwoCLocalResidual

namespace StokesProblem

variable {K : Type} [LinearOrderedField K] {dimWorld : Nat}

theorem gravity_new_stokes (dim : Nat) (enableGravity : Bool) (i : Fin dimWorld) :
    (new dim enableGravity : StokesProblem K dimWorld).gravity i
      = if enableGravity = true ∧ i.val + 1 = dim then -9.81 else 0 := by
  unfold gravity new
  cases enableGravity
  · simp
  · simp only [if_true, Dune.setEntry, true_and]
    have h : ((i.val : Int) = (dim : Int) - 1) ↔ (i.val + 1 = dim) := by omega
    simp only [h]

/-- C17 (a failing input): for a grid of dimension 2 in a world of dimension 3 and with
`EnableGravity`, the Stokes problem's `gravity()` is `(0, -9.81, 0)`; its last component is
0, not -9.81. -/
theorem gravity_dim2_dimWorld3 :
    (new 2 true : StokesProblem ℚ 3).gravity = ![0, -9.81, 0]
    ∧ (new 2 true : StokesProblem ℚ 3).gravity ≠ ![0, 0, -9.81]
    ∧ ∀ (Context : Type) (context : Context) (spaceIdx timeIdx : Int),
        (new 2 true : StokesProblem ℚ 3).gravityAt context spaceIdx timeIdx = ![0, -9.81, 0] := by
  have h : (new 2 true : StokesProblem ℚ 3).gravity = ![0, -9.81, 0] := by
    funext i
    rw [gravity_new_stokes]
    fin_cases i <;> simp
  refine ⟨h, fun h' => ?_, fun _ _ _ _ => h⟩
  have h2 := congrFun (h.symm.trans h') 2
  norm_num at h2

end StokesProblem

end Dumux

namespace Ewoms

namespace MultiPhaseBaseProblem

variable {K : Type} {dimWorld : Nat}

theorem gravity_new_multiPhase [LinearOrderedField K] (enableGravity : Bool)
    (uninitialized : DimVector K dimWorld) (i : Fin dimWorld) :
    (new enableGravity uninitialized).gravity i
      = if enableGravity = true ∧ i.val + 1 = dimWorld then -9.81 else 0 := by
  unfold gravity new init_
  cases enableGravity
  · simp
  · simp only [if_true, Dune.setEntry, true_and]
    have h : ((i.val : Int) = (dimWorld : Int) - 1) ↔ (i.val + 1 = dimWorld) := by omega
    simp only [h]

/-- C15: the default implementations of `intrinsicPermeability`, `porosity`,
`heatCapacitySolid`, `heatConductionParams`, `tortuosity`, `dispersivity` and
`temperature()` raise `std::logic_error` for every context, space index and time index;
none of them returns a value. -/
theorem unimplemented_callbacks_throw (Context HeatConductionLawParams : Type)
    (context : Context) (spaceIdx timeIdx : Int) :
    (intrinsicPermeability context spaceIdx timeIdx : Except StdException (DimMatrix K dimWorld))
        = Except.error
            (StdException.logic_error "Not implemented: Problem::intrinsicPermeability()")
    ∧ (porosity context spaceIdx timeIdx : Except StdException K)
        = Except.error (StdException.logic_error "Not implemented: Problem::porosity()")
    ∧ (heatCapacitySolid context spaceIdx timeIdx : Except StdException K)
        = Except.error (StdException.logic_error "Not implemented: Problem::heatCapacitySolid()")
    ∧ (heatConductionParams context spaceIdx timeIdx :
          Except StdException HeatConductionLawParams)
        = Except.error
            (StdException.logic_error "Not implemented: Problem::heatConductionParams()")
    ∧ (tortuosity context spaceIdx timeIdx : Except StdException K)
        = Except.error (StdException.logic_error "Not implemented: Problem::tortuosity()")
    ∧ (dispersivity context spaceIdx timeIdx : Except StdException K)
        = Except.error (StdException.logic_error "Not implemented: Problem::dispersivity()")
    ∧ (temperature : Except StdException K)
        = Except.error (StdException.logic_error
            "Not implemented:temperature() method not implemented by the actual problem")
    ∧ (∀ v, (intrinsicPermeability context spaceIdx timeIdx :
          Except StdException (DimMatrix K dimWorld)) ≠ Except.ok v)
    ∧ (∀ v, (porosity context spaceIdx timeIdx : Except StdException K) ≠ Except.ok v)
    ∧ (∀ v, (heatCapacitySolid context spaceIdx timeIdx : Except StdException K) ≠ Except.ok v)
    ∧ (∀ v, (heatConductionParams context spaceIdx timeIdx :
          Except StdException HeatConductionLawParams) ≠ Except.ok v)
    ∧ (∀ v, (tortuosity context spaceIdx timeIdx : Except StdException K) ≠ Except.ok v)
    ∧ (∀ v, (dispersivity context spaceIdx timeIdx : Except StdException K) ≠ Except.ok v)
    ∧ (∀ v, (temperature : Except StdException K) ≠ Except.ok v) := by
  refine ⟨rfl, rfl, rfl, rfl, rfl, rfl, rfl, ?_, ?_, ?_, ?_, ?_, ?_, ?_⟩ <;>
    intro v h <;> cases h

/-- Counterexample to C16 as stated: the default `materialLawParams` of a problem whose
material-law parameters are of type `Unit` returns the default-constructed object; it does
not signal an error. -/
theorem materialLawParams_no_error :
    (materialLawParams () () 0 0 : Except StdException Unit) = Except.ok ()
    ∧ ¬ ∃ e, (materialLawParams () () 0 0 : Except StdException Unit) = Except.error e := by
  refine ⟨rfl, ?_⟩
  rintro ⟨e, h⟩
  cases h

/-- C16 (amended): calling the default `materialLawParams` does not signal an error: for
every context, space index and time index it returns its static, default-constructed
`MaterialLawParams` object. -/
theorem materialLawParams_returns_dummy (Context MaterialLawParams : Type)
    (dummy : MaterialLawParams) (context : Context) (spaceIdx timeIdx : Int) :
    materialLawParams dummy context spaceIdx timeIdx = Except.ok dummy
    ∧ ∀ e, materialLawParams dummy context spaceIdx timeIdx ≠ Except.error e := by
  refine ⟨rfl, fun e h => ?_⟩
  cases h

theorem meanK_inner (harmonicAverage : K → K → K) (K1 K2 : DimMatrix K dimWorld)
    (i : Fin dimWorld) (l : List (Fin dimWorld)) (result : DimMatrix K dimWorld)
    (a b : Fin dimWorld) :
    l.foldl
        (fun result j =>
          Function.update result i
            (Function.update (result i) j (harmonicAverage (K1 i j) (K2 i j))))
        result a b
      = if a = i ∧ b ∈ l then harmonicAverage (K1 i b) (K2 i b) else result a b := by
  induction l generalizing result with
  | nil => simp
  | cons j js ih =>
    rw [List.foldl_cons, ih]
    by_cases ha : a = i
    · subst ha
      by_cases hb : b ∈ js
      · simp [hb]
      · by_cases hbj : b = j
        · subst hbj
          simp [hb]
        · simp [hb, hbj, Function.update_noteq hbj]
    · simp [ha, Function.update_noteq ha]

theorem meanK_outer (harmonicAverage : K → K → K) (K1 K2 : DimMatrix K dimWorld)
    (l : List (Fin dimWorld)) (result : DimMatrix K dimWorld) (a b : Fin dimWorld) :
    l.foldl
        (fun result i =>
          (List.finRange dimWorld).foldl
            (fun result j =>
              Function.update result i
                (Function.update (result i) j (harmonicAverage (K1 i j) (K2 i j))))
            result)
        result a b
      = if a ∈ l then harmonicAverage (K1 a b) (K2 a b) else result a b := by
  induction l generalizing result with
  | nil => simp
  | cons i is ih =>
    rw [List.foldl_cons, ih, meanK_inner]
    by_cases ha : a ∈ is
    · simp [ha]
    · by_cases hai : a = i
      · subst hai
        simp [ha, List.mem_finRange]
      · simp [ha, hai]

theorem meanK_apply (harmonicAverage : K → K → K) (result K1 K2 : DimMatrix K dimWorld)
    (i j : Fin dimWorld) :
    meanK harmonicAverage result K1 K2 i j = harmonicAverage (K1 i j) (K2 i j) := by
  unfold meanK
  rw [meanK_outer]
  simp [List.mem_finRange]

/-- C18: `meanK(result, K1, K2)` is the entry-wise harmonic mean:
`result[i][j] = harmonicAverage(K1[i][j], K2[i][j])` for all `i, j < dimWorld`, whatever
`result` held before and whatever the other entries of `K1` and `K2` are; hence
`meanK(K1, K2) = meanK(K2, K1)` when `harmonicAverage` is symmetric. -/
theorem meanK_spec (harmonicAverage : K → K → K) (result K1 K2 : DimMatrix K dimWorld) :
    (∀ i j, meanK harmonicAverage result K1 K2 i j = harmonicAverage (K1 i j) (K2 i j))
    ∧ (∀ result', meanK harmonicAverage result' K1 K2 = meanK harmonicAverage result K1 K2)
    ∧ (∀ (K1' K2' : DimMatrix K dimWorld) i j, K1' i j = K1 i j → K2' i j = K2 i j →
        meanK harmonicAverage result K1' K2' i j = meanK harmonicAverage result K1 K2 i j)
    ∧ ((∀ x y, harmonicAverage x y = harmonicAverage y x) →
        ∀ result', meanK harmonicAverage result K1 K2 = meanK harmonicAverage result' K2 K1) := by
  refine ⟨meanK_apply harmonicAverage result K1 K2, fun result' => ?_,
    fun K1' K2' i j h1 h2 => ?_, fun hsymm result' => ?_⟩
  · funext i j
    rw [meanK_apply, meanK_apply]
  · rw [meanK_apply, meanK_apply, h1, h2]
  · funext i j
    rw [meanK_apply, meanK_apply, hsymm]

/-- Witness of C18: two 2 x 2 tensors, averaged with the symmetric example function. -/
theorem meanK_spec_witness :
    meanK exampleHarmonicAverage (fun _ _ => 7) ![![1, 0], ![0, 3]] ![![3, 0], ![0, 1]] 0 0
        = 3 / 2
    ∧ meanK exampleHarmonicAverage (fun _ _ => 7) ![![1, 0], ![0, 3]] ![![3, 0], ![0, 1]]
        = meanK exampleHarmonicAverage (fun _ _ => 0) ![![3, 0], ![0, 1]] ![![1, 0], ![0, 3]] := by
  have h := meanK_spec exampleHarmonicAverage (fun _ _ => 7)
    (![![1, 0], ![0, 3]] : DimMatrix ℚ 2) ![![3, 0], ![0, 1]]
  have hsymm : ∀ x y : ℚ, exampleHarmonicAverage x y = exampleHarmonicAverage y x := by
    intro x y
    unfold exampleHarmonicAverage
    have h2 : 2 * y * x = 2 * x * y := by ring
    rw [mul_comm y x, add_comm y x, h2]
  refine ⟨?_, h.2.2.2 hsymm _⟩
  rw [h.1 0 0]
  norm_num [exampleHarmonicAverage]

end MultiPhaseBaseProblem

end Ewoms

namespace Opm

theorem setupParameters_fst {Registry : Type} (sys : ParameterSystem Registry)
    (registry : Registry) (argv : List String) (registerParams allowUnused handleHelp : Bool)
    (s : String) (parsed : Registry)
    (hmpi : sys.haveMPI = false)
    (hparse : sys.parseCommandLineOptions
        (if registerParams then sys.registerAllParameters_ registry else registry) argv
        (if handleHelp then sys.helpPreamble argv else "") = (s, parsed)) :
    (setupParameters_ sys registry argv registerParams allowUnused handleHelp).1
      = if s ≠ "" then (if s = "Help called" then -1 else 1)
        else if sys.parameterFile parsed ≠ "" then
          (if sys.isOpen (sys.parameterFile parsed) then
            checkUnusedParams sys allowUnused
              (sys.parseParameterFile parsed (sys.parameterFile parsed))
          else 1)
        else checkUnusedParams sys allowUnused parsed := by
  unfold setupParameters_
  have hpre : (if ((0 : Int) == 0 && handleHelp) = true then sys.helpPreamble argv else "")
      = (if handleHelp then sys.helpPreamble argv else "") := by
    cases handleHelp <;> rfl
  simp only [hpre, hparse, hmpi]
  by_cases hs : s = ""
  · by_cases hf : sys.parameterFile parsed = ""
    · simp [hs, hf]
    · cases ho : sys.isOpen (sys.parameterFile parsed) <;> simp [hs, hf, ho]
  · by_cases hh : s = "Help called" <;> simp [hs, hh]

theorem checkUnusedParams_eq {Registry : Type} (sys : ParameterSystem Registry)
    (allowUnused : Bool) (registry : Registry) :
    checkUnusedParams sys allowUnused registry
      = if allowUnused = false ∧ sys.unusedParams registry ≠ [] then 1 else 0 := by
  unfold checkUnusedParams
  cases allowUnused <;> cases h : sys.unusedParams registry <;> simp [h]

/-- C19: without MPI, `setupParameters_` returns -1, 0 or 1: -1 exactly when the command
line parser reports "Help called", 1 when it reports another non-empty message, 1 when
(the parser reporting nothing) a parameter file is named but cannot be opened, 1 when
(after that) unknown parameters were specified and `allowUnused` is false, and 0 in every
other case.  Here `s` is the parser's message and `parsed` the registry it leaves. -/
theorem setupParameters_status {Registry : Type} (sys : ParameterSystem Registry)
    (registry : Registry) (argv : List String) (registerParams allowUnused handleHelp : Bool)
    (s : String) (parsed : Registry) (status : Int)
    (hmpi : sys.haveMPI = false)
    (hparse : sys.parseCommandLineOptions
        (if registerParams then sys.registerAllParameters_ registry else registry) argv
        (if handleHelp then sys.helpPreamble argv else "") = (s, parsed))
    (hstatus : status
      = (setupParameters_ sys registry argv registerParams allowUnused handleHelp).1) :
    (status = -1 ∨ status = 0 ∨ status = 1)
    ∧ (status = -1 ↔ s = "Help called")
    ∧ (s ≠ "" → s ≠ "Help called" → status = 1)
    ∧ (s = "" → sys.parameterFile parsed ≠ "" →
        sys.isOpen (sys.parameterFile parsed) = false → status = 1)
    ∧ (s = "" → sys.parameterFile parsed ≠ "" →
        sys.isOpen (sys.parameterFile parsed) = true → allowUnused = false →
        sys.unusedParams (sys.parseParameterFile parsed (sys.parameterFile parsed)) ≠ [] →
        status = 1)
    ∧ (s = "" → sys.parameterFile parsed = "" → allowUnused = false →
        sys.unusedParams parsed ≠ [] → status = 1)
    ∧ (status = 0 ↔
        s = "" ∧
          ((sys.parameterFile parsed = ""
              ∧ (allowUnused = true ∨ sys.unusedParams parsed = []))
            ∨ (sys.parameterFile parsed ≠ "" ∧ sys.isOpen (sys.parameterFile parsed) = true
              ∧ (allowUnused = true
                ∨ sys.unusedParams
                    (sys.parseParameterFile parsed (sys.parameterFile parsed)) = [])))) := by
  rw [setupParameters_fst sys registry argv registerParams allowUnused handleHelp s parsed
    hmpi hparse, checkUnusedParams_eq, checkUnusedParams_eq] at hstatus
  have hhelp : ("Help called" : String) ≠ "" := by decide
  by_cases hs : s = ""
  · subst hs
    have hnh : ("" : String) ≠ "Help called" := fun h => hhelp h.symm
    by_cases hf : sys.parameterFile parsed = ""
    · by_cases hu : allowUnused = false ∧ sys.unusedParams parsed ≠ []
      · have hst : status = 1 := by simpa [hf, hu] using hstatus
        subst hst
        refine ⟨by simp, by simp [hnh], by simp, by simp, by simp, by simp, ?_⟩
        cases allowUnused <;> simp_all
      · have hst : status = 0 := by simpa [hf, hu] using hstatus
        subst hst
        refine ⟨by simp, by simp [hnh], by simp, by simp [hf], by simp [hf], ?_, ?_⟩
        · intro _ _ h1 h2
          exact absurd ⟨h1, h2⟩ hu
        · cases allowUnused <;> simp_all
    · cases ho : sys.isOpen (sys.parameterFile parsed)
      · have hst : status = 1 := by simpa [hf, ho] using hstatus
        subst hst
        refine ⟨by simp, by simp [hnh], by simp, by simp, by simp, by simp, ?_⟩
        simp [hf, ho]
      · by_cases hu : allowUnused = false
            ∧ sys.unusedParams (sys.parseParameterFile parsed (sys.parameterFile parsed)) ≠ []
        · have hst : status = 1 := by simpa [hf, ho, hu] using hstatus
          subst hst
          refine ⟨by simp, by simp [hnh], by simp, by simp, by simp, by simp, ?_⟩
          cases allowUnused <;> simp_all
        · have hst : status = 0 := by simpa [hf, ho, hu] using hstatus
          subst hst
          refine ⟨by simp, by simp [hnh], by simp, by simp [ho], ?_, by simp [hf], ?_⟩
          · intro _ _ _ h1 h2
            exact absurd ⟨h1, h2⟩ hu
          · cases allowUnused <;> simp_all
  · by_cases hh : s = "Help called"
    · have hst : status = -1 := by simpa [hs, hh] using hstatus
      subst hst
      refine ⟨by simp, by simp [hh], by simp [hh], by simp [hs], by simp [hs], by simp [hs],
        by simp [hs]⟩
    · have hst : status = 1 := by simpa [hs, hh] using hstatus
      subst hst
      refine ⟨by simp, by simp [hh], by simp, by simp, by simp, by simp, by simp [hs]⟩

/-- Witness of C19: the example parameter system; `--help` gives -1, an unknown parameter 1,
a parameter file that cannot be opened 1, and a plain command line 0. -/
theorem setupParameters_status_witness :
    (setupParameters_ exampleParameterSystem [] ["prog", "--help"] true false true).1 = -1
    ∧ (setupParameters_ exampleParameterSystem [] ["prog", "--foo=1"] true false true).1 = 1
    ∧ (setupParameters_ exampleParameterSystem [] ["prog", "--parameter-file=missing.ini"]
        true false true).1 = 1
    ∧ (setupParameters_ exampleParameterSystem [] ["prog"] true false true).1 = 0 :=
  ⟨(setupParameters_status exampleParameterSystem [] ["prog", "--help"] true false true
      "Help called" ["prog", "--help"] _ rfl (by decide) rfl).2.1.mpr rfl,
    (setupParameters_status exampleParameterSystem [] ["prog", "--foo=1"] true false true
      "" ["prog", "--foo=1"] _ rfl (by decide) rfl).2.2.2.2.2.1 rfl (by decide) rfl (by decide),
    (setupParameters_status exampleParameterSystem [] ["prog", "--parameter-file=missing.ini"]
      true false true "" ["prog", "--parameter-file=missing.ini"] _ rfl (by decide)
      rfl).2.2.2.1 rfl (by decide) rfl,
    (setupParameters_status exampleParameterSystem [] ["prog"] true false true
      "" ["prog"] _ rfl (by decide) rfl).2.2.2.2.2.2.mpr
      ⟨rfl, Or.inl ⟨by decide, Or.inr (by decide)⟩⟩⟩

end Opm


namespace Dumux

namespace PvsVolumeVariables

variable {K : Type}

theorem auxConstraintsFirstLoop_one (switch0Idx : Nat) (priVars : PvsPrimaryVariables K)
    (lowestPresentPhaseIdx : Nat) :
    auxConstraintsFirstLoop 1 switch0Idx priVars lowestPresentPhaseIdx = ([], 0) := rfl

theorem auxConstraintsFirstLoop_succ (m switch0Idx : Nat) (priVars : PvsPrimaryVariables K)
    (lowestPresentPhaseIdx : Nat) :
    auxConstraintsFirstLoop (m + 2) switch0Idx priVars lowestPresentPhaseIdx
      = if !priVars.phaseIsPresent (switchPhaseIdx lowestPresentPhaseIdx m) then
          ((auxConstraintsFirstLoop (m + 1) switch0Idx priVars lowestPresentPhaseIdx).1
              ++ [⟨(auxConstraintsFirstLoop (m + 1) switch0Idx priVars lowestPresentPhaseIdx).2,
                    m, ⟨lowestPresentPhaseIdx, m + 1, priVars.get (switch0Idx + m)⟩⟩],
            (auxConstraintsFirstLoop (m + 1) switch0Idx priVars lowestPresentPhaseIdx).2 + 1)
        else auxConstraintsFirstLoop (m + 1) switch0Idx priVars lowestPresentPhaseIdx := by
  unfold auxConstraintsFirstLoop
  show (List.range (m + 1)).foldl _ _ = _
  rw [List.range_succ, List.foldl_append]
  rfl

/-- The first loop, for `numPhases = m + 1`: the counter `auxIdx` is the number of writes,
the entries written are `0, 1, ...` in this order, the slots read are those whose phase is
flagged non-present, and each constraint is built from its slot. -/
theorem auxConstraintsFirstLoop_spec (m switch0Idx : Nat) (priVars : PvsPrimaryVariables K)
    (lowestPresentPhaseIdx : Nat) :
    (auxConstraintsFirstLoop (m + 1) switch0Idx priVars lowestPresentPhaseIdx).2
        = (auxConstraintsFirstLoop (m + 1) switch0Idx priVars lowestPresentPhaseIdx).1.length
    ∧ (auxConstraintsFirstLoop (m + 1) switch0Idx priVars lowestPresentPhaseIdx).1.map
          (fun w => w.auxIdx)
        = List.range
            (auxConstraintsFirstLoop (m + 1) switch0Idx priVars lowestPresentPhaseIdx).1.length
    ∧ (auxConstraintsFirstLoop (m + 1) switch0Idx priVars lowestPresentPhaseIdx).1.map
          (fun w => w.switchIdx)
        = (List.range m).filter
            (fun s => !priVars.phaseIsPresent (switchPhaseIdx lowestPresentPhaseIdx s))
    ∧ ∀ w ∈ (auxConstraintsFirstLoop (m + 1) switch0Idx priVars lowestPresentPhaseIdx).1,
        w.constraint
          = ⟨lowestPresentPhaseIdx, w.switchIdx + 1, priVars.get (switch0Idx + w.switchIdx)⟩ := by
  induction m with
  | zero =>
    rw [auxConstraintsFirstLoop_one]
    simp
  | succ m ih =>
    obtain ⟨h1, h2, h3, h4⟩ := ih
    rw [auxConstraintsFirstLoop_succ]
    cases hp : priVars.phaseIsPresent (switchPhaseIdx lowestPresentPhaseIdx m)
    · simp only [Bool.not_false, if_true]
      refine ⟨?_, ?_, ?_, ?_⟩
      · simp [h1]
      · rw [List.map_append, h2, List.length_append, List.length_singleton, List.range_succ, h1]
        rfl
      · rw [List.map_append, h3, List.range_succ, List.filter_append]
        simp [hp]
      · intro w hw
        rcases List.mem_append.mp hw with hw | hw
        · exact h4 w hw
        · rw [List.mem_singleton.mp hw]
    · simp only [Bool.not_true, Bool.false_eq_true, if_false]
      refine ⟨h1, h2, ?_, h4⟩
      rw [h3, List.range_succ, List.filter_append]
      simp [hp]

theorem filter_range_length (q : Nat → Bool) (m : Nat) :
    ((List.range m).filter q).length = ((Finset.range m).filter (fun s => q s = true)).card := by
  induction m with
  | zero => simp
  | succ m ih =>
    rw [List.range_succ, List.filter_append, List.length_append, ih, Finset.range_succ,
      Finset.filter_insert]
    cases hq : q m <;> simp [hq]

theorem switchPhaseIdx_ne (lowestPresentPhaseIdx s : Nat) :
    switchPhaseIdx lowestPresentPhaseIdx s ≠ lowestPresentPhaseIdx := by
  unfold switchPhaseIdx
  split_ifs <;> omega

theorem switchPhaseIdx_lt (numPhases lowestPresentPhaseIdx s : Nat)
    (hlow : lowestPresentPhaseIdx < numPhases) (hs : s < numPhases - 1) :
    switchPhaseIdx lowestPresentPhaseIdx s < numPhases := by
  unfold switchPhaseIdx
  split_ifs <;> omega

theorem switchPhaseIdx_injective (lowestPresentPhaseIdx s t : Nat)
    (h : switchPhaseIdx lowestPresentPhaseIdx s = switchPhaseIdx lowestPresentPhaseIdx t) :
    s = t := by
  unfold switchPhaseIdx at h
  split_ifs at h <;> omega

theorem switchPhaseIdx_surjective (numPhases lowestPresentPhaseIdx p : Nat)
    (hlow : lowestPresentPhaseIdx < numPhases) (hp : p < numPhases)
    (hne : p ≠ lowestPresentPhaseIdx) :
    ∃ s, s < numPhases - 1 ∧ switchPhaseIdx lowestPresentPhaseIdx s = p := by
  by_cases h : p < lowestPresentPhaseIdx
  · refine ⟨p, by omega, ?_⟩
    · unfold switchPhaseIdx
      split_ifs <;> omega
  · refine ⟨p - 1, by omega, ?_⟩
    unfold switchPhaseIdx
    split_ifs <;> omega

theorem auxConstraintsFirstLoop_pred (numPhases switch0Idx : Nat)
    (priVars : PvsPrimaryVariables K) (lowestPresentPhaseIdx : Nat) :
    auxConstraintsFirstLoop numPhases switch0Idx priVars lowestPresentPhaseIdx
      = auxConstraintsFirstLoop (numPhases - 1 + 1) switch0Idx priVars lowestPresentPhaseIdx := by
  cases numPhases with
  | zero => rfl
  | succ m => rfl

theorem countNonPresentPhases_le (numPhases : Nat) (priVars : PvsPrimaryVariables K) :
    countNonPresentPhases numPhases priVars ≤ numPhases := by
  rw [countNonPresentPhases_eq_card]
  calc ((Finset.range numPhases).filter (fun p => priVars.phaseIsPresent p = false)).card
      ≤ (Finset.range numPhases).card := Finset.card_filter_le _ _
    _ = numPhases := Finset.card_range _

/-- When the lowest present phase is a phase flagged present, the slots whose phase is
flagged non-present are as many as the phases flagged non-present. -/
theorem firstLoop_count (numPhases : Nat) (priVars : PvsPrimaryVariables K)
    (hlow : priVars.lowestPresentPhaseIdx < numPhases)
    (hpres : priVars.phaseIsPresent priVars.lowestPresentPhaseIdx = true) :
    ((List.range (numPhases - 1)).filter
        (fun s => !priVars.phaseIsPresent
          (switchPhaseIdx priVars.lowestPresentPhaseIdx s))).length
      = countNonPresentPhases numPhases priVars := by
  rw [filter_range_length, countNonPresentPhases_eq_card]
  refine Finset.card_bij (fun s _ => switchPhaseIdx priVars.lowestPresentPhaseIdx s) ?_ ?_ ?_
  · intro s hs
    rw [Finset.mem_filter, Finset.mem_range] at hs ⊢
    refine ⟨switchPhaseIdx_lt numPhases _ s hlow hs.1, ?_⟩
    simpa using hs.2
  · intro s _ t _ h
    exact switchPhaseIdx_injective _ s t h
  · intro p hp
    rw [Finset.mem_filter, Finset.mem_range] at hp
    have hne : p ≠ priVars.lowestPresentPhaseIdx := by
      intro h
      rw [h, hpres] at hp
      exact absurd hp.2 (by simp)
    obtain ⟨s, hs, hsp⟩ := switchPhaseIdx_surjective numPhases _ p hlow hp.1 hne
    refine ⟨s, ?_, hsp⟩
    rw [Finset.mem_filter, Finset.mem_range]
    refine ⟨hs, ?_⟩
    rw [hsp, hp.2]
    rfl

/-- The writes of the two loops when the lowest present phase is a phase flagged present:
the first loop leaves `auxIdx = numNonPresentPhases`, and the second loop makes
`numComponents - numPhases` writes. -/
theorem auxConstraintWrites_eq (numPhases numComponents switch0Idx : Nat)
    (priVars : PvsPrimaryVariables K)
    (hlow : priVars.lowestPresentPhaseIdx < numPhases)
    (hpres : priVars.phaseIsPresent priVars.lowestPresentPhaseIdx = true) :
    (auxConstraintsFirstLoop numPhases switch0Idx priVars priVars.lowestPresentPhaseIdx).2
        = countNonPresentPhases numPhases priVars
    ∧ (auxConstraintsFirstLoop numPhases switch0Idx priVars
          priVars.lowestPresentPhaseIdx).1.length = countNonPresentPhases numPhases priVars
    ∧ auxConstraintWrites numPhases numComponents switch0Idx priVars
          (countNonPresentPhases numPhases priVars)
        = (auxConstraintsFirstLoop numPhases switch0Idx priVars
            priVars.lowestPresentPhaseIdx).1
          ++ (List.range (numComponents - numPhases)).map
              (fun k => ⟨countNonPresentPhases numPhases priVars + k, numPhases - 1 + k,
                ⟨priVars.lowestPresentPhaseIdx, numPhases + k,
                  priVars.get (switch0Idx + (numPhases - 1 + k))⟩⟩) := by
  have hspec := auxConstraintsFirstLoop_spec (numPhases - 1) switch0Idx priVars
    priVars.lowestPresentPhaseIdx
  rw [← auxConstraintsFirstLoop_pred] at hspec
  obtain ⟨h1, _, h3, _⟩ := hspec
  have hlen : (auxConstraintsFirstLoop numPhases switch0Idx priVars
      priVars.lowestPresentPhaseIdx).1.length = countNonPresentPhases numPhases priVars := by
    rw [← firstLoop_count numPhases priVars hlow hpres, ← h3, List.length_map]
  have h2 : (auxConstraintsFirstLoop numPhases switch0Idx priVars
      priVars.lowestPresentPhaseIdx).2 = countNonPresentPhases numPhases priVars := by
    rw [h1, hlen]
  refine ⟨h2, hlen, ?_⟩
  unfold auxConstraintWrites auxConstraintsSecondLoop
  simp only [h2]
  have hle := countNonPresentPhases_le numPhases priVars
  have hcnt : ((numComponents : Int) + (countNonPresentPhases numPhases priVars : Int)
      - (numPhases : Int) - (countNonPresentPhases numPhases priVars : Int)).toNat
      = numComponents - numPhases := by omega
  rw [hcnt]
  congr 1
  refine List.map_congr_left (fun k _ => ?_)
  have hidx : numPhases - countNonPresentPhases numPhases priVars
      + (countNonPresentPhases numPhases priVars + k) = numPhases + k := by omega
  rw [hidx]

/-- The writes of the two loops when the lowest present phase is a phase flagged present:
the entries written, the slots read and the form of the constraints. -/
theorem auxConstraintWrites_spec (numPhases numComponents switch0Idx : Nat)
    (priVars : PvsPrimaryVariables K)
    (hlow : priVars.lowestPresentPhaseIdx < numPhases)
    (hpres : priVars.phaseIsPresent priVars.lowestPresentPhaseIdx = true) :
    (auxConstraintWrites numPhases numComponents switch0Idx priVars
        (countNonPresentPhases numPhases priVars)).map (fun w => w.auxIdx)
      = List.range (countNonPresentPhases numPhases priVars + (numComponents - numPhases))
    ∧ (auxConstraintWrites numPhases numComponents switch0Idx priVars
        (countNonPresentPhases numPhases priVars)).map (fun w => w.switchIdx)
      = (List.range (numPhases - 1)).filter
          (fun s => !priVars.phaseIsPresent (switchPhaseIdx priVars.lowestPresentPhaseIdx s))
        ++ (List.range (numComponents - numPhases)).map (fun k => numPhases - 1 + k)
    ∧ ∀ w ∈ auxConstraintWrites numPhases numComponents switch0Idx priVars
          (countNonPresentPhases numPhases priVars),
        w.constraint = ⟨priVars.lowestPresentPhaseIdx, w.switchIdx + 1,
          priVars.get (switch0Idx + w.switchIdx)⟩ := by
  obtain ⟨_, hlen, hW⟩ := auxConstraintWrites_eq numPhases numComponents switch0Idx priVars
    hlow hpres
  have hspec := auxConstraintsFirstLoop_spec (numPhases - 1) switch0Idx priVars
    priVars.lowestPresentPhaseIdx
  rw [← auxConstraintsFirstLoop_pred] at hspec
  obtain ⟨_, ha, hs, hc⟩ := hspec
  rw [hW]
  refine ⟨?_, ?_, ?_⟩
  · rw [List.map_append, ha, hlen, List.range_add, List.map_map]
    rfl
  · rw [List.map_append, hs, List.map_map]
    rfl
  · intro w hw
    rcases List.mem_append.mp hw with hw | hw
    · exact hc w hw
    · obtain ⟨k, _, rfl⟩ := List.mem_map.mp hw
      have h1 : numPhases - 1 + k + 1 = numPhases + k := by omega
      simp only [h1]

theorem auxConstraintWrites_switchIdx_sublist (numPhases numComponents switch0Idx : Nat)
    (priVars : PvsPrimaryVariables K)
    (hlow : priVars.lowestPresentPhaseIdx < numPhases)
    (hpres : priVars.phaseIsPresent priVars.lowestPresentPhaseIdx = true) :
    ((auxConstraintWrites numPhases numComponents switch0Idx priVars
        (countNonPresentPhases numPhases priVars)).map (fun w => w.switchIdx)).Sublist
      (List.range (numPhases - 1 + (numComponents - numPhases))) := by
  rw [(auxConstraintWrites_spec numPhases numComponents switch0Idx priVars hlow hpres).2.1,
    List.range_add]
  exact List.Sublist.append (List.filter_sublist _) (List.Sublist.refl _)

theorem auxConstraintsArray_foldl_isSome (writes : List (AuxWrite K))
    (arr : Nat → Option (MMPCAuxConstraint K)) (i : Nat) :
    ((writes.foldl (fun (a : Nat → Option (MMPCAuxConstraint K)) (w : AuxWrite K) =>
        Function.update a w.auxIdx (some w.constraint)) arr i).isSome = true)
      ↔ (i ∈ writes.map (fun w => w.auxIdx) ∨ (arr i).isSome = true) := by
  induction writes generalizing arr with
  | nil => simp
  | cons w ws ih =>
    rw [List.foldl_cons, ih]
    by_cases hi : i = w.auxIdx
    · subst hi
      simp
    · have hi' : ¬ w.auxIdx = i := fun h => hi h.symm
      simp [Function.update_noteq hi, hi, hi']

theorem auxConstraintsArray_isSome (writes : List (AuxWrite K)) (i : Nat) :
    ((auxConstraintsArray writes i).isSome = true) ↔ i ∈ writes.map (fun w => w.auxIdx) := by
  unfold auxConstraintsArray
  rw [auxConstraintsArray_foldl_isSome]
  simp

/-- C22: in the multi-phase path, when `numComponents >= numPhases` and the lowest present
phase is a phase flagged present, the first loop makes `numNonPresentPhases` writes, the
second loop `numComponents - numPhases`, and together they write the entries
`0, 1, ..., numAuxConstraints - 1` of `auxConstraints`, each once and in this order, where
`numAuxConstraints = numComponents + numNonPresentPhases - numPhases`; no other entry is
written. -/
theorem auxConstraints_filled (numPhases numComponents switch0Idx : Nat)
    (priVars : PvsPrimaryVariables K)
    (hcomp : numPhases ≤ numComponents)
    (hlow : priVars.lowestPresentPhaseIdx < numPhases)
    (hpres : priVars.phaseIsPresent priVars.lowestPresentPhaseIdx = true) :
    (auxConstraintsFirstLoop numPhases switch0Idx priVars
        priVars.lowestPresentPhaseIdx).1.length = countNonPresentPhases numPhases priVars
    ∧ (auxConstraintsSecondLoop numPhases (countNonPresentPhases numPhases priVars)
          ((numComponents : Int) + countNonPresentPhases numPhases priVars - numPhases)
          switch0Idx priVars
          (auxConstraintsFirstLoop numPhases switch0Idx priVars
            priVars.lowestPresentPhaseIdx).2 (numPhases - 1)).length
        = numComponents - numPhases
    ∧ (auxConstraintWrites numPhases numComponents switch0Idx priVars
          (countNonPresentPhases numPhases priVars)).map (fun w => w.auxIdx)
        = List.range (numComponents + countNonPresentPhases numPhases priVars - numPhases)
    ∧ (auxConstraintWrites numPhases numComponents switch0Idx priVars
          (countNonPresentPhases numPhases priVars)).length
        = numComponents + countNonPresentPhases numPhases priVars - numPhases
    ∧ ((numComponents + countNonPresentPhases numPhases priVars - numPhases : Nat) : Int)
        = (numComponents : Int) + countNonPresentPhases numPhases priVars - numPhases
    ∧ ∀ i, ((auxConstraintsArray
          (auxConstraintWrites numPhases numComponents switch0Idx priVars
            (countNonPresentPhases numPhases priVars)) i).isSome = true)
        ↔ i < numComponents + countNonPresentPhases numPhases priVars - numPhases := by
  obtain ⟨h2, hlen, _⟩ := auxConstraintWrites_eq numPhases numComponents switch0Idx priVars
    hlow hpres
  have hidx := (auxConstraintWrites_spec numPhases numComponents switch0Idx priVars hlow
    hpres).1
  have hn : countNonPresentPhases numPhases priVars + (numComponents - numPhases)
      = numComponents + countNonPresentPhases numPhases priVars - numPhases := by omega
  rw [hn] at hidx
  refine ⟨hlen, ?_, hidx, ?_, by omega, fun i => ?_⟩
  · unfold auxConstraintsSecondLoop
    rw [List.length_map, List.length_range, h2]
    omega
  · have h := congrArg List.length hidx
    rwa [List.length_map, List.length_range] at h
  · rw [auxConstraintsArray_isSome, hidx, List.mem_range]

/-- Witness of C22: two phases, both present, and three components: the first loop writes
nothing and the second loop writes entry 0. -/
theorem auxConstraints_filled_witness :
    (auxConstraintWrites 2 3 1 (examplePriVars 0)
        (countNonPresentPhases 2 (examplePriVars 0))).map (fun w => w.auxIdx)
      = List.range (3 + countNonPresentPhases 2 (examplePriVars 0) - 2) :=
  (auxConstraints_filled 2 3 1 (examplePriVars 0) (by decide) (by decide) rfl).2.2.1

/-- C23: in the multi-phase path no two auxiliary constraints built in one `update` pin the
same (phase, component) pair, and no two of them take their value from the same switching
slot.  The primary variables (their class is not among the sources) are consistent:
`lowestPresentPhaseIdx()` is the index of a phase that `phaseIsPresent` flags present. -/
theorem auxConstraints_unique (numPhases numComponents switch0Idx : Nat)
    (priVars : PvsPrimaryVariables K)
    (hlow : priVars.lowestPresentPhaseIdx < numPhases)
    (hpres : priVars.phaseIsPresent priVars.lowestPresentPhaseIdx = true) :
    ((auxConstraintWrites numPhases numComponents switch0Idx priVars
        (countNonPresentPhases numPhases priVars)).map
      (fun w => (w.constraint.phaseIdx, w.constraint.compIdx))).Nodup
    ∧ ((auxConstraintWrites numPhases numComponents switch0Idx priVars
        (countNonPresentPhases numPhases priVars)).map (fun w => w.switchIdx)).Nodup := by
  have hslots : ((auxConstraintWrites numPhases numComponents switch0Idx priVars
      (countNonPresentPhases numPhases priVars)).map (fun w => w.switchIdx)).Nodup :=
    (auxConstraintWrites_switchIdx_sublist numPhases numComponents switch0Idx priVars hlow
      hpres).nodup (List.nodup_range _)
  refine ⟨?_, hslots⟩
  have hform := (auxConstraintWrites_spec numPhases numComponents switch0Idx priVars hlow
    hpres).2.2
  have hmap : (auxConstraintWrites numPhases numComponents switch0Idx priVars
        (countNonPresentPhases numPhases priVars)).map
        (fun w => (w.constraint.phaseIdx, w.constraint.compIdx))
      = ((auxConstraintWrites numPhases numComponents switch0Idx priVars
        (countNonPresentPhases numPhases priVars)).map (fun w => w.switchIdx)).map
        (fun s => (priVars.lowestPresentPhaseIdx, s + 1)) := by
    rw [List.map_map]
    refine List.map_congr_left (fun w hw => ?_)
    rw [hform w hw]
    rfl
  rw [hmap]
  refine hslots.map (fun s t h => ?_)
  have := (Prod.mk.inj h).2
  omega

/-- Witness of C23: three phases of which phase 1 alone is not present, four components;
the pinned pairs are (0, 1) and (0, 3), the slots read are 0 and 2. -/
theorem auxConstraints_unique_witness :
    ((auxConstraintWrites 3 4 1 examplePriVarsThreePhase
        (countNonPresentPhases 3 examplePriVarsThreePhase)).map
      (fun w => (w.constraint.phaseIdx, w.constraint.compIdx))).Nodup
    ∧ ((auxConstraintWrites 3 4 1 examplePriVarsThreePhase
        (countNonPresentPhases 3 examplePriVarsThreePhase)).map (fun w => w.switchIdx)).Nodup :=
  auxConstraints_unique 3 4 1 examplePriVarsThreePhase (by decide) rfl

/-- C24: in the first constraint-building loop the phase of switching slot `s` is `s` when
`s < lowestPresentPhaseIdx` and `s + 1` otherwise; for `lowestPresentPhaseIdx < numPhases`
the slots `0 .. numPhases - 2` visit every phase other than `lowestPresentPhaseIdx` exactly
once, never `lowestPresentPhaseIdx` and never a phase outside `0 .. numPhases - 1`; and the
slots that yield an auxiliary constraint are exactly those whose phase is not present. -/
theorem switchPhaseIdx_visits (numPhases switch0Idx : Nat) (priVars : PvsPrimaryVariables K)
    (lowestPresentPhaseIdx : Nat) (hlow : lowestPresentPhaseIdx < numPhases) :
    (∀ s, switchPhaseIdx lowestPresentPhaseIdx s
        = if s < lowestPresentPhaseIdx then s else s + 1)
    ∧ (∀ s, s < numPhases - 1 →
        switchPhaseIdx lowestPresentPhaseIdx s ≠ lowestPresentPhaseIdx
        ∧ switchPhaseIdx lowestPresentPhaseIdx s < numPhases)
    ∧ ((List.range (numPhases - 1)).map (switchPhaseIdx lowestPresentPhaseIdx)).Nodup
    ∧ (∀ p, p ∈ (List.range (numPhases - 1)).map (switchPhaseIdx lowestPresentPhaseIdx)
        ↔ (p < numPhases ∧ p ≠ lowestPresentPhaseIdx))
    ∧ (auxConstraintsFirstLoop numPhases switch0Idx priVars lowestPresentPhaseIdx).1.map
          (fun w => w.switchIdx)
        = (List.range (numPhases - 1)).filter
            (fun s => !priVars.phaseIsPresent (switchPhaseIdx lowestPresentPhaseIdx s))
    ∧ (∀ s, s ∈ (auxConstraintsFirstLoop numPhases switch0Idx priVars
            lowestPresentPhaseIdx).1.map (fun w => w.switchIdx)
        ↔ (s < numPhases - 1
            ∧ priVars.phaseIsPresent (switchPhaseIdx lowestPresentPhaseIdx s) = false)) := by
  have hloop : (auxConstraintsFirstLoop numPhases switch0Idx priVars
        lowestPresentPhaseIdx).1.map (fun w => w.switchIdx)
      = (List.range (numPhases - 1)).filter
          (fun s => !priVars.phaseIsPresent (switchPhaseIdx lowestPresentPhaseIdx s)) := by
    rw [auxConstraintsFirstLoop_pred]
    exact (auxConstraintsFirstLoop_spec (numPhases - 1) switch0Idx priVars
      lowestPresentPhaseIdx).2.2.1
  refine ⟨fun s => ?_, fun s hs => ⟨switchPhaseIdx_ne _ s, switchPhaseIdx_lt _ _ s hlow hs⟩,
    ?_, fun p => ?_, hloop, fun s => ?_⟩
  · unfold switchPhaseIdx
    by_cases h : s < lowestPresentPhaseIdx
    · rw [if_neg (by omega), if_pos h]
    · rw [if_pos (by omega), if_neg h]
  · exact (List.nodup_range _).map (fun s t h => switchPhaseIdx_injective _ s t h)
  · rw [List.mem_map]
    constructor
    · rintro ⟨s, hs, rfl⟩
      exact ⟨switchPhaseIdx_lt _ _ s hlow (List.mem_range.mp hs), switchPhaseIdx_ne _ s⟩
    · rintro ⟨hp, hne⟩
      obtain ⟨s, hs, hsp⟩ := switchPhaseIdx_surjective numPhases lowestPresentPhaseIdx p hlow
        hp hne
      exact ⟨s, List.mem_range.mpr hs, hsp⟩
  · rw [hloop, List.mem_filter, List.mem_range]
    simp

/-- Witness of C24: three phases with phase 0 the lowest present one; slots 0 and 1 belong
to phases 1 and 2, and only slot 0 (phase 1 is not present) yields a constraint. -/
theorem switchPhaseIdx_visits_witness :
    (List.range (3 - 1)).map (switchPhaseIdx 0) = [1, 2]
    ∧ (auxConstraintsFirstLoop 3 1 examplePriVarsThreePhase 0).1.map (fun w => w.switchIdx)
        = [0]
    ∧ (auxConstraintsFirstLoop 3 1 examplePriVarsThreePhase 0).1.map (fun w => w.switchIdx)
        = (List.range (3 - 1)).filter
            (fun s => !examplePriVarsThreePhase.phaseIsPresent (switchPhaseIdx 0 s)) :=
  ⟨rfl, rfl, (switchPhaseIdx_visits 3 1 examplePriVarsThreePhase 0 (by decide)).2.2.2.2.1⟩

/-- Counterexample to C25 as stated: with two phases, both present, and three components
the second constraint-building loop reads `priVars[switch0Idx + 1]`, and so does the
single-phase path when only phase 0 is present, although `numPhases - 1 = 1`. -/
theorem switchingSlotReads_beyond_numPhases :
    switchingSlotReads 2 3 1 (examplePriVars 0) = [1]
    ∧ switchingSlotReads 2 3 1 examplePriVarsSinglePhase = [0, 1]
    ∧ (examplePriVars 0).phaseIsPresent 0 = true
    ∧ ¬ (∀ k ∈ switchingSlotReads 2 3 1 (examplePriVars 0), k < 2 - 1) := by
  have h1 : switchingSlotReads 2 3 1 (examplePriVars 0) = [1] := by decide
  have h2 : switchingSlotReads 2 3 1 examplePriVarsSinglePhase = [0, 1] := by decide
  refine ⟨h1, h2, rfl, ?_⟩
  rw [h1]
  decide

theorem referenceCompositionReads_eq (numComponents : Nat) :
    referenceCompositionReads numComponents = List.range (numComponents - 1) := by
  unfold referenceCompositionReads
  rw [List.range'_eq_map_range, List.map_map]
  have hid : ((fun compIdx : Nat => compIdx - 1) ∘ fun x => 1 + x) = id := by
    funext x
    simp
  rw [hid, List.map_id]

theorem auxConstraintsSecondLoop_reads (numPhases numComponents switch0Idx : Nat)
    (priVars : PvsPrimaryVariables K)
    (hlow : priVars.lowestPresentPhaseIdx < numPhases)
    (hpres : priVars.phaseIsPresent priVars.lowestPresentPhaseIdx = true) :
    (auxConstraintsSecondLoop numPhases (countNonPresentPhases numPhases priVars)
        ((numComponents : Int) + countNonPresentPhases numPhases priVars - numPhases)
        switch0Idx priVars
        (auxConstraintsFirstLoop numPhases switch0Idx priVars
          priVars.lowestPresentPhaseIdx).2 (numPhases - 1)).map (fun w => w.switchIdx)
      = List.range' (numPhases - 1) (numComponents - numPhases) := by
  have h2 := (auxConstraintWrites_eq numPhases numComponents switch0Idx priVars hlow hpres).1
  unfold auxConstraintsSecondLoop
  rw [h2, List.map_map, List.range'_eq_map_range]
  have hle := countNonPresentPhases_le numPhases priVars
  have hcnt : ((numComponents : Int) + (countNonPresentPhases numPhases priVars : Int)
      - (numPhases : Int) - (countNonPresentPhases numPhases priVars : Int)).toNat
      = numComponents - numPhases := by omega
  rw [hcnt]
  rfl

theorem switchingSlotReads_multi (numPhases numComponents switch0Idx : Nat)
    (priVars : PvsPrimaryVariables K)
    (hlow : priVars.lowestPresentPhaseIdx < numPhases)
    (hpres : priVars.phaseIsPresent priVars.lowestPresentPhaseIdx = true)
    (hmulti : (countNonPresentPhases numPhases priVars : Int) ≠ (numPhases : Int) - 1) :
    switchingSlotReads numPhases numComponents switch0Idx priVars
      = (List.range (numPhases - 1)).filter
          (fun s => !priVars.phaseIsPresent (switchPhaseIdx priVars.lowestPresentPhaseIdx s))
        ++ List.range' (numPhases - 1) (numComponents - numPhases) := by
  unfold switchingSlotReads
  simp only [if_neg hmulti]
  rw [(auxConstraintWrites_spec numPhases numComponents switch0Idx priVars hlow hpres).2.1,
    List.range'_eq_map_range]

/-- C25, amended: when the lowest present phase is a phase flagged present, every access
`priVars[switch0Idx + k]` made by `update` (single-phase path and both constraint-building
loops) has `k < max numPhases numComponents - 1`, and all of them have `k < numPhases - 1`
if and only if `numComponents <= numPhases`.  The single-phase path reads exactly the slots
`0 .. numComponents - 2`; in the multi-phase path the first loop reads the slots below
`numPhases - 1` whose phase is not present and the second loop reads exactly the slots
`numPhases - 1 .. numComponents - 2`. -/
theorem switchingSlotReads_bound (numPhases numComponents switch0Idx : Nat)
    (priVars : PvsPrimaryVariables K)
    (hlow : priVars.lowestPresentPhaseIdx < numPhases)
    (hpres : priVars.phaseIsPresent priVars.lowestPresentPhaseIdx = true) :
    (∀ k ∈ switchingSlotReads numPhases numComponents switch0Idx priVars,
        k < max numPhases numComponents - 1)
    ∧ ((∀ k ∈ switchingSlotReads numPhases numComponents switch0Idx priVars,
          k < numPhases - 1) ↔ numComponents ≤ numPhases)
    ∧ ((countNonPresentPhases numPhases priVars : Int) = (numPhases : Int) - 1 →
        switchingSlotReads numPhases numComponents switch0Idx priVars
          = List.range (numComponents - 1))
    ∧ ((countNonPresentPhases numPhases priVars : Int) ≠ (numPhases : Int) - 1 →
        switchingSlotReads numPhases numComponents switch0Idx priVars
          = (List.range (numPhases - 1)).filter
              (fun s => !priVars.phaseIsPresent
                (switchPhaseIdx priVars.lowestPresentPhaseIdx s))
            ++ List.range' (numPhases - 1) (numComponents - numPhases))
    ∧ (auxConstraintsFirstLoop numPhases switch0Idx priVars
          priVars.lowestPresentPhaseIdx).1.map (fun w => w.switchIdx)
        = (List.range (numPhases - 1)).filter
            (fun s => !priVars.phaseIsPresent
              (switchPhaseIdx priVars.lowestPresentPhaseIdx s))
    ∧ (auxConstraintsSecondLoop numPhases (countNonPresentPhases numPhases priVars)
          ((numComponents : Int) + countNonPresentPhases numPhases priVars - numPhases)
          switch0Idx priVars
          (auxConstraintsFirstLoop numPhases switch0Idx priVars
            priVars.lowestPresentPhaseIdx).2 (numPhases - 1)).map (fun w => w.switchIdx)
        = List.range' (numPhases - 1) (numComponents - numPhases) := by
  have hsingle : (countNonPresentPhases numPhases priVars : Int) = (numPhases : Int) - 1 →
      switchingSlotReads numPhases numComponents switch0Idx priVars
        = List.range (numComponents - 1) := by
    intro h
    unfold switchingSlotReads
    simp only [if_pos h]
    exact referenceCompositionReads_eq numComponents
  have hmulti := switchingSlotReads_multi numPhases numComponents switch0Idx priVars hlow hpres
  have hfirst : (auxConstraintsFirstLoop numPhases switch0Idx priVars
        priVars.lowestPresentPhaseIdx).1.map (fun w => w.switchIdx)
      = (List.range (numPhases - 1)).filter
          (fun s => !priVars.phaseIsPresent
            (switchPhaseIdx priVars.lowestPresentPhaseIdx s)) := by
    rw [auxConstraintsFirstLoop_pred]
    exact (auxConstraintsFirstLoop_spec (numPhases - 1) switch0Idx priVars
      priVars.lowestPresentPhaseIdx).2.2.1
  have hall : ∀ k ∈ switchingSlotReads numPhases numComponents switch0Idx priVars,
      k < numComponents - 1 ∨ k < numPhases - 1
        ∨ (numPhases - 1 ≤ k ∧ k < numPhases - 1 + (numComponents - numPhases)) := by
    intro k hk
    by_cases hpath : (countNonPresentPhases numPhases priVars : Int) = (numPhases : Int) - 1
    · rw [hsingle hpath] at hk
      exact Or.inl (List.mem_range.mp hk)
    · rw [hmulti hpath, List.mem_append] at hk
      rcases hk with hk | hk
      · exact Or.inr (Or.inl (List.mem_range.mp (List.mem_filter.mp hk).1))
      · rw [List.mem_range'_1] at hk
        exact Or.inr (Or.inr hk)
  have hread : numPhases < numComponents →
      numPhases - 1 ∈ switchingSlotReads numPhases numComponents switch0Idx priVars := by
    intro hc
    by_cases hpath : (countNonPresentPhases numPhases priVars : Int) = (numPhases : Int) - 1
    · rw [hsingle hpath, List.mem_range]
      omega
    · rw [hmulti hpath, List.mem_append, List.mem_range'_1]
      exact Or.inr ⟨le_refl _, by omega⟩
  refine ⟨fun k hk => ?_, ⟨fun hk => ?_, fun hc k hk => ?_⟩, hsingle, hmulti, hfirst,
    auxConstraintsSecondLoop_reads numPhases numComponents switch0Idx priVars hlow hpres⟩
  · have h1 := le_max_left numPhases numComponents
    have h2 := le_max_right numPhases numComponents
    rcases hall k hk with h | h | h <;> omega
  · by_contra hc
    have := hk _ (hread (by omega))
    omega
  · rcases hall k hk with h | h | h <;> omega

/-- Witness of C25: two phases, both present, three components; the one slot read is 1,
below `max 2 3 - 1`. -/
theorem switchingSlotReads_bound_witness :
    (examplePriVars 0).lowestPresentPhaseIdx < 2
    ∧ (examplePriVars 0).phaseIsPresent (examplePriVars 0).lowestPresentPhaseIdx = true
    ∧ switchingSlotReads 2 3 1 (examplePriVars 0) = [1]
    ∧ ∀ k ∈ switchingSlotReads 2 3 1 (examplePriVars 0), k < max 2 3 - 1 :=
  ⟨by decide, rfl, by decide,
    (switchingSlotReads_bound 2 3 1 (examplePriVars 0) (by decide) rfl).1⟩

/-- C27: after the saturation step of `update` the stored saturations of all phases sum to
`1 - priVars.explicitSaturationValue(priVars.implicitSaturationIdx())`; hence they sum to 1
if and only if the explicit saturation value of the implicit phase is 0, and every other
phase keeps its explicit saturation value. -/
theorem setSaturations_sum_spec [LinearOrderedField K] (numPhases : Nat)
    (priVars : PvsPrimaryVariables K) (fs : CompositionalFluidState K)
    (himpl : priVars.implicitSaturationIdx < numPhases) :
    ∑ p in Finset.range numPhases, (setSaturations numPhases priVars fs).saturation p
        = 1 - priVars.explicitSaturationValue priVars.implicitSaturationIdx
    ∧ (∑ p in Finset.range numPhases, (setSaturations numPhases priVars fs).saturation p = 1
        ↔ priVars.explicitSaturationValue priVars.implicitSaturationIdx = 0)
    ∧ (setSaturations numPhases priVars fs).saturation priVars.implicitSaturationIdx
        = 1 - ∑ p in Finset.range numPhases, priVars.explicitSaturationValue p
    ∧ ∀ p, p < numPhases → p ≠ priVars.implicitSaturationIdx →
        (setSaturations numPhases priVars fs).saturation p
          = priVars.explicitSaturationValue p := by
  have hsum := setSaturations_sum numPhases priVars fs himpl
  refine ⟨hsum, ?_, ?_, fun p hp hne => ?_⟩
  · rw [hsum]
    constructor
    · intro h
      linarith
    · intro h
      rw [h, sub_zero]
  · rw [setSaturations_saturation, Function.update_same]
  · rw [setSaturations_saturation, Function.update_noteq hne, if_pos hp]

/-- Witness of C27: the two-phase example with explicit value `1/4` for the implicit phase;
the saturations sum to `3/4`. -/
theorem setSaturations_sum_spec_witness :
    ∑ p in Finset.range 2,
        (setSaturations 2 (examplePriVars (1 / 4)) exampleFluidState).saturation p
      = 1 - (examplePriVars (1 / 4)).explicitSaturationValue
          (examplePriVars (1 / 4)).implicitSaturationIdx :=
  (setSaturations_sum_spec 2 (examplePriVars (1 / 4)) exampleFluidState (by decide)).1

/-- C28: every auxiliary constraint built by the multi-phase path of `update` (lowest
present phase flagged present) is `(lowestPresentPhaseIdx, s + 1, priVars[switch0Idx + s])`
for its switching slot `s`: it pins a mole fraction of the lowest present phase, its
component is the slot index plus one, never component 0; the single-phase path stores the
same `priVars[switch0Idx + s]` as mole fraction of component `s + 1` of that phase. -/
theorem auxConstraint_form [LinearOrderedField K] (numPhases numComponents switch0Idx : Nat)
    (priVars : PvsPrimaryVariables K) (fs : CompositionalFluidState K)
    (hcomp : numPhases ≤ numComponents)
    (hlow : priVars.lowestPresentPhaseIdx < numPhases)
    (hpres : priVars.phaseIsPresent priVars.lowestPresentPhaseIdx = true) :
    (∀ w ∈ auxConstraintWrites numPhases numComponents switch0Idx priVars
          (countNonPresentPhases numPhases priVars),
        w.constraint = ⟨priVars.lowestPresentPhaseIdx, w.switchIdx + 1,
            priVars.get (switch0Idx + w.switchIdx)⟩
        ∧ w.constraint.phaseIdx = priVars.lowestPresentPhaseIdx
        ∧ w.constraint.compIdx = w.switchIdx + 1
        ∧ w.constraint.compIdx ≠ 0
        ∧ w.constraint.value = priVars.get (switch0Idx + w.switchIdx)
        ∧ (setReferenceComposition numComponents switch0Idx priVars
              priVars.lowestPresentPhaseIdx fs).moleFraction w.constraint.phaseIdx
              w.constraint.compIdx = w.constraint.value)
    ∧ ∀ s, s + 1 < numComponents →
        (setReferenceComposition numComponents switch0Idx priVars
            priVars.lowestPresentPhaseIdx fs).moleFraction priVars.lowestPresentPhaseIdx
            (s + 1) = priVars.get (switch0Idx + s) := by
  have hform := (auxConstraintWrites_spec numPhases numComponents switch0Idx priVars hlow
    hpres).2.2
  have hsub := auxConstraintWrites_switchIdx_sublist numPhases numComponents switch0Idx priVars
    hlow hpres
  have hsingle : ∀ s, s + 1 < numComponents →
      (setReferenceComposition numComponents switch0Idx priVars
          priVars.lowestPresentPhaseIdx fs).moleFraction priVars.lowestPresentPhaseIdx
          (s + 1) = priVars.get (switch0Idx + s) := by
    intro s hs
    rw [setReferenceComposition_moleFraction, if_neg (Nat.succ_ne_zero s), if_pos hs]
    rfl
  refine ⟨fun w hw => ?_, hsingle⟩
  have hw' := hform w hw
  have hslot : w.switchIdx < numPhases - 1 + (numComponents - numPhases) :=
    List.mem_range.mp (hsub.subset (List.mem_map_of_mem (fun w => w.switchIdx) hw))
  refine ⟨hw', ?_, ?_, ?_, ?_, ?_⟩
  · rw [hw']
  · rw [hw']
  · rw [hw']
    exact Nat.succ_ne_zero _
  · rw [hw']
  · rw [hw']
    exact hsingle w.switchIdx (by omega)

/-- Witness of C28: three phases of which phase 1 alone is not present, four components;
the constraints built are `(0, 1, priVars[1 + 0])` and `(0, 3, priVars[1 + 2])`. -/
theorem auxConstraint_form_witness :
    examplePriVarsThreePhase.lowestPresentPhaseIdx < 3
    ∧ examplePriVarsThreePhase.phaseIsPresent examplePriVarsThreePhase.lowestPresentPhaseIdx
        = true
    ∧ ∀ w ∈ auxConstraintWrites 3 4 1 examplePriVarsThreePhase
        (countNonPresentPhases 3 examplePriVarsThreePhase),
      w.constraint = ⟨examplePriVarsThreePhase.lowestPresentPhaseIdx, w.switchIdx + 1,
        examplePriVarsThreePhase.get (1 + w.switchIdx)⟩ :=
  ⟨by decide, rfl, fun w hw =>
    ((auxConstraint_form 3 4 1 examplePriVarsThreePhase exampleFluidState
      (by decide) (by decide) rfl).1 w hw).1⟩

/-- C29: in the multi-phase path of `update`, if `numComponents >= numPhases` and at least
two phases, among them the lowest present one, are flagged present, then every write
`auxConstraints[auxIdx]` has `auxIdx < numComponents`, every pinned component index lies
in `1 .. numComponents - 1`, and every switching slot read is at most
`numComponents - 2`. -/
theorem auxConstraints_index_safety (numPhases numComponents switch0Idx : Nat)
    (priVars : PvsPrimaryVariables K)
    (hcomp : numPhases ≤ numComponents)
    (hlow : priVars.lowestPresentPhaseIdx < numPhases)
    (hpres : priVars.phaseIsPresent priVars.lowestPresentPhaseIdx = true)
    (htwo : countNonPresentPhases numPhases priVars + 2 ≤ numPhases) :
    ∀ w ∈ auxConstraintWrites numPhases numComponents switch0Idx priVars
        (countNonPresentPhases numPhases priVars),
      w.auxIdx < numComponents
      ∧ 1 ≤ w.constraint.compIdx ∧ w.constraint.compIdx < numComponents
      ∧ w.switchIdx ≤ numComponents - 2
      ∧ w.switchIdx + 2 ≤ numComponents := by
  intro w hw
  obtain ⟨hidx, _, hform⟩ := auxConstraintWrites_spec numPhases numComponents switch0Idx
    priVars hlow hpres
  have hsub := auxConstraintWrites_switchIdx_sublist numPhases numComponents switch0Idx priVars
    hlow hpres
  have hslot : w.switchIdx < numPhases - 1 + (numComponents - numPhases) :=
    List.mem_range.mp (hsub.subset (List.mem_map_of_mem (fun w => w.switchIdx) hw))
  have haux : w.auxIdx
      < countNonPresentPhases numPhases priVars + (numComponents - numPhases) := by
    have hmem : w.auxIdx ∈ (auxConstraintWrites numPhases numComponents switch0Idx priVars
        (countNonPresentPhases numPhases priVars)).map (fun w => w.auxIdx) :=
      List.mem_map_of_mem (fun w => w.auxIdx) hw
    rw [hidx] at hmem
    exact List.mem_range.mp hmem
  have hc : w.constraint.compIdx = w.switchIdx + 1 := by rw [hform w hw]
  refine ⟨by omega, by omega, by omega, by omega, by omega⟩

/-- Witness of C29: three phases of which phases 0 and 2 are present, four components. -/
theorem auxConstraints_index_safety_witness :
    countNonPresentPhases 3 examplePriVarsThreePhase + 2 ≤ 3
    ∧ examplePriVarsThreePhase.phaseIsPresent examplePriVarsThreePhase.lowestPresentPhaseIdx
        = true
    ∧ ∀ w ∈ auxConstraintWrites 3 4 1 examplePriVarsThreePhase
        (countNonPresentPhases 3 examplePriVarsThreePhase),
      w.auxIdx < 4 ∧ 1 ≤ w.constraint.compIdx ∧ w.constraint.compIdx < 4
        ∧ w.switchIdx ≤ 4 - 2 ∧ w.switchIdx + 2 ≤ 4 :=
  ⟨by decide, rfl,
    auxConstraints_index_safety 3 4 1 examplePriVarsThreePhase (by decide) (by decide) rfl
      (by decide)⟩

end PvsVolumeVariables

end Dumux

namespace Dumux

namespace OnePTwoCLocalResidual

variable {K : Type} [LinearOrderedField K] {numEq dimWorld : Nat}

end OnePTwoCLocalResidual

end Dumux

namespace Ewoms

namespace MultiPhaseBaseProblem

variable {K : Type} {dimWorld : Nat}

theorem toDimMatrix_loop [LinearOrderedField K] (val : K) (l : List (Fin dimWorld))
    (ret : DimMatrix K dimWorld) (i j : Fin dimWorld) :
    l.foldl (fun ret i => Function.update ret i (Function.update (ret i) i val)) ret i j
      = if i = j ∧ i ∈ l then val else ret i j := by
  induction l generalizing ret with
  | nil => simp
  | cons k ks ih =>
    rw [List.foldl_cons, ih]
    by_cases hik : i = k
    · subst hik
      by_cases hij : i = j
      · subst hij
        simp
      · simp [hij, Function.update_noteq (Ne.symm hij)]
    · by_cases hij : i = j
      · subst hij
        by_cases hmem : i ∈ ks
        · simp [hmem]
        · simp [hmem, hik, Function.update_noteq hik]
      · simp [hij, Function.update_noteq hik]

/-- C26: `toDimMatrix_(val)` returns the isotropic tensor of `val`: for every scalar `val`
and all `i, j < dimWorld` the entry of the returned matrix is `val` when `i = j` and 0 when
`i != j`. -/
theorem toDimMatrix_spec [LinearOrderedField K] (val : K) (i j : Fin dimWorld) :
    (toDimMatrix_ val : DimMatrix K dimWorld) i j = if i = j then val else 0 := by
  unfold toDimMatrix_
  rw [toDimMatrix_loop]
  simp [List.mem_finRange]

end MultiPhaseBaseProblem

end Ewoms

namespace Opm

/-- C30: a help request makes `setupParameters_` return -1, which `start` compares with 1
and with 2 only: on the command line `prog --help` of the example system `start` does not
return after parameter set-up but initialises the thread manager and MPI, then constructs
and runs the simulator and returns 0; when no end time has been set it returns 1. -/
theorem start_runs_after_help :
    (setupParameters_ exampleParameterSystem [] ["prog", "--help"] true false true).1 = -1
    ∧ start (exampleStartSystem 100) [] ["prog", "--help"] true
        = (0, [StartEvent.threadManagerInit, StartEvent.mpiInit,
            StartEvent.simulatorConstructed, StartEvent.simulatorRun])
    ∧ start (exampleStartSystem (-1e100)) [] ["prog", "--help"] true
        = (1, [StartEvent.threadManagerInit, StartEvent.mpiInit]) := by
  have h : setupParameters_ exampleParameterSystem [] ["prog", "--help"] true false true
      = (-1, ["prog", "--help"]) := by decide
  refine ⟨by rw [h], ?_, ?_⟩
  · unfold start
    simp only [exampleStartSystem, h]
    norm_num
  · unfold start
    simp only [exampleStartSystem, h]
    norm_num

end Opm
